import Mathlib

/-!
# ccloud client: resource operations over an abstract transport

A shallow embedding of `ccloud/clusters.go` and `ccloud/iam_api_key.go`.

Each Go method performs one call to the transport helper, compares the status
code of the response with the expected code, and either decodes the body or
builds an error with `fmt.Errorf`.  The embedding makes the effects of a call
explicit: every operation returns a `Run` that records the requests handed to
the transport helper, the final state of the response body (open or closed),
the lines written with `log.Print`, and the Go return values.

The HTTP round trip and the `encoding/json` decoder and encoder are not part of
the two source files; they are parameters of the operations.  What the decoder
stores for a body that is valid JSON for the result type is modelled apart, from
the JSON grammar and from the struct tags of the result types: `parseJSON` reads
the text of a body and `decodeKafkaCluster`, `decodeKafkaClusterList` and
`decodeAPIKey` store the members of the object into a zero value.  The theorem
on decoded results holds for every decoder that behaves as this model.
-/

namespace ccloud

/-! ## Go values used by the operations -/

/-- Go `error` values.  `foreign` is an error made outside this package (the
HTTP client, the JSON decoder); `errorf` is a fresh error made here by
`fmt.Errorf` with the formatted message. -/
inductive GoError where
  | foreign (msg : String)
  | errorf (msg : String)
  deriving DecidableEq, Repr

/-- The `Error()` method of a Go error: its message. -/
def GoError.Error : GoError → String
  | .foreign msg => msg
  | .errorf msg => msg

/-- The HTTP verbs of `net/http` used by the operations. -/
inductive Method where
  | MethodGet
  | MethodPost
  | MethodPatch
  | MethodPut
  | MethodDelete
  deriving DecidableEq, Repr

/-- The constant `http.StatusOK`. -/
def StatusOK : Int := 200

/-- The constant `http.StatusAccepted`. -/
def StatusAccepted : Int := 202

/-- The constant `http.StatusNoContent`. -/
def StatusNoContent : Int := 204

/-! ## Data model -/

/-- Modelled from the spec: `common.BaseModel` is declared outside the two
source files; the spec describes it as the common envelope (identifier, API
version and kind, resource name, metadata). -/
structure BaseModel where
  Id : String
  ApiVersion : String
  Kind : String
  ResourceName : String
  Metadata : List (String × String)
  deriving DecidableEq, Repr

/-- Modelled from the spec: `common.PaginationOptions` is declared outside the
two source files; the spec describes page size and page token. -/
structure PaginationOptions where
  PageSize : Int
  PageToken : String
  deriving DecidableEq, Repr

/-- Modelled from the spec: the `Environment` resource type is declared outside
the two source files; only its envelope is kept. -/
structure Environment where
  BaseModel : BaseModel
  deriving DecidableEq, Repr

/-- The anonymous struct of `KafkaCluster.Spec.Config`. -/
structure KafkaClusterSpecConfig where
  Kind : String
  Cku : Int
  Zones : List String
  deriving DecidableEq, Repr

/-- The anonymous struct of `KafkaCluster.Spec`.  `KafkaClusterAvailability`,
`KafkaClusterKind` and `common.CloudProvider` are string types. -/
structure KafkaClusterSpec where
  DisplayName : String
  Availability : String
  Cloud : String
  Region : String
  KafkaBootstrapEndpoint : String
  HttpEndpoint : String
  Config : KafkaClusterSpecConfig
  Network : BaseModel
  Environment : Environment
  deriving DecidableEq, Repr

/-- The anonymous struct of `KafkaCluster.Status`. -/
structure KafkaClusterStatus where
  Phase : String
  CKU : Int
  deriving DecidableEq, Repr

/-- The Go struct `KafkaCluster`. -/
structure KafkaCluster where
  BaseModel : BaseModel
  Spec : KafkaClusterSpec
  Status : KafkaClusterStatus
  deriving DecidableEq, Repr

/-- The Go struct `KafkaClusterList`. -/
structure KafkaClusterList where
  BaseModel : BaseModel
  Data : List KafkaCluster
  deriving DecidableEq, Repr

/-- The Go struct `KafkaClusterListOptions`. -/
structure KafkaClusterListOptions where
  PaginationOptions : PaginationOptions
  EnvironmentId : String
  deriving DecidableEq, Repr

/-- The anonymous `Config` struct of the create and update requests. -/
structure ReqConfig where
  Kind : String
  CKU : Int
  deriving DecidableEq, Repr

/-- The anonymous `Environment` and `Network` structs of the requests, and the
`Owner` and `Resource` structs of `CreateAPIKeyReq`: an id and an environment. -/
structure ReqRef where
  Id : String
  Environment : String
  deriving DecidableEq, Repr

/-- The Go struct `KafkaClusterCreateReq`. -/
structure KafkaClusterCreateReq where
  DisplayName : String
  Availability : String
  Cloud : String
  Region : String
  Config : ReqConfig
  Environment : ReqRef
  Network : ReqRef
  deriving DecidableEq, Repr

/-- The Go struct `KafkaClusterUpdateReq`. -/
structure KafkaClusterUpdateReq where
  DisplayName : String
  Config : ReqConfig
  Environment : ReqRef
  deriving DecidableEq, Repr

/-- The Go struct `KafkaClusterConfigUpdateData`. -/
structure KafkaClusterConfigUpdateData where
  Name : String
  Operation : String
  Value : String
  deriving DecidableEq, Repr

/-- The Go struct `KafkaClusterConfigUpdateReq`. -/
structure KafkaClusterConfigUpdateReq where
  Data : List KafkaClusterConfigUpdateData
  deriving DecidableEq, Repr

/-- The Go struct `CreateAPIKeyReq`. -/
structure CreateAPIKeyReq where
  DisplayName : String
  Description : String
  Owner : ReqRef
  Resource : ReqRef
  deriving DecidableEq, Repr

/-- The anonymous `Owner` and `Resource` structs of `APIKeySpec`. -/
structure APIKeyRef where
  ID : String
  Environment : String
  Related : String
  ResourceName : String
  APIVersion : String
  Kind : String
  deriving DecidableEq, Repr

/-- The Go struct `APIKeySpec`. -/
structure APIKeySpec where
  Secret : String
  DisplayName : String
  Description : String
  Owner : APIKeyRef
  Resource : APIKeyRef
  deriving DecidableEq, Repr

/-- The Go struct `APIKey`. -/
structure APIKey where
  BaseModel : BaseModel
  Spec : APIKeySpec
  deriving DecidableEq, Repr

/-! ## Requests and responses -/

/-- The Go values the operations pass as request payload.  The pointer
arguments may be nil, hence the `Option`. -/
inductive Payload where
  | KafkaClusterCreateReq (p : Option KafkaClusterCreateReq)
  | KafkaClusterUpdateReq (p : Option KafkaClusterUpdateReq)
  | KafkaClusterConfigUpdateReq (p : Option KafkaClusterConfigUpdateReq)
  | CreateAPIKeyReq (p : Option CreateAPIKeyReq)
  | stringMap (m : List (String × String))
  deriving DecidableEq, Repr

/-- The `body` argument of the transport helper: the untyped nil, a Go value,
or a Go value inside `specWrap`. -/
inductive ReqBody where
  | nil
  | value (p : Payload)
  | specWrap (p : Payload)
  deriving DecidableEq, Repr

/-- The `queryOptions` argument of the transport helper: the untyped nil, a
`*KafkaClusterListOptions` (possibly a nil pointer), or a
`KafkaClusterListOptions` value. -/
inductive QueryOptions where
  | nil
  | ptr (opt : Option KafkaClusterListOptions)
  | val (opt : KafkaClusterListOptions)
  deriving DecidableEq, Repr

/-- One call of the transport helper.  `host = none` is a call of `doRequest`
(the default control-plane host), `host = some h` a call of
`doRequestByHost h`. -/
structure Request where
  host : Option String
  path : String
  method : Method
  body : ReqBody
  query : QueryOptions
  deriving DecidableEq, Repr

/-- The body of an HTTP response: its content and whether `Close` was called.
The read position is not modelled; no operation reads a body twice. -/
structure RespBody where
  data : String
  closed : Bool
  deriving DecidableEq, Repr

/-- The method `Body.Close()`. -/
def RespBody.Close (b : RespBody) : RespBody :=
  { b with closed := true }

/-- The fields of `http.Response` the operations read. -/
structure Response where
  StatusCode : Int
  Status : String
  Body : RespBody
  deriving DecidableEq, Repr

/-- The client.  The HTTP round trip behind `doRequest` and `doRequestByHost`
is a parameter: it yields a response or an error. -/
structure ConfluentClient where
  roundTrip : Request → Except GoError Response

/-- Modelled from the spec: `doRequest` is declared outside the two source
files; it sends the request to the default control-plane host and returns the
raw response or the transport error. -/
def ConfluentClient.doRequest (c : ConfluentClient) (path : String) (method : Method)
    (body : ReqBody) (query : QueryOptions) : Request × Except GoError Response :=
  let rq : Request := { host := none, path := path, method := method, body := body, query := query }
  (rq, c.roundTrip rq)

/-- Modelled from the spec: `doRequestByHost` is declared outside the two source
files; it sends the request to the host given by the caller and returns the raw
response or the transport error. -/
def ConfluentClient.doRequestByHost (c : ConfluentClient) (host path : String) (method : Method)
    (body : ReqBody) (query : QueryOptions) : Request × Except GoError Response :=
  let rq : Request := { host := some host, path := path, method := method, body := body, query := query }
  (rq, c.roundTrip rq)

/-- The `encoding/json` decoder at the three result types, a parameter of the
model: `json.NewDecoder(body).Decode(&v)` yields the decoded value or an error. -/
structure JSONDecoder where
  KafkaClusterList : String → Except GoError KafkaClusterList
  KafkaCluster : String → Except GoError KafkaCluster
  APIKey : String → Except GoError APIKey

/-- JSON values: the serialised form of a request body and the parsed form of a
response body.  `num` is a number written without fraction and exponent, `float`
keeps the text of any other number. -/
inductive Json where
  | null
  | bool (b : Bool)
  | str (s : String)
  | num (n : Int)
  | float (lit : String)
  | arr (xs : List Json)
  | obj (kvs : List (String × Json))

/-- Modelled from the spec: the serialisation of the request body is done by the
transport helper, outside the two source files.  The untyped nil gives no body,
`specWrap` nests the value under the key `spec`, a Go value is serialised by
`encoding/json` (the parameter `enc`), and a string map becomes an object of
string members. -/
def ReqBody.marshal (enc : Payload → Json) : ReqBody → Option Json
  | .nil => none
  | .value (.stringMap m) => some (.obj (m.map fun kv => (kv.1, Json.str kv.2)))
  | .value p => some (enc p)
  | .specWrap p => some (.obj [("spec", enc p)])

/-- The observable effects and the return values of one operation. -/
structure Run (α : Type) where
  /-- The requests handed to the transport helper, in order. -/
  sent : List Request
  /-- The final state of the response body, when a response was received. -/
  body : Option RespBody
  /-- The lines written with `log.Print`. -/
  log : List String
  /-- The Go return values. -/
  ret : α

/-! ## Cluster operations (`clusters.go`) -/

/-- The Go method `ListKafkaClusters`. -/
def ListKafkaClusters (c : ConfluentClient) (json : JSONDecoder)
    (opt : Option KafkaClusterListOptions) : Run (Option KafkaClusterList × Option GoError) :=
  let urlPath := "/cmk/v2/clusters"
  match c.doRequest urlPath .MethodGet .nil (.ptr opt) with
  | (rq, .error err) => { sent := [rq], body := none, log := [], ret := (none, some err) }
  | (rq, .ok req) =>
    if StatusOK ≠ req.StatusCode then
      { sent := [rq], body := some req.Body, log := [],
        ret := (none, some (.errorf ("failed to list kafka clusters: " ++ req.Status))) }
    else
      match json.KafkaClusterList req.Body.data with
      | .error err =>
        { sent := [rq], body := some req.Body.Close, log := [], ret := (none, some err) }
      | .ok KafkaClusters =>
        { sent := [rq], body := some req.Body.Close, log := [], ret := (some KafkaClusters, none) }

/-- The Go method `GetKafkaCluster`. -/
def GetKafkaCluster (c : ConfluentClient) (json : JSONDecoder) (KafkaClusterId : String)
    (opt : Option KafkaClusterListOptions) : Run (Option KafkaCluster × Option GoError) :=
  let urlPath := "/cmk/v2/clusters/" ++ KafkaClusterId
  match c.doRequest urlPath .MethodGet .nil (.ptr opt) with
  | (rq, .error err) => { sent := [rq], body := none, log := [], ret := (none, some err) }
  | (rq, .ok req) =>
    if StatusOK ≠ req.StatusCode then
      { sent := [rq], body := some req.Body, log := [],
        ret := (none, some (.errorf ("failed to get kafka cluster: " ++ req.Status))) }
    else
      match json.KafkaCluster req.Body.data with
      | .error err =>
        { sent := [rq], body := some req.Body.Close, log := [], ret := (none, some err) }
      | .ok KafkaCluster =>
        { sent := [rq], body := some req.Body.Close, log := [], ret := (some KafkaCluster, none) }

/-- The Go method `CreateKafkaCluster`. -/
def CreateKafkaCluster (c : ConfluentClient) (json : JSONDecoder)
    (create : Option KafkaClusterCreateReq) : Run (Option KafkaCluster × Option GoError) :=
  let urlPath := "/cmk/v2/clusters"
  match c.doRequest urlPath .MethodPost (.specWrap (.KafkaClusterCreateReq create)) .nil with
  | (rq, .error err) => { sent := [rq], body := none, log := [], ret := (none, some err) }
  | (rq, .ok req) =>
    if StatusAccepted ≠ req.StatusCode then
      { sent := [rq], body := some req.Body, log := [],
        ret := (none, some (.errorf ("failed to create cluster: " ++ req.Status))) }
    else
      match json.KafkaCluster req.Body.data with
      | .error err =>
        { sent := [rq], body := some req.Body.Close, log := [], ret := (none, some err) }
      | .ok KafkaCluster =>
        { sent := [rq], body := some req.Body.Close, log := [], ret := (some KafkaCluster, none) }

/-- The Go method `UpdateKafkaCluster`. -/
def UpdateKafkaCluster (c : ConfluentClient) (json : JSONDecoder) (KafkaClusterId : String)
    (update : Option KafkaClusterUpdateReq) : Run (Option KafkaCluster × Option GoError) :=
  let urlPath := "/cmk/v2/clusters/" ++ KafkaClusterId
  match c.doRequest urlPath .MethodPatch (.specWrap (.KafkaClusterUpdateReq update)) .nil with
  | (rq, .error err) => { sent := [rq], body := none, log := [], ret := (none, some err) }
  | (rq, .ok req) =>
    if StatusAccepted ≠ req.StatusCode then
      { sent := [rq], body := some req.Body, log := [],
        ret := (none, some (.errorf ("failed to update kafka cluster: " ++ req.Status))) }
    else
      match json.KafkaCluster req.Body.data with
      | .error err =>
        { sent := [rq], body := some req.Body.Close, log := [], ret := (none, some err) }
      | .ok KafkaCluster =>
        { sent := [rq], body := some req.Body.Close, log := [], ret := (some KafkaCluster, none) }

/-- The Go method `DeleteKafkaCluster`. -/
def DeleteKafkaCluster (c : ConfluentClient) (KafkaClusterId : String)
    (opt : KafkaClusterListOptions) : Run (Option GoError) :=
  let urlPath := "/cmk/v2/clusters/" ++ KafkaClusterId
  match c.doRequest urlPath .MethodDelete .nil (.val opt) with
  | (rq, .error err) => { sent := [rq], body := none, log := [], ret := some err }
  | (rq, .ok req) =>
    if StatusOK ≠ req.StatusCode ∧ StatusNoContent ≠ req.StatusCode then
      { sent := [rq], body := some req.Body, log := [],
        ret := some (.errorf ("failed to delete kafka cluster: " ++ req.Status)) }
    else
      { sent := [rq], body := some req.Body, log := [], ret := none }

/-- The Go method `UpdateKafkaClusterConfigs`. -/
def UpdateKafkaClusterConfigs (c : ConfluentClient) (restfulEndpoint KafkaClusterId : String)
    (update : Option KafkaClusterConfigUpdateReq) : Run (Option GoError) :=
  let urlPath := "/kafka/v3/clusters/" ++ KafkaClusterId ++ "/broker-configs:alter"
  match c.doRequestByHost restfulEndpoint urlPath .MethodPost
      (.value (.KafkaClusterConfigUpdateReq update)) .nil with
  | (rq, .error err) => { sent := [rq], body := none, log := [], ret := some err }
  | (rq, .ok req) =>
    if StatusNoContent ≠ req.StatusCode then
      { sent := [rq], body := some req.Body, log := [],
        ret := some (.errorf ("failed to update kafka cluster: " ++ req.Status)) }
    else
      { sent := [rq], body := some req.Body.Close, log := [], ret := none }

/-- The Go method `UpdateKafkaClusterConfig`. -/
def UpdateKafkaClusterConfig (c : ConfluentClient) (restfulEndpoint KafkaClusterId : String)
    (config value : String) : Run (Option GoError) :=
  let urlPath := "/kafka/v3/clusters/" ++ KafkaClusterId ++ "/broker-configs/" ++ config
  match c.doRequestByHost restfulEndpoint urlPath .MethodPut
      (.value (.stringMap [("value", value)])) .nil with
  | (rq, .error err) =>
    { sent := [rq], body := none, log := [],
      ret := some (.errorf ("failed to update kafka cluster: " ++ err.Error)) }
  | (rq, .ok req) =>
    if StatusNoContent ≠ req.StatusCode then
      let body := req.Body.data
      { sent := [rq], body := some req.Body, log := [body],
        ret := some (.errorf ("failed to update kafka cluster: " ++ req.Status)) }
    else
      { sent := [rq], body := some req.Body.Close, log := [], ret := none }

/-! ## API keys (`iam_api_key.go`) -/

/-- The Go method `CreateAPIKey`. -/
def CreateAPIKey (c : ConfluentClient) (json : JSONDecoder)
    (create : Option CreateAPIKeyReq) : Run (Option APIKey × Option GoError) :=
  let urlPath := "/iam/v2/api-keys"
  match c.doRequest urlPath .MethodPost (.specWrap (.CreateAPIKeyReq create)) .nil with
  | (rq, .error err) => { sent := [rq], body := none, log := [], ret := (none, some err) }
  | (rq, .ok req) =>
    if StatusAccepted ≠ req.StatusCode then
      let body := req.Body.data
      { sent := [rq], body := some req.Body, log := [body],
        ret := (none, some (.errorf ("failed to create api key: " ++ req.Status))) }
    else
      match json.APIKey req.Body.data with
      | .error err => { sent := [rq], body := some req.Body, log := [], ret := (none, some err) }
      | .ok apiKey => { sent := [rq], body := some req.Body, log := [], ret := (some apiKey, none) }

/-! ## The JSON text of a response body

A model of the part of `encoding/json` that the operations use: the text of one
JSON object is parsed and stored into a fresh variable of the result type.  The
model is partial.  It answers `none` on a text that is not one JSON object and on
the few inputs it leaves out (an escaped surrogate, a repeated array member, a
top-level value that is not an object, text after the object); wherever it
answers `some v`, `Decode` stores `v` and returns a nil error. -/

/-- The four white-space characters of JSON. -/
def isSpace (c : Char) : Bool :=
  c = ' ' || c = '\t' || c = '\r' || c = '\n'

/-- Drop leading white space. -/
def skipSpace : List Char → List Char
  | [] => []
  | c :: cs => if isSpace c then skipSpace cs else c :: cs

/-- The value of a hexadecimal digit. -/
def hexValue (c : Char) : Option Nat :=
  if '0' ≤ c ∧ c ≤ '9' then some (c.toNat - 48)
  else if 'a' ≤ c ∧ c ≤ 'f' then some (c.toNat - 87)
  else if 'A' ≤ c ∧ c ≤ 'F' then some (c.toNat - 55)
  else none

/-- The value of the four hexadecimal digits of a `\u` escape. -/
def hex4 (a b c d : Char) : Option Nat :=
  match hexValue a, hexValue b, hexValue c, hexValue d with
  | some x, some y, some z, some w => some (((x * 16 + y) * 16 + z) * 16 + w)
  | _, _, _, _ => none

/-- The character written by a one-letter escape. -/
def unescape (e : Char) : Option Char :=
  if e = '"' then some '"'
  else if e = '\\' then some '\\'
  else if e = '/' then some '/'
  else if e = 'b' then some (Char.ofNat 8)
  else if e = 'f' then some (Char.ofNat 12)
  else if e = 'n' then some '\n'
  else if e = 'r' then some '\r'
  else if e = 't' then some '\t'
  else none

/-- The rest of a string literal after its opening quote: the unquoted string
and the text after the closing quote.  A control character and an unknown escape
are errors; an escaped surrogate is left out of the model. -/
def scanString : List Char → List Char → Option (String × List Char)
  | _, [] => none
  | acc, c :: rest =>
    if c = '"' then some (String.mk acc.reverse, rest)
    else if c = '\\' then
      match rest with
      | [] => none
      | e :: rest1 =>
        if e = 'u' then
          match rest1 with
          | a :: b :: c :: d :: rest2 =>
            match hex4 a b c d with
            | some n =>
              if 0xD800 ≤ n ∧ n ≤ 0xDFFF then none else scanString (Char.ofNat n :: acc) rest2
            | none => none
          | _ => none
        else
          match unescape e with
          | some x => scanString (x :: acc) rest1
          | none => none
    else if c.toNat < 32 then none
    else scanString (c :: acc) rest

/-- The number written by a list of decimal digits. -/
def digitsValue (ds : List Char) : Nat :=
  ds.foldl (fun n d => 10 * n + (d.toNat - 48)) 0

/-- The integer part of a number: a single `0`, or a digit from 1 to 9 followed
by digits. -/
def scanInteger : List Char → Option (List Char × List Char)
  | [] => none
  | '0' :: r => some (['0'], r)
  | d :: r =>
    if '1' ≤ d ∧ d ≤ '9' then
      let p := r.span Char.isDigit
      some (d :: p.1, p.2)
    else none

/-- The optional fraction of a number: a point followed by at least one digit. -/
def scanFraction : List Char → Option (List Char × List Char)
  | '.' :: r =>
    let p := r.span Char.isDigit
    if p.1.isEmpty then none else some ('.' :: p.1, p.2)
  | cs => some ([], cs)

/-- The optional exponent of a number: `e` or `E`, an optional sign and at least
one digit. -/
def scanExponent : List Char → Option (List Char × List Char)
  | [] => some ([], [])
  | e :: r =>
    if e = 'e' ∨ e = 'E' then
      let s : List Char × List Char :=
        match r with
        | '+' :: t => (['+'], t)
        | '-' :: t => (['-'], t)
        | _ => ([], r)
      let p := s.2.span Char.isDigit
      if p.1.isEmpty then none else some (e :: s.1 ++ p.1, p.2)
    else some ([], e :: r)

/-- A number literal and the text after it. -/
def scanNumber (cs : List Char) : Option (Json × List Char) :=
  let s : Bool × List Char :=
    match cs with
    | '-' :: r => (true, r)
    | _ => (false, cs)
  match scanInteger s.2 with
  | none => none
  | some (ds, r1) =>
    match scanFraction r1 with
    | none => none
    | some (fs, r2) =>
      match scanExponent r2 with
      | none => none
      | some (es, r3) =>
        if fs.isEmpty ∧ es.isEmpty then
          some (.num (if s.1 then -(digitsValue ds : Int) else (digitsValue ds : Int)), r3)
        else
          some (.float (String.mk ((if s.1 then ['-'] else []) ++ ds ++ fs ++ es)), r3)

/-- The constant `maxNestingDepth` of the scanner of `encoding/json`. -/
def maxNestingDepth : Nat := 10000

/-- The text after the given characters, when the text starts with them. -/
def dropLiteral : List Char → List Char → Option (List Char)
  | [], cs => some cs
  | _ :: _, [] => none
  | l :: ls, c :: cs => if l = c then dropLiteral ls cs else none

mutual
/-- One JSON value at the head of the text, and the text after it.  `depth` is
the number of objects and arrays that are open. -/
def parseValue : Nat → Nat → List Char → Option (Json × List Char)
  | 0, _, _ => none
  | _ + 1, _, [] => none
  | fuel + 1, depth, c :: r =>
    if c = '{' then
      if depth + 1 > maxNestingDepth then none
      else
        match skipSpace r with
        | [] => none
        | c1 :: r1 =>
          if c1 = '}' then some (.obj [], r1) else parseMembers fuel (depth + 1) [] (c1 :: r1)
    else if c = '[' then
      if depth + 1 > maxNestingDepth then none
      else
        match skipSpace r with
        | [] => none
        | c1 :: r1 =>
          if c1 = ']' then some (.arr [], r1) else parseElements fuel (depth + 1) [] (c1 :: r1)
    else if c = '"' then
      match scanString [] r with
      | some (s, r1) => some (.str s, r1)
      | none => none
    else if c = 't' then
      match dropLiteral ['r', 'u', 'e'] r with
      | some r1 => some (.bool true, r1)
      | none => none
    else if c = 'f' then
      match dropLiteral ['a', 'l', 's', 'e'] r with
      | some r1 => some (.bool false, r1)
      | none => none
    else if c = 'n' then
      match dropLiteral ['u', 'l', 'l'] r with
      | some r1 => some (.null, r1)
      | none => none
    else scanNumber (c :: r)
/-- The members of an object from the first name on, up to the closing brace. -/
def parseMembers : Nat → Nat → List (String × Json) → List Char → Option (Json × List Char)
  | 0, _, _, _ => none
  | _ + 1, _, _, [] => none
  | fuel + 1, depth, acc, c :: r =>
    if c = '"' then
      match scanString [] r with
      | none => none
      | some (k, r1) =>
        match skipSpace r1 with
        | [] => none
        | c2 :: r2 =>
          if c2 = ':' then
            match parseValue fuel depth (skipSpace r2) with
            | none => none
            | some (v, r3) =>
              match skipSpace r3 with
              | [] => none
              | c4 :: r4 =>
                if c4 = ',' then parseMembers fuel depth ((k, v) :: acc) (skipSpace r4)
                else if c4 = '}' then some (.obj ((k, v) :: acc).reverse, r4)
                else none
          else none
    else none
/-- The elements of an array from the first value on, up to the closing bracket. -/
def parseElements : Nat → Nat → List Json → List Char → Option (Json × List Char)
  | 0, _, _, _ => none
  | fuel + 1, depth, acc, cs =>
    match parseValue fuel depth cs with
    | none => none
    | some (v, r1) =>
      match skipSpace r1 with
      | [] => none
      | c2 :: r2 =>
        if c2 = ',' then parseElements fuel depth (v :: acc) (skipSpace r2)
        else if c2 = ']' then some (.arr (v :: acc).reverse, r2)
        else none
end

/-- The JSON object that is the whole text of a body, white space around it
allowed.  The fuel is the length of the text, which bounds the number of values
and members in it. -/
def parseJSON (body : String) : Option Json :=
  match skipSpace body.data with
  | [] => none
  | c :: r =>
    if c = '{' then
      match parseValue (body.length + 1) 0 (c :: r) with
      | some (j, rest) => if (skipSpace rest).isEmpty then some j else none
      | none => none
    else none

/-! ## Storing a JSON value into a Go value

Each function takes the JSON value and the current Go value and gives the new Go
value, or `none` where `Decode` reports an error or the model leaves the input
out.  `null` leaves a string, an integer and a struct as they are. -/

/-- The folding of one character of a member name: ASCII letters to upper case,
and the two characters outside ASCII that fold to an ASCII letter, the Kelvin
sign to `K` and the long s to `S`. -/
def foldRune (c : Char) : Char :=
  if 'a' ≤ c ∧ c ≤ 'z' then Char.ofNat (c.toNat - 32)
  else if c = Char.ofNat 0x212A then 'K'
  else if c = Char.ofNat 0x017F then 'S'
  else c

/-- The match of a member name of the JSON text with the JSON name of a struct
field, which ignores case.  The field names of the two source files are ASCII
and, inside one struct, differ after folding, so an exact match and a match that
ignores case pick the same field. -/
def equalFold (key name : String) : Bool :=
  decide (key.data.map foldRune = name.data.map foldRune)

/-- A JSON value stored into a Go string. -/
def decodeString : Json → String → Option String
  | .null, v => some v
  | .str s, _ => some s
  | _, _ => none

/-- A JSON value stored into a Go `int`, taken as 64 bits wide. -/
def decodeInt : Json → Int → Option Int
  | .null, v => some v
  | .num n, _ => if -(2 : Int) ^ 63 ≤ n ∧ n < (2 : Int) ^ 63 then some n else none
  | _, _ => none

/-- The elements of a JSON array, each stored into a zero value. -/
def decodeElements {T : Type} (elem : Json → T → Option T) (zero : T) : List Json → Option (List T)
  | [] => some []
  | x :: xs =>
    match elem x zero with
    | some y =>
      match decodeElements elem zero xs with
      | some ys => some (y :: ys)
      | none => none
    | none => none

/-- A JSON value stored into a Go slice: `null` gives the nil slice, an array
gives its elements, each stored into a zero value.  An array stored into a slice
that already has elements (a repeated member) is left out of the model. -/
def decodeSlice {T : Type} (elem : Json → T → Option T) (zero : T) : Json → List T → Option (List T)
  | .null, _ => some []
  | .arr xs, [] => decodeElements elem zero xs
  | _, _ => none

/-- The members of a JSON object stored one after the other, in the order of the
text, into a struct. -/
def decodeMembers {T : Type} (member : String → Json → T → Option T) :
    List (String × Json) → T → Option T
  | [], v => some v
  | kv :: rest, v =>
    match member kv.1 kv.2 v with
    | some v1 => decodeMembers member rest v1
    | none => none

/-- A JSON value stored into a struct: an object member by member, `null` with
no effect, any other value is an error. -/
def decodeStruct {T : Type} (member : String → Json → T → Option T) : Json → T → Option T
  | .null, v => some v
  | .obj kvs, v => decodeMembers member kvs v
  | _, _ => none

/-- The decoding of the two types declared outside the two source files, a
parameter of the model: how one JSON member is stored into the embedded
`common.BaseModel` (a member that names none of its fields leaves it as it is),
and how a JSON value is stored into an `Environment`.  Both are taken to be
plain structs, without a field named `spec`, `status` or `data` and without an
unmarshalling method of their own. -/
structure ExternalTypes where
  BaseModel : String → Json → BaseModel → Option BaseModel
  Environment : Json → Environment → Option Environment

/-- One member stored into `KafkaCluster.Spec.Config`: `kind`, `cku`, `zones`. -/
def KafkaClusterSpecConfig.member (k : String) (x : Json) (v : KafkaClusterSpecConfig) :
    Option KafkaClusterSpecConfig :=
  if equalFold k "kind" then (decodeString x v.Kind).map fun a => { v with Kind := a }
  else if equalFold k "cku" then (decodeInt x v.Cku).map fun a => { v with Cku := a }
  else if equalFold k "zones" then
    (decodeSlice decodeString "" x v.Zones).map fun a => { v with Zones := a }
  else some v

/-- One member stored into `KafkaCluster.Spec`.  The fields `Config`, `Network`
and `Environment` have no tag, so their JSON names are the Go names. -/
def KafkaClusterSpec.member (ext : ExternalTypes) (k : String) (x : Json) (v : KafkaClusterSpec) :
    Option KafkaClusterSpec :=
  if equalFold k "display_name" then
    (decodeString x v.DisplayName).map fun a => { v with DisplayName := a }
  else if equalFold k "availability" then
    (decodeString x v.Availability).map fun a => { v with Availability := a }
  else if equalFold k "cloud" then (decodeString x v.Cloud).map fun a => { v with Cloud := a }
  else if equalFold k "region" then (decodeString x v.Region).map fun a => { v with Region := a }
  else if equalFold k "kafka_bootstrap_endpoint" then
    (decodeString x v.KafkaBootstrapEndpoint).map fun a => { v with KafkaBootstrapEndpoint := a }
  else if equalFold k "http_endpoint" then
    (decodeString x v.HttpEndpoint).map fun a => { v with HttpEndpoint := a }
  else if equalFold k "Config" then
    (decodeStruct KafkaClusterSpecConfig.member x v.Config).map fun a => { v with Config := a }
  else if equalFold k "Network" then
    (decodeStruct ext.BaseModel x v.Network).map fun a => { v with Network := a }
  else if equalFold k "Environment" then
    (ext.Environment x v.Environment).map fun a => { v with Environment := a }
  else some v

/-- One member stored into `KafkaCluster.Status`: `phase`, `cku`. -/
def KafkaClusterStatus.member (k : String) (x : Json) (v : KafkaClusterStatus) :
    Option KafkaClusterStatus :=
  if equalFold k "phase" then (decodeString x v.Phase).map fun a => { v with Phase := a }
  else if equalFold k "cku" then (decodeInt x v.CKU).map fun a => { v with CKU := a }
  else some v

/-- One member stored into a `KafkaCluster`.  `Spec` and `Status` have no tag;
every other member goes to the fields of the embedded `common.BaseModel`. -/
def KafkaCluster.member (ext : ExternalTypes) (k : String) (x : Json) (v : KafkaCluster) :
    Option KafkaCluster :=
  if equalFold k "Spec" then
    (decodeStruct (KafkaClusterSpec.member ext) x v.Spec).map fun a => { v with Spec := a }
  else if equalFold k "Status" then
    (decodeStruct KafkaClusterStatus.member x v.Status).map fun a => { v with Status := a }
  else (ext.BaseModel k x v.BaseModel).map fun a => { v with BaseModel := a }

/-- The zero value of `common.BaseModel`. -/
def emptyBase : BaseModel :=
  { Id := "", ApiVersion := "", Kind := "", ResourceName := "", Metadata := [] }

/-- The zero value of `KafkaCluster`, the state of a variable before `Decode`. -/
def zeroKafkaCluster : KafkaCluster :=
  { BaseModel := emptyBase,
    Spec := { DisplayName := "", Availability := "", Cloud := "", Region := "",
              KafkaBootstrapEndpoint := "", HttpEndpoint := "",
              Config := { Kind := "", Cku := 0, Zones := [] },
              Network := emptyBase, Environment := { BaseModel := emptyBase } },
    Status := { Phase := "", CKU := 0 } }

/-- A JSON value stored into a `KafkaCluster`. -/
def decodeKafkaCluster (ext : ExternalTypes) : Json → KafkaCluster → Option KafkaCluster :=
  decodeStruct (KafkaCluster.member ext)

/-- One member stored into a `KafkaClusterList`: `data`, or a member of the
embedded `common.BaseModel`. -/
def KafkaClusterList.member (ext : ExternalTypes) (k : String) (x : Json) (v : KafkaClusterList) :
    Option KafkaClusterList :=
  if equalFold k "data" then
    (decodeSlice (decodeKafkaCluster ext) zeroKafkaCluster x v.Data).map fun a =>
      { v with Data := a }
  else (ext.BaseModel k x v.BaseModel).map fun a => { v with BaseModel := a }

/-- The zero value of `KafkaClusterList`. -/
def zeroKafkaClusterList : KafkaClusterList :=
  { BaseModel := emptyBase, Data := [] }

/-- A JSON value stored into a `KafkaClusterList`. -/
def decodeKafkaClusterList (ext : ExternalTypes) :
    Json → KafkaClusterList → Option KafkaClusterList :=
  decodeStruct (KafkaClusterList.member ext)

/-- One member stored into the `Owner` or `Resource` struct of `APIKeySpec`. -/
def APIKeyRef.member (k : String) (x : Json) (v : APIKeyRef) : Option APIKeyRef :=
  if equalFold k "id" then (decodeString x v.ID).map fun a => { v with ID := a }
  else if equalFold k "environment" then
    (decodeString x v.Environment).map fun a => { v with Environment := a }
  else if equalFold k "related" then (decodeString x v.Related).map fun a => { v with Related := a }
  else if equalFold k "resource_name" then
    (decodeString x v.ResourceName).map fun a => { v with ResourceName := a }
  else if equalFold k "api_version" then
    (decodeString x v.APIVersion).map fun a => { v with APIVersion := a }
  else if equalFold k "kind" then (decodeString x v.Kind).map fun a => { v with Kind := a }
  else some v

/-- One member stored into an `APIKeySpec`. -/
def APIKeySpec.member (k : String) (x : Json) (v : APIKeySpec) : Option APIKeySpec :=
  if equalFold k "secret" then (decodeString x v.Secret).map fun a => { v with Secret := a }
  else if equalFold k "display_name" then
    (decodeString x v.DisplayName).map fun a => { v with DisplayName := a }
  else if equalFold k "description" then
    (decodeString x v.Description).map fun a => { v with Description := a }
  else if equalFold k "owner" then
    (decodeStruct APIKeyRef.member x v.Owner).map fun a => { v with Owner := a }
  else if equalFold k "resource" then
    (decodeStruct APIKeyRef.member x v.Resource).map fun a => { v with Resource := a }
  else some v

/-- One member stored into an `APIKey`: `spec`, or a member of the embedded
`common.BaseModel` (its tag names no JSON name, so its fields are promoted). -/
def APIKey.member (ext : ExternalTypes) (k : String) (x : Json) (v : APIKey) : Option APIKey :=
  if equalFold k "spec" then
    (decodeStruct APIKeySpec.member x v.Spec).map fun a => { v with Spec := a }
  else (ext.BaseModel k x v.BaseModel).map fun a => { v with BaseModel := a }

/-- The zero value of `APIKey`. -/
def zeroAPIKey : APIKey :=
  { BaseModel := emptyBase,
    Spec := { Secret := "", DisplayName := "", Description := "",
              Owner := { ID := "", Environment := "", Related := "", ResourceName := "",
                         APIVersion := "", Kind := "" },
              Resource := { ID := "", Environment := "", Related := "", ResourceName := "",
                            APIVersion := "", Kind := "" } } }

/-- A JSON value stored into an `APIKey`. -/
def decodeAPIKey (ext : ExternalTypes) : Json → APIKey → Option APIKey :=
  decodeStruct (APIKey.member ext)

/-- The text of a body parsed and stored into the zero value of the result
type: the value that `json.NewDecoder(body).Decode(&v)` leaves in a fresh `v`.
A body on which this is `some v` is valid JSON for the result type. -/
def decodeBody {T : Type} (dec : Json → T → Option T) (zero : T) (body : String) : Option T :=
  match parseJSON body with
  | some j => dec j zero
  | none => none

/-- The decoder `json` behaves as the model on every body that is valid JSON
for the result type. -/
def JSONDecoder.Agrees (json : JSONDecoder) (ext : ExternalTypes) : Prop :=
  (∀ body v, decodeBody (decodeKafkaClusterList ext) zeroKafkaClusterList body = some v →
    json.KafkaClusterList body = .ok v) ∧
  (∀ body v, decodeBody (decodeKafkaCluster ext) zeroKafkaCluster body = some v →
    json.KafkaCluster body = .ok v) ∧
  (∀ body v, decodeBody (decodeAPIKey ext) zeroAPIKey body = some v →
    json.APIKey body = .ok v)

/-- The value of the only member of an object whose name matches `name`. -/
def Json.field (name : String) : Json → Option Json
  | .obj kvs =>
    match kvs.filter fun kv => equalFold kv.1 name with
    | [kv] => some kv.2
    | _ => none
  | _ => none

/-- The value reached from a JSON value by a path of member names. -/
def Json.path : List String → Json → Option Json
  | [], j => some j
  | name :: rest, j =>
    match j.field name with
    | some x => Json.path rest x
    | none => none

/-- The fields of the cluster `k` that the source declares are the members of
the JSON object `j`: each member of `j` that is reached by the JSON names of a
field and holds a value of the type of the field is the value of that field. -/
def KafkaCluster.HasFieldsOf (k : KafkaCluster) (j : Json) : Prop :=
  (∀ s, j.path ["spec", "display_name"] = some (.str s) → k.Spec.DisplayName = s) ∧
  (∀ s, j.path ["spec", "availability"] = some (.str s) → k.Spec.Availability = s) ∧
  (∀ s, j.path ["spec", "cloud"] = some (.str s) → k.Spec.Cloud = s) ∧
  (∀ s, j.path ["spec", "region"] = some (.str s) → k.Spec.Region = s) ∧
  (∀ s, j.path ["spec", "kafka_bootstrap_endpoint"] = some (.str s) →
    k.Spec.KafkaBootstrapEndpoint = s) ∧
  (∀ s, j.path ["spec", "http_endpoint"] = some (.str s) → k.Spec.HttpEndpoint = s) ∧
  (∀ s, j.path ["spec", "config", "kind"] = some (.str s) → k.Spec.Config.Kind = s) ∧
  (∀ n, j.path ["spec", "config", "cku"] = some (.num n) → k.Spec.Config.Cku = n) ∧
  (∀ zs : List String, j.path ["spec", "config", "zones"] = some (.arr (zs.map Json.str)) →
    k.Spec.Config.Zones = zs) ∧
  (∀ s, j.path ["status", "phase"] = some (.str s) → k.Status.Phase = s) ∧
  (∀ n, j.path ["status", "cku"] = some (.num n) → k.Status.CKU = n)

/-- The clusters of the list `l` are the elements of the member `data` of the
JSON object `j`, in order: each is the decoding of its element and has the
fields of its element. -/
def KafkaClusterList.HasFieldsOf (ext : ExternalTypes) (l : KafkaClusterList) (j : Json) : Prop :=
  ∀ xs, j.path ["data"] = some (.arr xs) →
    List.Forall₂
      (fun x k => decodeKafkaCluster ext x zeroKafkaCluster = some k ∧ k.HasFieldsOf x) xs l.Data

/-- The fields of the `Owner` or `Resource` struct `r` of an API key are the
members of the JSON object reached from `j` by the path `p`. -/
def APIKeyRef.HasFieldsOf (r : APIKeyRef) (p : List String) (j : Json) : Prop :=
  (∀ s, j.path (p ++ ["id"]) = some (.str s) → r.ID = s) ∧
  (∀ s, j.path (p ++ ["environment"]) = some (.str s) → r.Environment = s) ∧
  (∀ s, j.path (p ++ ["related"]) = some (.str s) → r.Related = s) ∧
  (∀ s, j.path (p ++ ["resource_name"]) = some (.str s) → r.ResourceName = s) ∧
  (∀ s, j.path (p ++ ["api_version"]) = some (.str s) → r.APIVersion = s) ∧
  (∀ s, j.path (p ++ ["kind"]) = some (.str s) → r.Kind = s)

/-- The fields of the API key `a` that the source declares are the members of
the JSON object `j`. -/
def APIKey.HasFieldsOf (a : APIKey) (j : Json) : Prop :=
  (∀ s, j.path ["spec", "secret"] = some (.str s) → a.Spec.Secret = s) ∧
  (∀ s, j.path ["spec", "display_name"] = some (.str s) → a.Spec.DisplayName = s) ∧
  (∀ s, j.path ["spec", "description"] = some (.str s) → a.Spec.Description = s) ∧
  a.Spec.Owner.HasFieldsOf ["spec", "owner"] j ∧
  a.Spec.Resource.HasFieldsOf ["spec", "resource"] j

/-- A decoder that follows the model and fails with `e` on every other body. -/
def modelJSON (ext : ExternalTypes) (e : GoError) : JSONDecoder :=
  { KafkaClusterList := fun body =>
      match decodeBody (decodeKafkaClusterList ext) zeroKafkaClusterList body with
      | some v => .ok v
      | none => .error e,
    KafkaCluster := fun body =>
      match decodeBody (decodeKafkaCluster ext) zeroKafkaCluster body with
      | some v => .ok v
      | none => .error e,
    APIKey := fun body =>
      match decodeBody (decodeAPIKey ext) zeroAPIKey body with
      | some v => .ok v
      | none => .error e }

/-! ## A body for every display name -/

/-- The hexadecimal digit of a number below 16. -/
def hexDigit (n : Nat) : Char :=
  if n < 10 then Char.ofNat (48 + n) else Char.ofNat (87 + n)

/-- The characters of a JSON string literal, without the quotes, that denotes
the given characters: the quote and the backslash are escaped with a backslash,
a control character is written as a `\u` escape, every other character stands
for itself. -/
def escapeChars : List Char → List Char
  | [] => []
  | c :: cs =>
    if c = '"' then '\\' :: '"' :: escapeChars cs
    else if c = '\\' then '\\' :: '\\' :: escapeChars cs
    else if c.toNat < 32 then
      '\\' :: 'u' :: '0' :: '0' :: hexDigit (c.toNat / 16) :: hexDigit (c.toNat % 16) ::
        escapeChars cs
    else c :: escapeChars cs

/-- The text of a JSON object whose only member is `spec`, an object whose only
member is `display_name`, the string `s`: a body that has `spec.display_name`
equal to `s`, for every string `s`. -/
def displayNameBody (s : String) : String :=
  String.mk ("\x7b\"spec\":\x7b\"display_name\":\"".data ++ escapeChars s.data ++ "\"\x7d\x7d".data)

/-! ## Runs and their transport -/

/-- The run sent at least one request and the transport answered each request
of the run with the response `resp`. -/
def Received {α : Type} (c : ConfluentClient) (r : Run α) (resp : Response) : Prop :=
  r.sent ≠ [] ∧ ∀ rq ∈ r.sent, c.roundTrip rq = .ok resp

/-- The run sent at least one request and the transport helper failed on each
request of the run with the error `e`. -/
def TransportFailed {α : Type} (c : ConfluentClient) (r : Run α) (e : GoError) : Prop :=
  r.sent ≠ [] ∧ ∀ rq ∈ r.sent, c.roundTrip rq = .error e

/-! ## Sample values -/

/-- A client whose transport answers every request with `resp`. -/
def respondWith (resp : Response) : ConfluentClient :=
  { roundTrip := fun _ => .ok resp }

/-- A client whose transport fails on every request with `e`. -/
def failWith (e : GoError) : ConfluentClient :=
  { roundTrip := fun _ => .error e }

/-- A response with an open body. -/
def mkResponse (code : Int) (status data : String) : Response :=
  { StatusCode := code, Status := status, Body := { data := data, closed := false } }

/-- A cluster named `name`, single zone, on AWS in us-east-1. -/
def sampleCluster (name : String) : KafkaCluster :=
  { BaseModel := { Id := "lkc-1", ApiVersion := "cmk/v2", Kind := "Cluster",
                   ResourceName := "", Metadata := [] },
    Spec := { DisplayName := name, Availability := "SINGLE_ZONE", Cloud := "AWS",
              Region := "us-east-1", KafkaBootstrapEndpoint := "", HttpEndpoint := "",
              Config := { Kind := "Basic", Cku := 0, Zones := [] },
              Network := emptyBase, Environment := { BaseModel := emptyBase } },
    Status := { Phase := "PROVISIONING", CKU := 0 } }

/-- The JSON text of a cluster whose `spec.display_name` is `prod`. -/
def prodBody : String :=
  "\x7b\"id\":\"lkc-1\",\"api_version\":\"cmk/v2\",\"kind\":\"Cluster\",\"spec\":\x7b\"display_name\":\"prod\",\"availability\":\"SINGLE_ZONE\",\"cloud\":\"AWS\",\"region\":\"us-east-1\",\"config\":\x7b\"kind\":\"Basic\"\x7d\x7d,\"status\":\x7b\"phase\":\"PROVISIONING\"\x7d\x7d"

/-- The JSON object written by `prodBody`. -/
def prodJson : Json :=
  .obj [("id", .str "lkc-1"), ("api_version", .str "cmk/v2"), ("kind", .str "Cluster"),
        ("spec", .obj [("display_name", .str "prod"), ("availability", .str "SINGLE_ZONE"),
                        ("cloud", .str "AWS"), ("region", .str "us-east-1"),
                        ("config", .obj [("kind", .str "Basic")])]),
        ("status", .obj [("phase", .str "PROVISIONING")])]

/-- The JSON object written by `listBody`. -/
def listJson : Json :=
  .obj [("data", .arr [prodJson])]

/-- The JSON object written by `keyBody`. -/
def keyJson : Json :=
  .obj [("spec", .obj [("secret", .str "s3cr3t"), ("display_name", .str "ci"),
                        ("owner", .obj [("id", .str "sa-1")]),
                        ("resource", .obj [("id", .str "lkc-1")])])]

/-- The JSON text of a list holding the cluster of `prodBody`. -/
def listBody : String :=
  "\x7b\"data\":[" ++ prodBody ++ "]\x7d"

/-- An API key with the secret `s3cr3t`. -/
def sampleKey : APIKey :=
  { BaseModel := emptyBase,
    Spec := { Secret := "s3cr3t", DisplayName := "ci", Description := "",
              Owner := { ID := "sa-1", Environment := "", Related := "", ResourceName := "",
                         APIVersion := "", Kind := "" },
              Resource := { ID := "lkc-1", Environment := "", Related := "", ResourceName := "",
                            APIVersion := "", Kind := "" } } }

/-- The JSON text of `sampleKey`. -/
def keyBody : String :=
  "\x7b\"spec\":\x7b\"secret\":\"s3cr3t\",\"display_name\":\"ci\",\"owner\":\x7b\"id\":\"sa-1\"\x7d,\"resource\":\x7b\"id\":\"lkc-1\"\x7d\x7d\x7d"

/-- The error of the decoder on a body that is not the expected JSON. -/
def syntaxError : GoError :=
  .foreign "invalid character"

/-- A sample envelope with the members `id`, `api_version`, `kind` and
`resource_name`. -/
def sampleBaseMember (k : String) (x : Json) (v : BaseModel) : Option BaseModel :=
  if equalFold k "id" then (decodeString x v.Id).map fun a => { v with Id := a }
  else if equalFold k "api_version" then
    (decodeString x v.ApiVersion).map fun a => { v with ApiVersion := a }
  else if equalFold k "kind" then (decodeString x v.Kind).map fun a => { v with Kind := a }
  else if equalFold k "resource_name" then
    (decodeString x v.ResourceName).map fun a => { v with ResourceName := a }
  else some v

/-- Sample decoding of the two external types, built on the sample envelope. -/
def sampleExt : ExternalTypes :=
  { BaseModel := sampleBaseMember,
    Environment := decodeStruct fun k x v =>
      (sampleBaseMember k x v.BaseModel).map fun a => { v with BaseModel := a } }

/-- The model decoder over the sample envelope; it fails with `syntaxError` on a
body that is not valid JSON for the result type. -/
def sampleJSON : JSONDecoder :=
  modelJSON sampleExt syntaxError

/-- The create request of the scenario: `prod`, single zone, AWS, us-east-1. -/
def prodCreateReq : KafkaClusterCreateReq :=
  { DisplayName := "prod", Availability := "SINGLE_ZONE", Cloud := "AWS", Region := "us-east-1",
    Config := { Kind := "Basic", CKU := 0 },
    Environment := { Id := "env-1", Environment := "" },
    Network := { Id := "", Environment := "" } }

/-- Query options with empty fields. -/
def noOptions : KafkaClusterListOptions :=
  { PaginationOptions := { PageSize := 0, PageToken := "" }, EnvironmentId := "" }

set_option maxRecDepth 1000000

/-! ## The request of each operation -/

theorem ListKafkaClusters_sent (c : ConfluentClient) (json : JSONDecoder)
    (opt : Option KafkaClusterListOptions) :
    (ListKafkaClusters c json opt).sent =
      [{ host := none, path := "/cmk/v2/clusters", method := .MethodGet, body := .nil,
         query := .ptr opt }] := by
  unfold ListKafkaClusters ConfluentClient.doRequest
  simp only []
  split <;> (try split) <;> (try split) <;> simp_all

theorem GetKafkaCluster_sent (c : ConfluentClient) (json : JSONDecoder) (id : String)
    (opt : Option KafkaClusterListOptions) :
    (GetKafkaCluster c json id opt).sent =
      [{ host := none, path := "/cmk/v2/clusters/" ++ id, method := .MethodGet, body := .nil,
         query := .ptr opt }] := by
  unfold GetKafkaCluster ConfluentClient.doRequest
  simp only []
  split <;> (try split) <;> (try split) <;> simp_all

theorem CreateKafkaCluster_sent (c : ConfluentClient) (json : JSONDecoder)
    (create : Option KafkaClusterCreateReq) :
    (CreateKafkaCluster c json create).sent =
      [{ host := none, path := "/cmk/v2/clusters", method := .MethodPost,
         body := .specWrap (.KafkaClusterCreateReq create), query := .nil }] := by
  unfold CreateKafkaCluster ConfluentClient.doRequest
  simp only []
  split <;> (try split) <;> (try split) <;> simp_all

theorem UpdateKafkaCluster_sent (c : ConfluentClient) (json : JSONDecoder) (id : String)
    (update : Option KafkaClusterUpdateReq) :
    (UpdateKafkaCluster c json id update).sent =
      [{ host := none, path := "/cmk/v2/clusters/" ++ id, method := .MethodPatch,
         body := .specWrap (.KafkaClusterUpdateReq update), query := .nil }] := by
  unfold UpdateKafkaCluster ConfluentClient.doRequest
  simp only []
  split <;> (try split) <;> (try split) <;> simp_all

theorem DeleteKafkaCluster_sent (c : ConfluentClient) (id : String)
    (opt : KafkaClusterListOptions) :
    (DeleteKafkaCluster c id opt).sent =
      [{ host := none, path := "/cmk/v2/clusters/" ++ id, method := .MethodDelete, body := .nil,
         query := .val opt }] := by
  unfold DeleteKafkaCluster ConfluentClient.doRequest
  simp only []
  split <;> (try split) <;> simp_all

theorem UpdateKafkaClusterConfigs_sent (c : ConfluentClient) (host id : String)
    (update : Option KafkaClusterConfigUpdateReq) :
    (UpdateKafkaClusterConfigs c host id update).sent =
      [{ host := some host, path := "/kafka/v3/clusters/" ++ id ++ "/broker-configs:alter",
         method := .MethodPost, body := .value (.KafkaClusterConfigUpdateReq update),
         query := .nil }] := by
  unfold UpdateKafkaClusterConfigs ConfluentClient.doRequestByHost
  simp only []
  split <;> (try split) <;> simp_all

theorem UpdateKafkaClusterConfig_sent (c : ConfluentClient) (host id config value : String) :
    (UpdateKafkaClusterConfig c host id config value).sent =
      [{ host := some host, path := "/kafka/v3/clusters/" ++ id ++ "/broker-configs/" ++ config,
         method := .MethodPut, body := .value (.stringMap [("value", value)]),
         query := .nil }] := by
  unfold UpdateKafkaClusterConfig ConfluentClient.doRequestByHost
  simp only []
  split <;> (try split) <;> simp_all

theorem CreateAPIKey_sent (c : ConfluentClient) (json : JSONDecoder)
    (create : Option CreateAPIKeyReq) :
    (CreateAPIKey c json create).sent =
      [{ host := none, path := "/iam/v2/api-keys", method := .MethodPost,
         body := .specWrap (.CreateAPIKeyReq create), query := .nil }] := by
  unfold CreateAPIKey ConfluentClient.doRequest
  simp only []
  split <;> (try split) <;> (try split) <;> simp_all

/-! ## What the transport returned to each operation -/

theorem Received.roundTrip_ok {α : Type} {c : ConfluentClient} {r : Run α} {resp : Response}
    {rq : Request} (h : Received c r resp) (hs : r.sent = [rq]) : c.roundTrip rq = .ok resp :=
  h.2 rq (by simp [hs])

theorem TransportFailed.roundTrip_error {α : Type} {c : ConfluentClient} {r : Run α} {e : GoError}
    {rq : Request} (h : TransportFailed c r e) (hs : r.sent = [rq]) : c.roundTrip rq = .error e :=
  h.2 rq (by simp [hs])

theorem received_respondWith {α : Type} (resp : Response) (r : Run α) (h : r.sent ≠ []) :
    Received (respondWith resp) r resp :=
  ⟨h, fun _ _ => rfl⟩

theorem transportFailed_failWith {α : Type} (e : GoError) (r : Run α) (h : r.sent ≠ []) :
    TransportFailed (failWith e) r e :=
  ⟨h, fun _ _ => rfl⟩

theorem status_suffix_of_message (p s : String) : s.data <:+ (p ++ s).data := by
  rw [String.data_append]
  exact List.suffix_append _ _

/-! ## Unexpected status codes -/

/-- C1: for every operation and every response whose status code is not the
success code of the operation (200 for list and get, 202 for cluster create,
cluster update and API-key create, 200 or 204 for delete, 204 for both config
updates), the operation returns a non-nil error and, where it has a result, a
nil result, whatever the body of the response is. -/
theorem unexpected_status_yields_error (c : ConfluentClient) (json : JSONDecoder)
    (resp : Response) :
    (∀ opt, Received c (ListKafkaClusters c json opt) resp → resp.StatusCode ≠ 200 →
      (ListKafkaClusters c json opt).ret.1 = none ∧
      (ListKafkaClusters c json opt).ret.2 ≠ none) ∧
    (∀ id opt, Received c (GetKafkaCluster c json id opt) resp → resp.StatusCode ≠ 200 →
      (GetKafkaCluster c json id opt).ret.1 = none ∧
      (GetKafkaCluster c json id opt).ret.2 ≠ none) ∧
    (∀ create, Received c (CreateKafkaCluster c json create) resp → resp.StatusCode ≠ 202 →
      (CreateKafkaCluster c json create).ret.1 = none ∧
      (CreateKafkaCluster c json create).ret.2 ≠ none) ∧
    (∀ id update, Received c (UpdateKafkaCluster c json id update) resp →
      resp.StatusCode ≠ 202 →
      (UpdateKafkaCluster c json id update).ret.1 = none ∧
      (UpdateKafkaCluster c json id update).ret.2 ≠ none) ∧
    (∀ id opt, Received c (DeleteKafkaCluster c id opt) resp →
      resp.StatusCode ≠ 200 → resp.StatusCode ≠ 204 →
      (DeleteKafkaCluster c id opt).ret ≠ none) ∧
    (∀ host id update, Received c (UpdateKafkaClusterConfigs c host id update) resp →
      resp.StatusCode ≠ 204 →
      (UpdateKafkaClusterConfigs c host id update).ret ≠ none) ∧
    (∀ host id config value, Received c (UpdateKafkaClusterConfig c host id config value) resp →
      resp.StatusCode ≠ 204 →
      (UpdateKafkaClusterConfig c host id config value).ret ≠ none) ∧
    (∀ create, Received c (CreateAPIKey c json create) resp → resp.StatusCode ≠ 202 →
      (CreateAPIKey c json create).ret.1 = none ∧
      (CreateAPIKey c json create).ret.2 ≠ none) := by
  refine ⟨?_, ?_, ?_, ?_, ?_, ?_, ?_, ?_⟩
  · intro opt hr hc
    have h := hr.roundTrip_ok (ListKafkaClusters_sent c json opt)
    have hc2 : ¬ (200 : Int) = resp.StatusCode := fun h2 => hc h2.symm
    simp [ListKafkaClusters, ConfluentClient.doRequest, h, StatusOK, hc2]
  · intro id opt hr hc
    have h := hr.roundTrip_ok (GetKafkaCluster_sent c json id opt)
    have hc2 : ¬ (200 : Int) = resp.StatusCode := fun h2 => hc h2.symm
    simp [GetKafkaCluster, ConfluentClient.doRequest, h, StatusOK, hc2]
  · intro create hr hc
    have h := hr.roundTrip_ok (CreateKafkaCluster_sent c json create)
    have hc2 : ¬ (202 : Int) = resp.StatusCode := fun h2 => hc h2.symm
    simp [CreateKafkaCluster, ConfluentClient.doRequest, h, StatusAccepted, hc2]
  · intro id update hr hc
    have h := hr.roundTrip_ok (UpdateKafkaCluster_sent c json id update)
    have hc2 : ¬ (202 : Int) = resp.StatusCode := fun h2 => hc h2.symm
    simp [UpdateKafkaCluster, ConfluentClient.doRequest, h, StatusAccepted, hc2]
  · intro id opt hr hc hc'
    have h := hr.roundTrip_ok (DeleteKafkaCluster_sent c id opt)
    have hc2 : ¬ (200 : Int) = resp.StatusCode := fun h2 => hc h2.symm
    have hc3 : ¬ (204 : Int) = resp.StatusCode := fun h2 => hc' h2.symm
    simp [DeleteKafkaCluster, ConfluentClient.doRequest, h, StatusOK, StatusNoContent, hc2, hc3]
  · intro host id update hr hc
    have h := hr.roundTrip_ok (UpdateKafkaClusterConfigs_sent c host id update)
    have hc2 : ¬ (204 : Int) = resp.StatusCode := fun h2 => hc h2.symm
    simp [UpdateKafkaClusterConfigs, ConfluentClient.doRequestByHost, h, StatusNoContent, hc2]
  · intro host id config value hr hc
    have h := hr.roundTrip_ok (UpdateKafkaClusterConfig_sent c host id config value)
    have hc2 : ¬ (204 : Int) = resp.StatusCode := fun h2 => hc h2.symm
    simp [UpdateKafkaClusterConfig, ConfluentClient.doRequestByHost, h, StatusNoContent, hc2]
  · intro create hr hc
    have h := hr.roundTrip_ok (CreateAPIKey_sent c json create)
    have hc2 : ¬ (202 : Int) = resp.StatusCode := fun h2 => hc h2.symm
    simp [CreateAPIKey, ConfluentClient.doRequest, h, StatusAccepted, hc2]

/-- Witness of C1: a `201 Created` response, whose body would even decode, makes
each of the eight operations return an error and no result. -/
theorem unexpected_status_yields_error_witness :
    ((ListKafkaClusters (respondWith (mkResponse 201 "201 Created" listBody)) sampleJSON none).ret.1
        = none ∧
      (ListKafkaClusters (respondWith (mkResponse 201 "201 Created" listBody)) sampleJSON none).ret.2
        ≠ none) ∧
    ((GetKafkaCluster (respondWith (mkResponse 201 "201 Created" prodBody)) sampleJSON "lkc-1"
        none).ret.1 = none ∧
      (GetKafkaCluster (respondWith (mkResponse 201 "201 Created" prodBody)) sampleJSON "lkc-1"
        none).ret.2 ≠ none) ∧
    ((CreateKafkaCluster (respondWith (mkResponse 201 "201 Created" prodBody)) sampleJSON
        (some prodCreateReq)).ret.1 = none ∧
      (CreateKafkaCluster (respondWith (mkResponse 201 "201 Created" prodBody)) sampleJSON
        (some prodCreateReq)).ret.2 ≠ none) ∧
    ((UpdateKafkaCluster (respondWith (mkResponse 200 "200 OK" prodBody)) sampleJSON "lkc-1"
        none).ret.1 = none ∧
      (UpdateKafkaCluster (respondWith (mkResponse 200 "200 OK" prodBody)) sampleJSON "lkc-1"
        none).ret.2 ≠ none) ∧
    (DeleteKafkaCluster (respondWith (mkResponse 202 "202 Accepted" "")) "lkc-1"
        noOptions).ret ≠ none ∧
    (UpdateKafkaClusterConfigs (respondWith (mkResponse 200 "200 OK" ""))
        "https://pkc-1.example" "lkc-1" none).ret ≠ none ∧
    (UpdateKafkaClusterConfig (respondWith (mkResponse 200 "200 OK" ""))
        "https://pkc-1.example" "lkc-1" "retention.ms" "604800000").ret ≠ none ∧
    ((CreateAPIKey (respondWith (mkResponse 201 "201 Created" keyBody)) sampleJSON none).ret.1
        = none ∧
      (CreateAPIKey (respondWith (mkResponse 201 "201 Created" keyBody)) sampleJSON none).ret.2
        ≠ none) :=
  ⟨(unexpected_status_yields_error _ sampleJSON (mkResponse 201 "201 Created" listBody)).1 none
      (received_respondWith _ _ (by simp [ListKafkaClusters_sent])) (by decide),
   (unexpected_status_yields_error _ sampleJSON (mkResponse 201 "201 Created" prodBody)).2.1
      "lkc-1" none
      (received_respondWith _ _ (by simp [GetKafkaCluster_sent])) (by decide),
   (unexpected_status_yields_error _ sampleJSON (mkResponse 201 "201 Created" prodBody)).2.2.1
      (some prodCreateReq)
      (received_respondWith _ _ (by simp [CreateKafkaCluster_sent])) (by decide),
   (unexpected_status_yields_error _ sampleJSON (mkResponse 200 "200 OK" prodBody)).2.2.2.1
      "lkc-1" none
      (received_respondWith _ _ (by simp [UpdateKafkaCluster_sent])) (by decide),
   (unexpected_status_yields_error _ sampleJSON
      (mkResponse 202 "202 Accepted" "")).2.2.2.2.1 "lkc-1" noOptions
      (received_respondWith _ _ (by simp [DeleteKafkaCluster_sent])) (by decide) (by decide),
   (unexpected_status_yields_error _ sampleJSON
      (mkResponse 200 "200 OK" "")).2.2.2.2.2.1 "https://pkc-1.example" "lkc-1" none
      (received_respondWith _ _ (by simp [UpdateKafkaClusterConfigs_sent])) (by decide),
   (unexpected_status_yields_error _ sampleJSON
      (mkResponse 200 "200 OK" "")).2.2.2.2.2.2.1
      "https://pkc-1.example" "lkc-1" "retention.ms" "604800000"
      (received_respondWith _ _ (by simp [UpdateKafkaClusterConfig_sent])) (by decide),
   (unexpected_status_yields_error _ sampleJSON
      (mkResponse 201 "201 Created" keyBody)).2.2.2.2.2.2.2 none
      (received_respondWith _ _ (by simp [CreateAPIKey_sent])) (by decide)⟩

/-! ## The decoder stores the members of the body -/

theorem equalFold_names (k a b : String) (ha : equalFold k a = true) (hb : equalFold k b = true) :
    a.data.map foldRune = b.data.map foldRune := by
  simp only [equalFold, decide_eq_true_eq] at ha hb
  rw [← ha, ← hb]

theorem equalFold_congr (a b : String) (h : a.data.map foldRune = b.data.map foldRune)
    (k : String) : equalFold k a = equalFold k b := by
  simp only [equalFold, h]

theorem Json.field_congr (a b : String) (h : a.data.map foldRune = b.data.map foldRune)
    (j : Json) : j.field a = j.field b := by
  cases j <;> simp only [Json.field, equalFold_congr a b h]

theorem Json.path_cons_eq_some {name : String} {rest : List String} {j y : Json}
    (h : Json.path (name :: rest) j = some y) :
    ∃ x, j.field name = some x ∧ Json.path rest x = some y := by
  simp only [Json.path] at h
  cases hf : j.field name with
  | none => simp [hf] at h
  | some x => exact ⟨x, rfl, by simpa [hf] using h⟩

theorem Json.path_append_eq_some {p q : List String} {j z : Json}
    (h : Json.path (p ++ q) j = some z) :
    ∃ y, Json.path p j = some y ∧ Json.path q y = some z := by
  induction p generalizing j with
  | nil => exact ⟨j, rfl, h⟩
  | cons name rest ih =>
    obtain ⟨x, hf, hp⟩ := Json.path_cons_eq_some h
    obtain ⟨y, hy, hq⟩ := ih hp
    exact ⟨y, by simp [Json.path, hf, hy], hq⟩

theorem Json.path_nil_eq_some {j y : Json} (h : Json.path [] j = some y) : j = y := by
  simpa [Json.path] using h

theorem decodeMembers_unchanged {T A : Type} (member : String → Json → T → Option T)
    (get : T → A) (name : String)
    (hm : ∀ k x v v1, member k x v = some v1 → equalFold k name = false → get v1 = get v) :
    ∀ (kvs : List (String × Json)) (v r : T), decodeMembers member kvs v = some r →
      (kvs.filter fun kv => equalFold kv.1 name) = [] → get r = get v := by
  intro kvs
  induction kvs with
  | nil =>
    intro v r h _
    simp only [decodeMembers, Option.some.injEq] at h
    rw [h]
  | cons kv rest ih =>
    intro v r h hf
    simp only [decodeMembers] at h
    cases hk : equalFold kv.1 name with
    | true => simp [List.filter, hk] at hf
    | false =>
      simp only [List.filter, hk] at hf
      cases hs : member kv.1 kv.2 v with
      | none => simp [hs] at h
      | some v1 =>
        simp only [hs] at h
        rw [ih v1 r h hf, hm _ _ _ _ hs hk]

theorem decodeMembers_field {T A : Type} (member : String → Json → T → Option T)
    (get : T → A) (name : String) (dec : Json → A → Option A)
    (hm : ∀ k x v v1, member k x v = some v1 → equalFold k name = false → get v1 = get v)
    (hd : ∀ k x v v1, member k x v = some v1 → equalFold k name = true →
      dec x (get v) = some (get v1)) :
    ∀ (kvs : List (String × Json)) (v r : T) (x : Json), decodeMembers member kvs v = some r →
      Json.field name (.obj kvs) = some x → dec x (get v) = some (get r) := by
  intro kvs
  induction kvs with
  | nil =>
    intro v r x _ hf
    simp [Json.field] at hf
  | cons kv rest ih =>
    intro v r x h hf
    simp only [decodeMembers] at h
    cases hs : member kv.1 kv.2 v with
    | none => simp [hs] at h
    | some v1 =>
      simp only [hs] at h
      cases hk : equalFold kv.1 name with
      | true =>
        simp only [Json.field, List.filter, hk] at hf
        cases hrest : (rest.filter fun kv => equalFold kv.1 name) with
        | nil =>
          simp only [hrest, Option.some.injEq] at hf
          have h1 := hd _ _ _ _ hs hk
          rw [decodeMembers_unchanged member get name hm rest v1 r h hrest, ← hf]
          exact h1
        | cons kv2 rest2 => simp [hrest] at hf
      | false =>
        have hf2 : Json.field name (.obj rest) = some x := by
          simpa only [Json.field, List.filter, hk] using hf
        rw [← hm _ _ _ _ hs hk]
        exact ih v1 r x h hf2

theorem decodeStruct_field {T A : Type} (member : String → Json → T → Option T)
    (get : T → A) (name : String) (dec : Json → A → Option A)
    (hm : ∀ k x v v1, member k x v = some v1 → equalFold k name = false → get v1 = get v)
    (hd : ∀ k x v v1, member k x v = some v1 → equalFold k name = true →
      dec x (get v) = some (get v1))
    (j : Json) (v r : T) (x : Json) (h : decodeStruct member j v = some r)
    (hf : j.field name = some x) : dec x (get v) = some (get r) := by
  cases j with
  | obj kvs => exact decodeMembers_field member get name dec hm hd kvs v r x h hf
  | _ => simp [Json.field] at hf

theorem decodeElements_strings (zs : List String) :
    decodeElements decodeString "" (zs.map Json.str) = some zs := by
  induction zs with
  | nil => rfl
  | cons z zs ih => simp [decodeElements, decodeString, ih]

theorem decodeElements_forall₂ {T : Type} (elem : Json → T → Option T) (zero : T) :
    ∀ (xs : List Json) (ys : List T), decodeElements elem zero xs = some ys →
      List.Forall₂ (fun x y => elem x zero = some y) xs ys := by
  intro xs
  induction xs with
  | nil =>
    intro ys h
    simp only [decodeElements, Option.some.injEq] at h
    subst h
    exact List.Forall₂.nil
  | cons x xs ih =>
    intro ys h
    simp only [decodeElements] at h
    cases hx : elem x zero with
    | none => simp [hx] at h
    | some y =>
      cases hxs : decodeElements elem zero xs with
      | none => simp [hx, hxs] at h
      | some ys1 =>
        simp only [hx, hxs, Option.some.injEq] at h
        subst h
        exact List.Forall₂.cons hx (ih ys1 hxs)

theorem field_KafkaClusterSpecConfig_Kind (j : Json) (v r : KafkaClusterSpecConfig) (x : Json)
    (h : decodeStruct KafkaClusterSpecConfig.member j v = some r) (hf : j.field "kind" = some x) :
    decodeString x v.Kind = some r.Kind := by
  refine decodeStruct_field KafkaClusterSpecConfig.member (fun v => v.Kind) "kind" decodeString ?_ ?_ j v r x h hf
  · intro k x v v1 h hk
    unfold KafkaClusterSpecConfig.member at h
    by_cases c0 : equalFold k "kind" = true
    · rw [if_pos c0] at h
      exact absurd (c0.symm.trans hk) (by decide)
    · rw [if_neg c0] at h
      by_cases c1 : equalFold k "cku" = true
      · rw [if_pos c1] at h
        obtain ⟨a, _, rfl⟩ := Option.map_eq_some'.mp h
        rfl
      · rw [if_neg c1] at h
        by_cases c2 : equalFold k "zones" = true
        · rw [if_pos c2] at h
          obtain ⟨a, _, rfl⟩ := Option.map_eq_some'.mp h
          rfl
        · rw [if_neg c2] at h
          cases h
          rfl
  · intro k x v v1 h hk
    unfold KafkaClusterSpecConfig.member at h
    by_cases c0 : equalFold k "kind" = true
    · rw [if_pos c0] at h
      obtain ⟨a, ha, rfl⟩ := Option.map_eq_some'.mp h
      exact ha
    · rw [if_neg c0] at h
      by_cases c1 : equalFold k "cku" = true
      · rw [if_pos c1] at h
        exact absurd (equalFold_names _ _ _ c1 hk) (by decide)
      · rw [if_neg c1] at h
        by_cases c2 : equalFold k "zones" = true
        · rw [if_pos c2] at h
          exact absurd (equalFold_names _ _ _ c2 hk) (by decide)
        · rw [if_neg c2] at h
          exact absurd hk c0

theorem field_KafkaClusterSpecConfig_Cku (j : Json) (v r : KafkaClusterSpecConfig) (x : Json)
    (h : decodeStruct KafkaClusterSpecConfig.member j v = some r) (hf : j.field "cku" = some x) :
    decodeInt x v.Cku = some r.Cku := by
  refine decodeStruct_field KafkaClusterSpecConfig.member (fun v => v.Cku) "cku" decodeInt ?_ ?_ j v r x h hf
  · intro k x v v1 h hk
    unfold KafkaClusterSpecConfig.member at h
    by_cases c0 : equalFold k "kind" = true
    · rw [if_pos c0] at h
      obtain ⟨a, _, rfl⟩ := Option.map_eq_some'.mp h
      rfl
    · rw [if_neg c0] at h
      by_cases c1 : equalFold k "cku" = true
      · rw [if_pos c1] at h
        exact absurd (c1.symm.trans hk) (by decide)
      · rw [if_neg c1] at h
        by_cases c2 : equalFold k "zones" = true
        · rw [if_pos c2] at h
          obtain ⟨a, _, rfl⟩ := Option.map_eq_some'.mp h
          rfl
        · rw [if_neg c2] at h
          cases h
          rfl
  · intro k x v v1 h hk
    unfold KafkaClusterSpecConfig.member at h
    by_cases c0 : equalFold k "kind" = true
    · rw [if_pos c0] at h
      exact absurd (equalFold_names _ _ _ c0 hk) (by decide)
    · rw [if_neg c0] at h
      by_cases c1 : equalFold k "cku" = true
      · rw [if_pos c1] at h
        obtain ⟨a, ha, rfl⟩ := Option.map_eq_some'.mp h
        exact ha
      · rw [if_neg c1] at h
        by_cases c2 : equalFold k "zones" = true
        · rw [if_pos c2] at h
          exact absurd (equalFold_names _ _ _ c2 hk) (by decide)
        · rw [if_neg c2] at h
          exact absurd hk c1

theorem field_KafkaClusterSpecConfig_Zones (j : Json) (v r : KafkaClusterSpecConfig) (x : Json)
    (h : decodeStruct KafkaClusterSpecConfig.member j v = some r) (hf : j.field "zones" = some x) :
    (decodeSlice decodeString "") x v.Zones = some r.Zones := by
  refine decodeStruct_field KafkaClusterSpecConfig.member (fun v => v.Zones) "zones" (decodeSlice decodeString "") ?_ ?_ j v r x h hf
  · intro k x v v1 h hk
    unfold KafkaClusterSpecConfig.member at h
    by_cases c0 : equalFold k "kind" = true
    · rw [if_pos c0] at h
      obtain ⟨a, _, rfl⟩ := Option.map_eq_some'.mp h
      rfl
    · rw [if_neg c0] at h
      by_cases c1 : equalFold k "cku" = true
      · rw [if_pos c1] at h
        obtain ⟨a, _, rfl⟩ := Option.map_eq_some'.mp h
        rfl
      · rw [if_neg c1] at h
        by_cases c2 : equalFold k "zones" = true
        · rw [if_pos c2] at h
          exact absurd (c2.symm.trans hk) (by decide)
        · rw [if_neg c2] at h
          cases h
          rfl
  · intro k x v v1 h hk
    unfold KafkaClusterSpecConfig.member at h
    by_cases c0 : equalFold k "kind" = true
    · rw [if_pos c0] at h
      exact absurd (equalFold_names _ _ _ c0 hk) (by decide)
    · rw [if_neg c0] at h
      by_cases c1 : equalFold k "cku" = true
      · rw [if_pos c1] at h
        exact absurd (equalFold_names _ _ _ c1 hk) (by decide)
      · rw [if_neg c1] at h
        by_cases c2 : equalFold k "zones" = true
        · rw [if_pos c2] at h
          obtain ⟨a, ha, rfl⟩ := Option.map_eq_some'.mp h
          exact ha
        · rw [if_neg c2] at h
          exact absurd hk c2

theorem field_KafkaClusterSpec_DisplayName (ext : ExternalTypes) (j : Json) (v r : KafkaClusterSpec) (x : Json)
    (h : decodeStruct (KafkaClusterSpec.member ext) j v = some r) (hf : j.field "display_name" = some x) :
    decodeString x v.DisplayName = some r.DisplayName := by
  refine decodeStruct_field (KafkaClusterSpec.member ext) (fun v => v.DisplayName) "display_name" decodeString ?_ ?_ j v r x h hf
  · intro k x v v1 h hk
    unfold KafkaClusterSpec.member at h
    by_cases c0 : equalFold k "display_name" = true
    · rw [if_pos c0] at h
      exact absurd (c0.symm.trans hk) (by decide)
    · rw [if_neg c0] at h
      by_cases c1 : equalFold k "availability" = true
      · rw [if_pos c1] at h
        obtain ⟨a, _, rfl⟩ := Option.map_eq_some'.mp h
        rfl
      · rw [if_neg c1] at h
        by_cases c2 : equalFold k "cloud" = true
        · rw [if_pos c2] at h
          obtain ⟨a, _, rfl⟩ := Option.map_eq_some'.mp h
          rfl
        · rw [if_neg c2] at h
          by_cases c3 : equalFold k "region" = true
          · rw [if_pos c3] at h
            obtain ⟨a, _, rfl⟩ := Option.map_eq_some'.mp h
            rfl
          · rw [if_neg c3] at h
            by_cases c4 : equalFold k "kafka_bootstrap_endpoint" = true
            · rw [if_pos c4] at h
              obtain ⟨a, _, rfl⟩ := Option.map_eq_some'.mp h
              rfl
            · rw [if_neg c4] at h
              by_cases c5 : equalFold k "http_endpoint" = true
              · rw [if_pos c5] at h
                obtain ⟨a, _, rfl⟩ := Option.map_eq_some'.mp h
                rfl
              · rw [if_neg c5] at h
                by_cases c6 : equalFold k "Config" = true
                · rw [if_pos c6] at h
                  obtain ⟨a, _, rfl⟩ := Option.map_eq_some'.mp h
                  rfl
                · rw [if_neg c6] at h
                  by_cases c7 : equalFold k "Network" = true
                  · rw [if_pos c7] at h
                    obtain ⟨a, _, rfl⟩ := Option.map_eq_some'.mp h
                    rfl
                  · rw [if_neg c7] at h
                    by_cases c8 : equalFold k "Environment" = true
                    · rw [if_pos c8] at h
                      obtain ⟨a, _, rfl⟩ := Option.map_eq_some'.mp h
                      rfl
                    · rw [if_neg c8] at h
                      cases h
                      rfl
  · intro k x v v1 h hk
    unfold KafkaClusterSpec.member at h
    by_cases c0 : equalFold k "display_name" = true
    · rw [if_pos c0] at h
      obtain ⟨a, ha, rfl⟩ := Option.map_eq_some'.mp h
      exact ha
    · rw [if_neg c0] at h
      by_cases c1 : equalFold k "availability" = true
      · rw [if_pos c1] at h
        exact absurd (equalFold_names _ _ _ c1 hk) (by decide)
      · rw [if_neg c1] at h
        by_cases c2 : equalFold k "cloud" = true
        · rw [if_pos c2] at h
          exact absurd (equalFold_names _ _ _ c2 hk) (by decide)
        · rw [if_neg c2] at h
          by_cases c3 : equalFold k "region" = true
          · rw [if_pos c3] at h
            exact absurd (equalFold_names _ _ _ c3 hk) (by decide)
          · rw [if_neg c3] at h
            by_cases c4 : equalFold k "kafka_bootstrap_endpoint" = true
            · rw [if_pos c4] at h
              exact absurd (equalFold_names _ _ _ c4 hk) (by decide)
            · rw [if_neg c4] at h
              by_cases c5 : equalFold k "http_endpoint" = true
              · rw [if_pos c5] at h
                exact absurd (equalFold_names _ _ _ c5 hk) (by decide)
              · rw [if_neg c5] at h
                by_cases c6 : equalFold k "Config" = true
                · rw [if_pos c6] at h
                  exact absurd (equalFold_names _ _ _ c6 hk) (by decide)
                · rw [if_neg c6] at h
                  by_cases c7 : equalFold k "Network" = true
                  · rw [if_pos c7] at h
                    exact absurd (equalFold_names _ _ _ c7 hk) (by decide)
                  · rw [if_neg c7] at h
                    by_cases c8 : equalFold k "Environment" = true
                    · rw [if_pos c8] at h
                      exact absurd (equalFold_names _ _ _ c8 hk) (by decide)
                    · rw [if_neg c8] at h
                      exact absurd hk c0

theorem field_KafkaClusterSpec_Availability (ext : ExternalTypes) (j : Json) (v r : KafkaClusterSpec) (x : Json)
    (h : decodeStruct (KafkaClusterSpec.member ext) j v = some r) (hf : j.field "availability" = some x) :
    decodeString x v.Availability = some r.Availability := by
  refine decodeStruct_field (KafkaClusterSpec.member ext) (fun v => v.Availability) "availability" decodeString ?_ ?_ j v r x h hf
  · intro k x v v1 h hk
    unfold KafkaClusterSpec.member at h
    by_cases c0 : equalFold k "display_name" = true
    · rw [if_pos c0] at h
      obtain ⟨a, _, rfl⟩ := Option.map_eq_some'.mp h
      rfl
    · rw [if_neg c0] at h
      by_cases c1 : equalFold k "availability" = true
      · rw [if_pos c1] at h
        exact absurd (c1.symm.trans hk) (by decide)
      · rw [if_neg c1] at h
        by_cases c2 : equalFold k "cloud" = true
        · rw [if_pos c2] at h
          obtain ⟨a, _, rfl⟩ := Option.map_eq_some'.mp h
          rfl
        · rw [if_neg c2] at h
          by_cases c3 : equalFold k "region" = true
          · rw [if_pos c3] at h
            obtain ⟨a, _, rfl⟩ := Option.map_eq_some'.mp h
            rfl
          · rw [if_neg c3] at h
            by_cases c4 : equalFold k "kafka_bootstrap_endpoint" = true
            · rw [if_pos c4] at h
              obtain ⟨a, _, rfl⟩ := Option.map_eq_some'.mp h
              rfl
            · rw [if_neg c4] at h
              by_cases c5 : equalFold k "http_endpoint" = true
              · rw [if_pos c5] at h
                obtain ⟨a, _, rfl⟩ := Option.map_eq_some'.mp h
                rfl
              · rw [if_neg c5] at h
                by_cases c6 : equalFold k "Config" = true
                · rw [if_pos c6] at h
                  obtain ⟨a, _, rfl⟩ := Option.map_eq_some'.mp h
                  rfl
                · rw [if_neg c6] at h
                  by_cases c7 : equalFold k "Network" = true
                  · rw [if_pos c7] at h
                    obtain ⟨a, _, rfl⟩ := Option.map_eq_some'.mp h
                    rfl
                  · rw [if_neg c7] at h
                    by_cases c8 : equalFold k "Environment" = true
                    · rw [if_pos c8] at h
                      obtain ⟨a, _, rfl⟩ := Option.map_eq_some'.mp h
                      rfl
                    · rw [if_neg c8] at h
                      cases h
                      rfl
  · intro k x v v1 h hk
    unfold KafkaClusterSpec.member at h
    by_cases c0 : equalFold k "display_name" = true
    · rw [if_pos c0] at h
      exact absurd (equalFold_names _ _ _ c0 hk) (by decide)
    · rw [if_neg c0] at h
      by_cases c1 : equalFold k "availability" = true
      · rw [if_pos c1] at h
        obtain ⟨a, ha, rfl⟩ := Option.map_eq_some'.mp h
        exact ha
      · rw [if_neg c1] at h
        by_cases c2 : equalFold k "cloud" = true
        · rw [if_pos c2] at h
          exact absurd (equalFold_names _ _ _ c2 hk) (by decide)
        · rw [if_neg c2] at h
          by_cases c3 : equalFold k "region" = true
          · rw [if_pos c3] at h
            exact absurd (equalFold_names _ _ _ c3 hk) (by decide)
          · rw [if_neg c3] at h
            by_cases c4 : equalFold k "kafka_bootstrap_endpoint" = true
            · rw [if_pos c4] at h
              exact absurd (equalFold_names _ _ _ c4 hk) (by decide)
            · rw [if_neg c4] at h
              by_cases c5 : equalFold k "http_endpoint" = true
              · rw [if_pos c5] at h
                exact absurd (equalFold_names _ _ _ c5 hk) (by decide)
              · rw [if_neg c5] at h
                by_cases c6 : equalFold k "Config" = true
                · rw [if_pos c6] at h
                  exact absurd (equalFold_names _ _ _ c6 hk) (by decide)
                · rw [if_neg c6] at h
                  by_cases c7 : equalFold k "Network" = true
                  · rw [if_pos c7] at h
                    exact absurd (equalFold_names _ _ _ c7 hk) (by decide)
                  · rw [if_neg c7] at h
                    by_cases c8 : equalFold k "Environment" = true
                    · rw [if_pos c8] at h
                      exact absurd (equalFold_names _ _ _ c8 hk) (by decide)
                    · rw [if_neg c8] at h
                      exact absurd hk c1

theorem field_KafkaClusterSpec_Cloud (ext : ExternalTypes) (j : Json) (v r : KafkaClusterSpec) (x : Json)
    (h : decodeStruct (KafkaClusterSpec.member ext) j v = some r) (hf : j.field "cloud" = some x) :
    decodeString x v.Cloud = some r.Cloud := by
  refine decodeStruct_field (KafkaClusterSpec.member ext) (fun v => v.Cloud) "cloud" decodeString ?_ ?_ j v r x h hf
  · intro k x v v1 h hk
    unfold KafkaClusterSpec.member at h
    by_cases c0 : equalFold k "display_name" = true
    · rw [if_pos c0] at h
      obtain ⟨a, _, rfl⟩ := Option.map_eq_some'.mp h
      rfl
    · rw [if_neg c0] at h
      by_cases c1 : equalFold k "availability" = true
      · rw [if_pos c1] at h
        obtain ⟨a, _, rfl⟩ := Option.map_eq_some'.mp h
        rfl
      · rw [if_neg c1] at h
        by_cases c2 : equalFold k "cloud" = true
        · rw [if_pos c2] at h
          exact absurd (c2.symm.trans hk) (by decide)
        · rw [if_neg c2] at h
          by_cases c3 : equalFold k "region" = true
          · rw [if_pos c3] at h
            obtain ⟨a, _, rfl⟩ := Option.map_eq_some'.mp h
            rfl
          · rw [if_neg c3] at h
            by_cases c4 : equalFold k "kafka_bootstrap_endpoint" = true
            · rw [if_pos c4] at h
              obtain ⟨a, _, rfl⟩ := Option.map_eq_some'.mp h
              rfl
            · rw [if_neg c4] at h
              by_cases c5 : equalFold k "http_endpoint" = true
              · rw [if_pos c5] at h
                obtain ⟨a, _, rfl⟩ := Option.map_eq_some'.mp h
                rfl
              · rw [if_neg c5] at h
                by_cases c6 : equalFold k "Config" = true
                · rw [if_pos c6] at h
                  obtain ⟨a, _, rfl⟩ := Option.map_eq_some'.mp h
                  rfl
                · rw [if_neg c6] at h
                  by_cases c7 : equalFold k "Network" = true
                  · rw [if_pos c7] at h
                    obtain ⟨a, _, rfl⟩ := Option.map_eq_some'.mp h
                    rfl
                  · rw [if_neg c7] at h
                    by_cases c8 : equalFold k "Environment" = true
                    · rw [if_pos c8] at h
                      obtain ⟨a, _, rfl⟩ := Option.map_eq_some'.mp h
                      rfl
                    · rw [if_neg c8] at h
                      cases h
                      rfl
  · intro k x v v1 h hk
    unfold KafkaClusterSpec.member at h
    by_cases c0 : equalFold k "display_name" = true
    · rw [if_pos c0] at h
      exact absurd (equalFold_names _ _ _ c0 hk) (by decide)
    · rw [if_neg c0] at h
      by_cases c1 : equalFold k "availability" = true
      · rw [if_pos c1] at h
        exact absurd (equalFold_names _ _ _ c1 hk) (by decide)
      · rw [if_neg c1] at h
        by_cases c2 : equalFold k "cloud" = true
        · rw [if_pos c2] at h
          obtain ⟨a, ha, rfl⟩ := Option.map_eq_some'.mp h
          exact ha
        · rw [if_neg c2] at h
          by_cases c3 : equalFold k "region" = true
          · rw [if_pos c3] at h
            exact absurd (equalFold_names _ _ _ c3 hk) (by decide)
          · rw [if_neg c3] at h
            by_cases c4 : equalFold k "kafka_bootstrap_endpoint" = true
            · rw [if_pos c4] at h
              exact absurd (equalFold_names _ _ _ c4 hk) (by decide)
            · rw [if_neg c4] at h
              by_cases c5 : equalFold k "http_endpoint" = true
              · rw [if_pos c5] at h
                exact absurd (equalFold_names _ _ _ c5 hk) (by decide)
              · rw [if_neg c5] at h
                by_cases c6 : equalFold k "Config" = true
                · rw [if_pos c6] at h
                  exact absurd (equalFold_names _ _ _ c6 hk) (by decide)
                · rw [if_neg c6] at h
                  by_cases c7 : equalFold k "Network" = true
                  · rw [if_pos c7] at h
                    exact absurd (equalFold_names _ _ _ c7 hk) (by decide)
                  · rw [if_neg c7] at h
                    by_cases c8 : equalFold k "Environment" = true
                    · rw [if_pos c8] at h
                      exact absurd (equalFold_names _ _ _ c8 hk) (by decide)
                    · rw [if_neg c8] at h
                      exact absurd hk c2

theorem field_KafkaClusterSpec_Region (ext : ExternalTypes) (j : Json) (v r : KafkaClusterSpec) (x : Json)
    (h : decodeStruct (KafkaClusterSpec.member ext) j v = some r) (hf : j.field "region" = some x) :
    decodeString x v.Region = some r.Region := by
  refine decodeStruct_field (KafkaClusterSpec.member ext) (fun v => v.Region) "region" decodeString ?_ ?_ j v r x h hf
  · intro k x v v1 h hk
    unfold KafkaClusterSpec.member at h
    by_cases c0 : equalFold k "display_name" = true
    · rw [if_pos c0] at h
      obtain ⟨a, _, rfl⟩ := Option.map_eq_some'.mp h
      rfl
    · rw [if_neg c0] at h
      by_cases c1 : equalFold k "availability" = true
      · rw [if_pos c1] at h
        obtain ⟨a, _, rfl⟩ := Option.map_eq_some'.mp h
        rfl
      · rw [if_neg c1] at h
        by_cases c2 : equalFold k "cloud" = true
        · rw [if_pos c2] at h
          obtain ⟨a, _, rfl⟩ := Option.map_eq_some'.mp h
          rfl
        · rw [if_neg c2] at h
          by_cases c3 : equalFold k "region" = true
          · rw [if_pos c3] at h
            exact absurd (c3.symm.trans hk) (by decide)
          · rw [if_neg c3] at h
            by_cases c4 : equalFold k "kafka_bootstrap_endpoint" = true
            · rw [if_pos c4] at h
              obtain ⟨a, _, rfl⟩ := Option.map_eq_some'.mp h
              rfl
            · rw [if_neg c4] at h
              by_cases c5 : equalFold k "http_endpoint" = true
              · rw [if_pos c5] at h
                obtain ⟨a, _, rfl⟩ := Option.map_eq_some'.mp h
                rfl
              · rw [if_neg c5] at h
                by_cases c6 : equalFold k "Config" = true
                · rw [if_pos c6] at h
                  obtain ⟨a, _, rfl⟩ := Option.map_eq_some'.mp h
                  rfl
                · rw [if_neg c6] at h
                  by_cases c7 : equalFold k "Network" = true
                  · rw [if_pos c7] at h
                    obtain ⟨a, _, rfl⟩ := Option.map_eq_some'.mp h
                    rfl
                  · rw [if_neg c7] at h
                    by_cases c8 : equalFold k "Environment" = true
                    · rw [if_pos c8] at h
                      obtain ⟨a, _, rfl⟩ := Option.map_eq_some'.mp h
                      rfl
                    · rw [if_neg c8] at h
                      cases h
                      rfl
  · intro k x v v1 h hk
    unfold KafkaClusterSpec.member at h
    by_cases c0 : equalFold k "display_name" = true
    · rw [if_pos c0] at h
      exact absurd (equalFold_names _ _ _ c0 hk) (by decide)
    · rw [if_neg c0] at h
      by_cases c1 : equalFold k "availability" = true
      · rw [if_pos c1] at h
        exact absurd (equalFold_names _ _ _ c1 hk) (by decide)
      · rw [if_neg c1] at h
        by_cases c2 : equalFold k "cloud" = true
        · rw [if_pos c2] at h
          exact absurd (equalFold_names _ _ _ c2 hk) (by decide)
        · rw [if_neg c2] at h
          by_cases c3 : equalFold k "region" = true
          · rw [if_pos c3] at h
            obtain ⟨a, ha, rfl⟩ := Option.map_eq_some'.mp h
            exact ha
          · rw [if_neg c3] at h
            by_cases c4 : equalFold k "kafka_bootstrap_endpoint" = true
            · rw [if_pos c4] at h
              exact absurd (equalFold_names _ _ _ c4 hk) (by decide)
            · rw [if_neg c4] at h
              by_cases c5 : equalFold k "http_endpoint" = true
              · rw [if_pos c5] at h
                exact absurd (equalFold_names _ _ _ c5 hk) (by decide)
              · rw [if_neg c5] at h
                by_cases c6 : equalFold k "Config" = true
                · rw [if_pos c6] at h
                  exact absurd (equalFold_names _ _ _ c6 hk) (by decide)
                · rw [if_neg c6] at h
                  by_cases c7 : equalFold k "Network" = true
                  · rw [if_pos c7] at h
                    exact absurd (equalFold_names _ _ _ c7 hk) (by decide)
                  · rw [if_neg c7] at h
                    by_cases c8 : equalFold k "Environment" = true
                    · rw [if_pos c8] at h
                      exact absurd (equalFold_names _ _ _ c8 hk) (by decide)
                    · rw [if_neg c8] at h
                      exact absurd hk c3

theorem field_KafkaClusterSpec_KafkaBootstrapEndpoint (ext : ExternalTypes) (j : Json) (v r : KafkaClusterSpec) (x : Json)
    (h : decodeStruct (KafkaClusterSpec.member ext) j v = some r) (hf : j.field "kafka_bootstrap_endpoint" = some x) :
    decodeString x v.KafkaBootstrapEndpoint = some r.KafkaBootstrapEndpoint := by
  refine decodeStruct_field (KafkaClusterSpec.member ext) (fun v => v.KafkaBootstrapEndpoint) "kafka_bootstrap_endpoint" decodeString ?_ ?_ j v r x h hf
  · intro k x v v1 h hk
    unfold KafkaClusterSpec.member at h
    by_cases c0 : equalFold k "display_name" = true
    · rw [if_pos c0] at h
      obtain ⟨a, _, rfl⟩ := Option.map_eq_some'.mp h
      rfl
    · rw [if_neg c0] at h
      by_cases c1 : equalFold k "availability" = true
      · rw [if_pos c1] at h
        obtain ⟨a, _, rfl⟩ := Option.map_eq_some'.mp h
        rfl
      · rw [if_neg c1] at h
        by_cases c2 : equalFold k "cloud" = true
        · rw [if_pos c2] at h
          obtain ⟨a, _, rfl⟩ := Option.map_eq_some'.mp h
          rfl
        · rw [if_neg c2] at h
          by_cases c3 : equalFold k "region" = true
          · rw [if_pos c3] at h
            obtain ⟨a, _, rfl⟩ := Option.map_eq_some'.mp h
            rfl
          · rw [if_neg c3] at h
            by_cases c4 : equalFold k "kafka_bootstrap_endpoint" = true
            · rw [if_pos c4] at h
              exact absurd (c4.symm.trans hk) (by decide)
            · rw [if_neg c4] at h
              by_cases c5 : equalFold k "http_endpoint" = true
              · rw [if_pos c5] at h
                obtain ⟨a, _, rfl⟩ := Option.map_eq_some'.mp h
                rfl
              · rw [if_neg c5] at h
                by_cases c6 : equalFold k "Config" = true
                · rw [if_pos c6] at h
                  obtain ⟨a, _, rfl⟩ := Option.map_eq_some'.mp h
                  rfl
                · rw [if_neg c6] at h
                  by_cases c7 : equalFold k "Network" = true
                  · rw [if_pos c7] at h
                    obtain ⟨a, _, rfl⟩ := Option.map_eq_some'.mp h
                    rfl
                  · rw [if_neg c7] at h
                    by_cases c8 : equalFold k "Environment" = true
                    · rw [if_pos c8] at h
                      obtain ⟨a, _, rfl⟩ := Option.map_eq_some'.mp h
                      rfl
                    · rw [if_neg c8] at h
                      cases h
                      rfl
  · intro k x v v1 h hk
    unfold KafkaClusterSpec.member at h
    by_cases c0 : equalFold k "display_name" = true
    · rw [if_pos c0] at h
      exact absurd (equalFold_names _ _ _ c0 hk) (by decide)
    · rw [if_neg c0] at h
      by_cases c1 : equalFold k "availability" = true
      · rw [if_pos c1] at h
        exact absurd (equalFold_names _ _ _ c1 hk) (by decide)
      · rw [if_neg c1] at h
        by_cases c2 : equalFold k "cloud" = true
        · rw [if_pos c2] at h
          exact absurd (equalFold_names _ _ _ c2 hk) (by decide)
        · rw [if_neg c2] at h
          by_cases c3 : equalFold k "region" = true
          · rw [if_pos c3] at h
            exact absurd (equalFold_names _ _ _ c3 hk) (by decide)
          · rw [if_neg c3] at h
            by_cases c4 : equalFold k "kafka_bootstrap_endpoint" = true
            · rw [if_pos c4] at h
              obtain ⟨a, ha, rfl⟩ := Option.map_eq_some'.mp h
              exact ha
            · rw [if_neg c4] at h
              by_cases c5 : equalFold k "http_endpoint" = true
              · rw [if_pos c5] at h
                exact absurd (equalFold_names _ _ _ c5 hk) (by decide)
              · rw [if_neg c5] at h
                by_cases c6 : equalFold k "Config" = true
                · rw [if_pos c6] at h
                  exact absurd (equalFold_names _ _ _ c6 hk) (by decide)
                · rw [if_neg c6] at h
                  by_cases c7 : equalFold k "Network" = true
                  · rw [if_pos c7] at h
                    exact absurd (equalFold_names _ _ _ c7 hk) (by decide)
                  · rw [if_neg c7] at h
                    by_cases c8 : equalFold k "Environment" = true
                    · rw [if_pos c8] at h
                      exact absurd (equalFold_names _ _ _ c8 hk) (by decide)
                    · rw [if_neg c8] at h
                      exact absurd hk c4

theorem field_KafkaClusterSpec_HttpEndpoint (ext : ExternalTypes) (j : Json) (v r : KafkaClusterSpec) (x : Json)
    (h : decodeStruct (KafkaClusterSpec.member ext) j v = some r) (hf : j.field "http_endpoint" = some x) :
    decodeString x v.HttpEndpoint = some r.HttpEndpoint := by
  refine decodeStruct_field (KafkaClusterSpec.member ext) (fun v => v.HttpEndpoint) "http_endpoint" decodeString ?_ ?_ j v r x h hf
  · intro k x v v1 h hk
    unfold KafkaClusterSpec.member at h
    by_cases c0 : equalFold k "display_name" = true
    · rw [if_pos c0] at h
      obtain ⟨a, _, rfl⟩ := Option.map_eq_some'.mp h
      rfl
    · rw [if_neg c0] at h
      by_cases c1 : equalFold k "availability" = true
      · rw [if_pos c1] at h
        obtain ⟨a, _, rfl⟩ := Option.map_eq_some'.mp h
        rfl
      · rw [if_neg c1] at h
        by_cases c2 : equalFold k "cloud" = true
        · rw [if_pos c2] at h
          obtain ⟨a, _, rfl⟩ := Option.map_eq_some'.mp h
          rfl
        · rw [if_neg c2] at h
          by_cases c3 : equalFold k "region" = true
          · rw [if_pos c3] at h
            obtain ⟨a, _, rfl⟩ := Option.map_eq_some'.mp h
            rfl
          · rw [if_neg c3] at h
            by_cases c4 : equalFold k "kafka_bootstrap_endpoint" = true
            · rw [if_pos c4] at h
              obtain ⟨a, _, rfl⟩ := Option.map_eq_some'.mp h
              rfl
            · rw [if_neg c4] at h
              by_cases c5 : equalFold k "http_endpoint" = true
              · rw [if_pos c5] at h
                exact absurd (c5.symm.trans hk) (by decide)
              · rw [if_neg c5] at h
                by_cases c6 : equalFold k "Config" = true
                · rw [if_pos c6] at h
                  obtain ⟨a, _, rfl⟩ := Option.map_eq_some'.mp h
                  rfl
                · rw [if_neg c6] at h
                  by_cases c7 : equalFold k "Network" = true
                  · rw [if_pos c7] at h
                    obtain ⟨a, _, rfl⟩ := Option.map_eq_some'.mp h
                    rfl
                  · rw [if_neg c7] at h
                    by_cases c8 : equalFold k "Environment" = true
                    · rw [if_pos c8] at h
                      obtain ⟨a, _, rfl⟩ := Option.map_eq_some'.mp h
                      rfl
                    · rw [if_neg c8] at h
                      cases h
                      rfl
  · intro k x v v1 h hk
    unfold KafkaClusterSpec.member at h
    by_cases c0 : equalFold k "display_name" = true
    · rw [if_pos c0] at h
      exact absurd (equalFold_names _ _ _ c0 hk) (by decide)
    · rw [if_neg c0] at h
      by_cases c1 : equalFold k "availability" = true
      · rw [if_pos c1] at h
        exact absurd (equalFold_names _ _ _ c1 hk) (by decide)
      · rw [if_neg c1] at h
        by_cases c2 : equalFold k "cloud" = true
        · rw [if_pos c2] at h
          exact absurd (equalFold_names _ _ _ c2 hk) (by decide)
        · rw [if_neg c2] at h
          by_cases c3 : equalFold k "region" = true
          · rw [if_pos c3] at h
            exact absurd (equalFold_names _ _ _ c3 hk) (by decide)
          · rw [if_neg c3] at h
            by_cases c4 : equalFold k "kafka_bootstrap_endpoint" = true
            · rw [if_pos c4] at h
              exact absurd (equalFold_names _ _ _ c4 hk) (by decide)
            · rw [if_neg c4] at h
              by_cases c5 : equalFold k "http_endpoint" = true
              · rw [if_pos c5] at h
                obtain ⟨a, ha, rfl⟩ := Option.map_eq_some'.mp h
                exact ha
              · rw [if_neg c5] at h
                by_cases c6 : equalFold k "Config" = true
                · rw [if_pos c6] at h
                  exact absurd (equalFold_names _ _ _ c6 hk) (by decide)
                · rw [if_neg c6] at h
                  by_cases c7 : equalFold k "Network" = true
                  · rw [if_pos c7] at h
                    exact absurd (equalFold_names _ _ _ c7 hk) (by decide)
                  · rw [if_neg c7] at h
                    by_cases c8 : equalFold k "Environment" = true
                    · rw [if_pos c8] at h
                      exact absurd (equalFold_names _ _ _ c8 hk) (by decide)
                    · rw [if_neg c8] at h
                      exact absurd hk c5

theorem field_KafkaClusterSpec_Config (ext : ExternalTypes) (j : Json) (v r : KafkaClusterSpec) (x : Json)
    (h : decodeStruct (KafkaClusterSpec.member ext) j v = some r) (hf : j.field "config" = some x) :
    (decodeStruct KafkaClusterSpecConfig.member) x v.Config = some r.Config := by
  rw [Json.field_congr "config" "Config" (by decide)] at hf
  refine decodeStruct_field (KafkaClusterSpec.member ext) (fun v => v.Config) "Config" (decodeStruct KafkaClusterSpecConfig.member) ?_ ?_ j v r x h hf
  · intro k x v v1 h hk
    unfold KafkaClusterSpec.member at h
    by_cases c0 : equalFold k "display_name" = true
    · rw [if_pos c0] at h
      obtain ⟨a, _, rfl⟩ := Option.map_eq_some'.mp h
      rfl
    · rw [if_neg c0] at h
      by_cases c1 : equalFold k "availability" = true
      · rw [if_pos c1] at h
        obtain ⟨a, _, rfl⟩ := Option.map_eq_some'.mp h
        rfl
      · rw [if_neg c1] at h
        by_cases c2 : equalFold k "cloud" = true
        · rw [if_pos c2] at h
          obtain ⟨a, _, rfl⟩ := Option.map_eq_some'.mp h
          rfl
        · rw [if_neg c2] at h
          by_cases c3 : equalFold k "region" = true
          · rw [if_pos c3] at h
            obtain ⟨a, _, rfl⟩ := Option.map_eq_some'.mp h
            rfl
          · rw [if_neg c3] at h
            by_cases c4 : equalFold k "kafka_bootstrap_endpoint" = true
            · rw [if_pos c4] at h
              obtain ⟨a, _, rfl⟩ := Option.map_eq_some'.mp h
              rfl
            · rw [if_neg c4] at h
              by_cases c5 : equalFold k "http_endpoint" = true
              · rw [if_pos c5] at h
                obtain ⟨a, _, rfl⟩ := Option.map_eq_some'.mp h
                rfl
              · rw [if_neg c5] at h
                by_cases c6 : equalFold k "Config" = true
                · rw [if_pos c6] at h
                  exact absurd (c6.symm.trans hk) (by decide)
                · rw [if_neg c6] at h
                  by_cases c7 : equalFold k "Network" = true
                  · rw [if_pos c7] at h
                    obtain ⟨a, _, rfl⟩ := Option.map_eq_some'.mp h
                    rfl
                  · rw [if_neg c7] at h
                    by_cases c8 : equalFold k "Environment" = true
                    · rw [if_pos c8] at h
                      obtain ⟨a, _, rfl⟩ := Option.map_eq_some'.mp h
                      rfl
                    · rw [if_neg c8] at h
                      cases h
                      rfl
  · intro k x v v1 h hk
    unfold KafkaClusterSpec.member at h
    by_cases c0 : equalFold k "display_name" = true
    · rw [if_pos c0] at h
      exact absurd (equalFold_names _ _ _ c0 hk) (by decide)
    · rw [if_neg c0] at h
      by_cases c1 : equalFold k "availability" = true
      · rw [if_pos c1] at h
        exact absurd (equalFold_names _ _ _ c1 hk) (by decide)
      · rw [if_neg c1] at h
        by_cases c2 : equalFold k "cloud" = true
        · rw [if_pos c2] at h
          exact absurd (equalFold_names _ _ _ c2 hk) (by decide)
        · rw [if_neg c2] at h
          by_cases c3 : equalFold k "region" = true
          · rw [if_pos c3] at h
            exact absurd (equalFold_names _ _ _ c3 hk) (by decide)
          · rw [if_neg c3] at h
            by_cases c4 : equalFold k "kafka_bootstrap_endpoint" = true
            · rw [if_pos c4] at h
              exact absurd (equalFold_names _ _ _ c4 hk) (by decide)
            · rw [if_neg c4] at h
              by_cases c5 : equalFold k "http_endpoint" = true
              · rw [if_pos c5] at h
                exact absurd (equalFold_names _ _ _ c5 hk) (by decide)
              · rw [if_neg c5] at h
                by_cases c6 : equalFold k "Config" = true
                · rw [if_pos c6] at h
                  obtain ⟨a, ha, rfl⟩ := Option.map_eq_some'.mp h
                  exact ha
                · rw [if_neg c6] at h
                  by_cases c7 : equalFold k "Network" = true
                  · rw [if_pos c7] at h
                    exact absurd (equalFold_names _ _ _ c7 hk) (by decide)
                  · rw [if_neg c7] at h
                    by_cases c8 : equalFold k "Environment" = true
                    · rw [if_pos c8] at h
                      exact absurd (equalFold_names _ _ _ c8 hk) (by decide)
                    · rw [if_neg c8] at h
                      exact absurd hk c6

theorem field_KafkaClusterStatus_Phase (j : Json) (v r : KafkaClusterStatus) (x : Json)
    (h : decodeStruct KafkaClusterStatus.member j v = some r) (hf : j.field "phase" = some x) :
    decodeString x v.Phase = some r.Phase := by
  refine decodeStruct_field KafkaClusterStatus.member (fun v => v.Phase) "phase" decodeString ?_ ?_ j v r x h hf
  · intro k x v v1 h hk
    unfold KafkaClusterStatus.member at h
    by_cases c0 : equalFold k "phase" = true
    · rw [if_pos c0] at h
      exact absurd (c0.symm.trans hk) (by decide)
    · rw [if_neg c0] at h
      by_cases c1 : equalFold k "cku" = true
      · rw [if_pos c1] at h
        obtain ⟨a, _, rfl⟩ := Option.map_eq_some'.mp h
        rfl
      · rw [if_neg c1] at h
        cases h
        rfl
  · intro k x v v1 h hk
    unfold KafkaClusterStatus.member at h
    by_cases c0 : equalFold k "phase" = true
    · rw [if_pos c0] at h
      obtain ⟨a, ha, rfl⟩ := Option.map_eq_some'.mp h
      exact ha
    · rw [if_neg c0] at h
      by_cases c1 : equalFold k "cku" = true
      · rw [if_pos c1] at h
        exact absurd (equalFold_names _ _ _ c1 hk) (by decide)
      · rw [if_neg c1] at h
        exact absurd hk c0

theorem field_KafkaClusterStatus_CKU (j : Json) (v r : KafkaClusterStatus) (x : Json)
    (h : decodeStruct KafkaClusterStatus.member j v = some r) (hf : j.field "cku" = some x) :
    decodeInt x v.CKU = some r.CKU := by
  refine decodeStruct_field KafkaClusterStatus.member (fun v => v.CKU) "cku" decodeInt ?_ ?_ j v r x h hf
  · intro k x v v1 h hk
    unfold KafkaClusterStatus.member at h
    by_cases c0 : equalFold k "phase" = true
    · rw [if_pos c0] at h
      obtain ⟨a, _, rfl⟩ := Option.map_eq_some'.mp h
      rfl
    · rw [if_neg c0] at h
      by_cases c1 : equalFold k "cku" = true
      · rw [if_pos c1] at h
        exact absurd (c1.symm.trans hk) (by decide)
      · rw [if_neg c1] at h
        cases h
        rfl
  · intro k x v v1 h hk
    unfold KafkaClusterStatus.member at h
    by_cases c0 : equalFold k "phase" = true
    · rw [if_pos c0] at h
      exact absurd (equalFold_names _ _ _ c0 hk) (by decide)
    · rw [if_neg c0] at h
      by_cases c1 : equalFold k "cku" = true
      · rw [if_pos c1] at h
        obtain ⟨a, ha, rfl⟩ := Option.map_eq_some'.mp h
        exact ha
      · rw [if_neg c1] at h
        exact absurd hk c1

theorem field_KafkaCluster_Spec (ext : ExternalTypes) (j : Json) (v r : KafkaCluster) (x : Json)
    (h : decodeStruct (KafkaCluster.member ext) j v = some r) (hf : j.field "spec" = some x) :
    (decodeStruct (KafkaClusterSpec.member ext)) x v.Spec = some r.Spec := by
  rw [Json.field_congr "spec" "Spec" (by decide)] at hf
  refine decodeStruct_field (KafkaCluster.member ext) (fun v => v.Spec) "Spec" (decodeStruct (KafkaClusterSpec.member ext)) ?_ ?_ j v r x h hf
  · intro k x v v1 h hk
    unfold KafkaCluster.member at h
    by_cases c0 : equalFold k "Spec" = true
    · rw [if_pos c0] at h
      exact absurd (c0.symm.trans hk) (by decide)
    · rw [if_neg c0] at h
      by_cases c1 : equalFold k "Status" = true
      · rw [if_pos c1] at h
        obtain ⟨a, _, rfl⟩ := Option.map_eq_some'.mp h
        rfl
      · rw [if_neg c1] at h
        obtain ⟨a, _, rfl⟩ := Option.map_eq_some'.mp h
        rfl
  · intro k x v v1 h hk
    unfold KafkaCluster.member at h
    by_cases c0 : equalFold k "Spec" = true
    · rw [if_pos c0] at h
      obtain ⟨a, ha, rfl⟩ := Option.map_eq_some'.mp h
      exact ha
    · rw [if_neg c0] at h
      by_cases c1 : equalFold k "Status" = true
      · rw [if_pos c1] at h
        exact absurd (equalFold_names _ _ _ c1 hk) (by decide)
      · rw [if_neg c1] at h
        exact absurd hk c0

theorem field_KafkaCluster_Status (ext : ExternalTypes) (j : Json) (v r : KafkaCluster) (x : Json)
    (h : decodeStruct (KafkaCluster.member ext) j v = some r) (hf : j.field "status" = some x) :
    (decodeStruct KafkaClusterStatus.member) x v.Status = some r.Status := by
  rw [Json.field_congr "status" "Status" (by decide)] at hf
  refine decodeStruct_field (KafkaCluster.member ext) (fun v => v.Status) "Status" (decodeStruct KafkaClusterStatus.member) ?_ ?_ j v r x h hf
  · intro k x v v1 h hk
    unfold KafkaCluster.member at h
    by_cases c0 : equalFold k "Spec" = true
    · rw [if_pos c0] at h
      obtain ⟨a, _, rfl⟩ := Option.map_eq_some'.mp h
      rfl
    · rw [if_neg c0] at h
      by_cases c1 : equalFold k "Status" = true
      · rw [if_pos c1] at h
        exact absurd (c1.symm.trans hk) (by decide)
      · rw [if_neg c1] at h
        obtain ⟨a, _, rfl⟩ := Option.map_eq_some'.mp h
        rfl
  · intro k x v v1 h hk
    unfold KafkaCluster.member at h
    by_cases c0 : equalFold k "Spec" = true
    · rw [if_pos c0] at h
      exact absurd (equalFold_names _ _ _ c0 hk) (by decide)
    · rw [if_neg c0] at h
      by_cases c1 : equalFold k "Status" = true
      · rw [if_pos c1] at h
        obtain ⟨a, ha, rfl⟩ := Option.map_eq_some'.mp h
        exact ha
      · rw [if_neg c1] at h
        exact absurd hk c1

theorem field_KafkaClusterList_Data (ext : ExternalTypes) (j : Json) (v r : KafkaClusterList) (x : Json)
    (h : decodeStruct (KafkaClusterList.member ext) j v = some r) (hf : j.field "data" = some x) :
    (decodeSlice (decodeKafkaCluster ext) zeroKafkaCluster) x v.Data = some r.Data := by
  refine decodeStruct_field (KafkaClusterList.member ext) (fun v => v.Data) "data" (decodeSlice (decodeKafkaCluster ext) zeroKafkaCluster) ?_ ?_ j v r x h hf
  · intro k x v v1 h hk
    unfold KafkaClusterList.member at h
    by_cases c0 : equalFold k "data" = true
    · rw [if_pos c0] at h
      exact absurd (c0.symm.trans hk) (by decide)
    · rw [if_neg c0] at h
      obtain ⟨a, _, rfl⟩ := Option.map_eq_some'.mp h
      rfl
  · intro k x v v1 h hk
    unfold KafkaClusterList.member at h
    by_cases c0 : equalFold k "data" = true
    · rw [if_pos c0] at h
      obtain ⟨a, ha, rfl⟩ := Option.map_eq_some'.mp h
      exact ha
    · rw [if_neg c0] at h
      exact absurd hk c0

theorem field_APIKeyRef_ID (j : Json) (v r : APIKeyRef) (x : Json)
    (h : decodeStruct APIKeyRef.member j v = some r) (hf : j.field "id" = some x) :
    decodeString x v.ID = some r.ID := by
  refine decodeStruct_field APIKeyRef.member (fun v => v.ID) "id" decodeString ?_ ?_ j v r x h hf
  · intro k x v v1 h hk
    unfold APIKeyRef.member at h
    by_cases c0 : equalFold k "id" = true
    · rw [if_pos c0] at h
      exact absurd (c0.symm.trans hk) (by decide)
    · rw [if_neg c0] at h
      by_cases c1 : equalFold k "environment" = true
      · rw [if_pos c1] at h
        obtain ⟨a, _, rfl⟩ := Option.map_eq_some'.mp h
        rfl
      · rw [if_neg c1] at h
        by_cases c2 : equalFold k "related" = true
        · rw [if_pos c2] at h
          obtain ⟨a, _, rfl⟩ := Option.map_eq_some'.mp h
          rfl
        · rw [if_neg c2] at h
          by_cases c3 : equalFold k "resource_name" = true
          · rw [if_pos c3] at h
            obtain ⟨a, _, rfl⟩ := Option.map_eq_some'.mp h
            rfl
          · rw [if_neg c3] at h
            by_cases c4 : equalFold k "api_version" = true
            · rw [if_pos c4] at h
              obtain ⟨a, _, rfl⟩ := Option.map_eq_some'.mp h
              rfl
            · rw [if_neg c4] at h
              by_cases c5 : equalFold k "kind" = true
              · rw [if_pos c5] at h
                obtain ⟨a, _, rfl⟩ := Option.map_eq_some'.mp h
                rfl
              · rw [if_neg c5] at h
                cases h
                rfl
  · intro k x v v1 h hk
    unfold APIKeyRef.member at h
    by_cases c0 : equalFold k "id" = true
    · rw [if_pos c0] at h
      obtain ⟨a, ha, rfl⟩ := Option.map_eq_some'.mp h
      exact ha
    · rw [if_neg c0] at h
      by_cases c1 : equalFold k "environment" = true
      · rw [if_pos c1] at h
        exact absurd (equalFold_names _ _ _ c1 hk) (by decide)
      · rw [if_neg c1] at h
        by_cases c2 : equalFold k "related" = true
        · rw [if_pos c2] at h
          exact absurd (equalFold_names _ _ _ c2 hk) (by decide)
        · rw [if_neg c2] at h
          by_cases c3 : equalFold k "resource_name" = true
          · rw [if_pos c3] at h
            exact absurd (equalFold_names _ _ _ c3 hk) (by decide)
          · rw [if_neg c3] at h
            by_cases c4 : equalFold k "api_version" = true
            · rw [if_pos c4] at h
              exact absurd (equalFold_names _ _ _ c4 hk) (by decide)
            · rw [if_neg c4] at h
              by_cases c5 : equalFold k "kind" = true
              · rw [if_pos c5] at h
                exact absurd (equalFold_names _ _ _ c5 hk) (by decide)
              · rw [if_neg c5] at h
                exact absurd hk c0

theorem field_APIKeyRef_Environment (j : Json) (v r : APIKeyRef) (x : Json)
    (h : decodeStruct APIKeyRef.member j v = some r) (hf : j.field "environment" = some x) :
    decodeString x v.Environment = some r.Environment := by
  refine decodeStruct_field APIKeyRef.member (fun v => v.Environment) "environment" decodeString ?_ ?_ j v r x h hf
  · intro k x v v1 h hk
    unfold APIKeyRef.member at h
    by_cases c0 : equalFold k "id" = true
    · rw [if_pos c0] at h
      obtain ⟨a, _, rfl⟩ := Option.map_eq_some'.mp h
      rfl
    · rw [if_neg c0] at h
      by_cases c1 : equalFold k "environment" = true
      · rw [if_pos c1] at h
        exact absurd (c1.symm.trans hk) (by decide)
      · rw [if_neg c1] at h
        by_cases c2 : equalFold k "related" = true
        · rw [if_pos c2] at h
          obtain ⟨a, _, rfl⟩ := Option.map_eq_some'.mp h
          rfl
        · rw [if_neg c2] at h
          by_cases c3 : equalFold k "resource_name" = true
          · rw [if_pos c3] at h
            obtain ⟨a, _, rfl⟩ := Option.map_eq_some'.mp h
            rfl
          · rw [if_neg c3] at h
            by_cases c4 : equalFold k "api_version" = true
            · rw [if_pos c4] at h
              obtain ⟨a, _, rfl⟩ := Option.map_eq_some'.mp h
              rfl
            · rw [if_neg c4] at h
              by_cases c5 : equalFold k "kind" = true
              · rw [if_pos c5] at h
                obtain ⟨a, _, rfl⟩ := Option.map_eq_some'.mp h
                rfl
              · rw [if_neg c5] at h
                cases h
                rfl
  · intro k x v v1 h hk
    unfold APIKeyRef.member at h
    by_cases c0 : equalFold k "id" = true
    · rw [if_pos c0] at h
      exact absurd (equalFold_names _ _ _ c0 hk) (by decide)
    · rw [if_neg c0] at h
      by_cases c1 : equalFold k "environment" = true
      · rw [if_pos c1] at h
        obtain ⟨a, ha, rfl⟩ := Option.map_eq_some'.mp h
        exact ha
      · rw [if_neg c1] at h
        by_cases c2 : equalFold k "related" = true
        · rw [if_pos c2] at h
          exact absurd (equalFold_names _ _ _ c2 hk) (by decide)
        · rw [if_neg c2] at h
          by_cases c3 : equalFold k "resource_name" = true
          · rw [if_pos c3] at h
            exact absurd (equalFold_names _ _ _ c3 hk) (by decide)
          · rw [if_neg c3] at h
            by_cases c4 : equalFold k "api_version" = true
            · rw [if_pos c4] at h
              exact absurd (equalFold_names _ _ _ c4 hk) (by decide)
            · rw [if_neg c4] at h
              by_cases c5 : equalFold k "kind" = true
              · rw [if_pos c5] at h
                exact absurd (equalFold_names _ _ _ c5 hk) (by decide)
              · rw [if_neg c5] at h
                exact absurd hk c1

theorem field_APIKeyRef_Related (j : Json) (v r : APIKeyRef) (x : Json)
    (h : decodeStruct APIKeyRef.member j v = some r) (hf : j.field "related" = some x) :
    decodeString x v.Related = some r.Related := by
  refine decodeStruct_field APIKeyRef.member (fun v => v.Related) "related" decodeString ?_ ?_ j v r x h hf
  · intro k x v v1 h hk
    unfold APIKeyRef.member at h
    by_cases c0 : equalFold k "id" = true
    · rw [if_pos c0] at h
      obtain ⟨a, _, rfl⟩ := Option.map_eq_some'.mp h
      rfl
    · rw [if_neg c0] at h
      by_cases c1 : equalFold k "environment" = true
      · rw [if_pos c1] at h
        obtain ⟨a, _, rfl⟩ := Option.map_eq_some'.mp h
        rfl
      · rw [if_neg c1] at h
        by_cases c2 : equalFold k "related" = true
        · rw [if_pos c2] at h
          exact absurd (c2.symm.trans hk) (by decide)
        · rw [if_neg c2] at h
          by_cases c3 : equalFold k "resource_name" = true
          · rw [if_pos c3] at h
            obtain ⟨a, _, rfl⟩ := Option.map_eq_some'.mp h
            rfl
          · rw [if_neg c3] at h
            by_cases c4 : equalFold k "api_version" = true
            · rw [if_pos c4] at h
              obtain ⟨a, _, rfl⟩ := Option.map_eq_some'.mp h
              rfl
            · rw [if_neg c4] at h
              by_cases c5 : equalFold k "kind" = true
              · rw [if_pos c5] at h
                obtain ⟨a, _, rfl⟩ := Option.map_eq_some'.mp h
                rfl
              · rw [if_neg c5] at h
                cases h
                rfl
  · intro k x v v1 h hk
    unfold APIKeyRef.member at h
    by_cases c0 : equalFold k "id" = true
    · rw [if_pos c0] at h
      exact absurd (equalFold_names _ _ _ c0 hk) (by decide)
    · rw [if_neg c0] at h
      by_cases c1 : equalFold k "environment" = true
      · rw [if_pos c1] at h
        exact absurd (equalFold_names _ _ _ c1 hk) (by decide)
      · rw [if_neg c1] at h
        by_cases c2 : equalFold k "related" = true
        · rw [if_pos c2] at h
          obtain ⟨a, ha, rfl⟩ := Option.map_eq_some'.mp h
          exact ha
        · rw [if_neg c2] at h
          by_cases c3 : equalFold k "resource_name" = true
          · rw [if_pos c3] at h
            exact absurd (equalFold_names _ _ _ c3 hk) (by decide)
          · rw [if_neg c3] at h
            by_cases c4 : equalFold k "api_version" = true
            · rw [if_pos c4] at h
              exact absurd (equalFold_names _ _ _ c4 hk) (by decide)
            · rw [if_neg c4] at h
              by_cases c5 : equalFold k "kind" = true
              · rw [if_pos c5] at h
                exact absurd (equalFold_names _ _ _ c5 hk) (by decide)
              · rw [if_neg c5] at h
                exact absurd hk c2

theorem field_APIKeyRef_ResourceName (j : Json) (v r : APIKeyRef) (x : Json)
    (h : decodeStruct APIKeyRef.member j v = some r) (hf : j.field "resource_name" = some x) :
    decodeString x v.ResourceName = some r.ResourceName := by
  refine decodeStruct_field APIKeyRef.member (fun v => v.ResourceName) "resource_name" decodeString ?_ ?_ j v r x h hf
  · intro k x v v1 h hk
    unfold APIKeyRef.member at h
    by_cases c0 : equalFold k "id" = true
    · rw [if_pos c0] at h
      obtain ⟨a, _, rfl⟩ := Option.map_eq_some'.mp h
      rfl
    · rw [if_neg c0] at h
      by_cases c1 : equalFold k "environment" = true
      · rw [if_pos c1] at h
        obtain ⟨a, _, rfl⟩ := Option.map_eq_some'.mp h
        rfl
      · rw [if_neg c1] at h
        by_cases c2 : equalFold k "related" = true
        · rw [if_pos c2] at h
          obtain ⟨a, _, rfl⟩ := Option.map_eq_some'.mp h
          rfl
        · rw [if_neg c2] at h
          by_cases c3 : equalFold k "resource_name" = true
          · rw [if_pos c3] at h
            exact absurd (c3.symm.trans hk) (by decide)
          · rw [if_neg c3] at h
            by_cases c4 : equalFold k "api_version" = true
            · rw [if_pos c4] at h
              obtain ⟨a, _, rfl⟩ := Option.map_eq_some'.mp h
              rfl
            · rw [if_neg c4] at h
              by_cases c5 : equalFold k "kind" = true
              · rw [if_pos c5] at h
                obtain ⟨a, _, rfl⟩ := Option.map_eq_some'.mp h
                rfl
              · rw [if_neg c5] at h
                cases h
                rfl
  · intro k x v v1 h hk
    unfold APIKeyRef.member at h
    by_cases c0 : equalFold k "id" = true
    · rw [if_pos c0] at h
      exact absurd (equalFold_names _ _ _ c0 hk) (by decide)
    · rw [if_neg c0] at h
      by_cases c1 : equalFold k "environment" = true
      · rw [if_pos c1] at h
        exact absurd (equalFold_names _ _ _ c1 hk) (by decide)
      · rw [if_neg c1] at h
        by_cases c2 : equalFold k "related" = true
        · rw [if_pos c2] at h
          exact absurd (equalFold_names _ _ _ c2 hk) (by decide)
        · rw [if_neg c2] at h
          by_cases c3 : equalFold k "resource_name" = true
          · rw [if_pos c3] at h
            obtain ⟨a, ha, rfl⟩ := Option.map_eq_some'.mp h
            exact ha
          · rw [if_neg c3] at h
            by_cases c4 : equalFold k "api_version" = true
            · rw [if_pos c4] at h
              exact absurd (equalFold_names _ _ _ c4 hk) (by decide)
            · rw [if_neg c4] at h
              by_cases c5 : equalFold k "kind" = true
              · rw [if_pos c5] at h
                exact absurd (equalFold_names _ _ _ c5 hk) (by decide)
              · rw [if_neg c5] at h
                exact absurd hk c3

theorem field_APIKeyRef_APIVersion (j : Json) (v r : APIKeyRef) (x : Json)
    (h : decodeStruct APIKeyRef.member j v = some r) (hf : j.field "api_version" = some x) :
    decodeString x v.APIVersion = some r.APIVersion := by
  refine decodeStruct_field APIKeyRef.member (fun v => v.APIVersion) "api_version" decodeString ?_ ?_ j v r x h hf
  · intro k x v v1 h hk
    unfold APIKeyRef.member at h
    by_cases c0 : equalFold k "id" = true
    · rw [if_pos c0] at h
      obtain ⟨a, _, rfl⟩ := Option.map_eq_some'.mp h
      rfl
    · rw [if_neg c0] at h
      by_cases c1 : equalFold k "environment" = true
      · rw [if_pos c1] at h
        obtain ⟨a, _, rfl⟩ := Option.map_eq_some'.mp h
        rfl
      · rw [if_neg c1] at h
        by_cases c2 : equalFold k "related" = true
        · rw [if_pos c2] at h
          obtain ⟨a, _, rfl⟩ := Option.map_eq_some'.mp h
          rfl
        · rw [if_neg c2] at h
          by_cases c3 : equalFold k "resource_name" = true
          · rw [if_pos c3] at h
            obtain ⟨a, _, rfl⟩ := Option.map_eq_some'.mp h
            rfl
          · rw [if_neg c3] at h
            by_cases c4 : equalFold k "api_version" = true
            · rw [if_pos c4] at h
              exact absurd (c4.symm.trans hk) (by decide)
            · rw [if_neg c4] at h
              by_cases c5 : equalFold k "kind" = true
              · rw [if_pos c5] at h
                obtain ⟨a, _, rfl⟩ := Option.map_eq_some'.mp h
                rfl
              · rw [if_neg c5] at h
                cases h
                rfl
  · intro k x v v1 h hk
    unfold APIKeyRef.member at h
    by_cases c0 : equalFold k "id" = true
    · rw [if_pos c0] at h
      exact absurd (equalFold_names _ _ _ c0 hk) (by decide)
    · rw [if_neg c0] at h
      by_cases c1 : equalFold k "environment" = true
      · rw [if_pos c1] at h
        exact absurd (equalFold_names _ _ _ c1 hk) (by decide)
      · rw [if_neg c1] at h
        by_cases c2 : equalFold k "related" = true
        · rw [if_pos c2] at h
          exact absurd (equalFold_names _ _ _ c2 hk) (by decide)
        · rw [if_neg c2] at h
          by_cases c3 : equalFold k "resource_name" = true
          · rw [if_pos c3] at h
            exact absurd (equalFold_names _ _ _ c3 hk) (by decide)
          · rw [if_neg c3] at h
            by_cases c4 : equalFold k "api_version" = true
            · rw [if_pos c4] at h
              obtain ⟨a, ha, rfl⟩ := Option.map_eq_some'.mp h
              exact ha
            · rw [if_neg c4] at h
              by_cases c5 : equalFold k "kind" = true
              · rw [if_pos c5] at h
                exact absurd (equalFold_names _ _ _ c5 hk) (by decide)
              · rw [if_neg c5] at h
                exact absurd hk c4

theorem field_APIKeyRef_Kind (j : Json) (v r : APIKeyRef) (x : Json)
    (h : decodeStruct APIKeyRef.member j v = some r) (hf : j.field "kind" = some x) :
    decodeString x v.Kind = some r.Kind := by
  refine decodeStruct_field APIKeyRef.member (fun v => v.Kind) "kind" decodeString ?_ ?_ j v r x h hf
  · intro k x v v1 h hk
    unfold APIKeyRef.member at h
    by_cases c0 : equalFold k "id" = true
    · rw [if_pos c0] at h
      obtain ⟨a, _, rfl⟩ := Option.map_eq_some'.mp h
      rfl
    · rw [if_neg c0] at h
      by_cases c1 : equalFold k "environment" = true
      · rw [if_pos c1] at h
        obtain ⟨a, _, rfl⟩ := Option.map_eq_some'.mp h
        rfl
      · rw [if_neg c1] at h
        by_cases c2 : equalFold k "related" = true
        · rw [if_pos c2] at h
          obtain ⟨a, _, rfl⟩ := Option.map_eq_some'.mp h
          rfl
        · rw [if_neg c2] at h
          by_cases c3 : equalFold k "resource_name" = true
          · rw [if_pos c3] at h
            obtain ⟨a, _, rfl⟩ := Option.map_eq_some'.mp h
            rfl
          · rw [if_neg c3] at h
            by_cases c4 : equalFold k "api_version" = true
            · rw [if_pos c4] at h
              obtain ⟨a, _, rfl⟩ := Option.map_eq_some'.mp h
              rfl
            · rw [if_neg c4] at h
              by_cases c5 : equalFold k "kind" = true
              · rw [if_pos c5] at h
                exact absurd (c5.symm.trans hk) (by decide)
              · rw [if_neg c5] at h
                cases h
                rfl
  · intro k x v v1 h hk
    unfold APIKeyRef.member at h
    by_cases c0 : equalFold k "id" = true
    · rw [if_pos c0] at h
      exact absurd (equalFold_names _ _ _ c0 hk) (by decide)
    · rw [if_neg c0] at h
      by_cases c1 : equalFold k "environment" = true
      · rw [if_pos c1] at h
        exact absurd (equalFold_names _ _ _ c1 hk) (by decide)
      · rw [if_neg c1] at h
        by_cases c2 : equalFold k "related" = true
        · rw [if_pos c2] at h
          exact absurd (equalFold_names _ _ _ c2 hk) (by decide)
        · rw [if_neg c2] at h
          by_cases c3 : equalFold k "resource_name" = true
          · rw [if_pos c3] at h
            exact absurd (equalFold_names _ _ _ c3 hk) (by decide)
          · rw [if_neg c3] at h
            by_cases c4 : equalFold k "api_version" = true
            · rw [if_pos c4] at h
              exact absurd (equalFold_names _ _ _ c4 hk) (by decide)
            · rw [if_neg c4] at h
              by_cases c5 : equalFold k "kind" = true
              · rw [if_pos c5] at h
                obtain ⟨a, ha, rfl⟩ := Option.map_eq_some'.mp h
                exact ha
              · rw [if_neg c5] at h
                exact absurd hk c5

theorem field_APIKeySpec_Secret (j : Json) (v r : APIKeySpec) (x : Json)
    (h : decodeStruct APIKeySpec.member j v = some r) (hf : j.field "secret" = some x) :
    decodeString x v.Secret = some r.Secret := by
  refine decodeStruct_field APIKeySpec.member (fun v => v.Secret) "secret" decodeString ?_ ?_ j v r x h hf
  · intro k x v v1 h hk
    unfold APIKeySpec.member at h
    by_cases c0 : equalFold k "secret" = true
    · rw [if_pos c0] at h
      exact absurd (c0.symm.trans hk) (by decide)
    · rw [if_neg c0] at h
      by_cases c1 : equalFold k "display_name" = true
      · rw [if_pos c1] at h
        obtain ⟨a, _, rfl⟩ := Option.map_eq_some'.mp h
        rfl
      · rw [if_neg c1] at h
        by_cases c2 : equalFold k "description" = true
        · rw [if_pos c2] at h
          obtain ⟨a, _, rfl⟩ := Option.map_eq_some'.mp h
          rfl
        · rw [if_neg c2] at h
          by_cases c3 : equalFold k "owner" = true
          · rw [if_pos c3] at h
            obtain ⟨a, _, rfl⟩ := Option.map_eq_some'.mp h
            rfl
          · rw [if_neg c3] at h
            by_cases c4 : equalFold k "resource" = true
            · rw [if_pos c4] at h
              obtain ⟨a, _, rfl⟩ := Option.map_eq_some'.mp h
              rfl
            · rw [if_neg c4] at h
              cases h
              rfl
  · intro k x v v1 h hk
    unfold APIKeySpec.member at h
    by_cases c0 : equalFold k "secret" = true
    · rw [if_pos c0] at h
      obtain ⟨a, ha, rfl⟩ := Option.map_eq_some'.mp h
      exact ha
    · rw [if_neg c0] at h
      by_cases c1 : equalFold k "display_name" = true
      · rw [if_pos c1] at h
        exact absurd (equalFold_names _ _ _ c1 hk) (by decide)
      · rw [if_neg c1] at h
        by_cases c2 : equalFold k "description" = true
        · rw [if_pos c2] at h
          exact absurd (equalFold_names _ _ _ c2 hk) (by decide)
        · rw [if_neg c2] at h
          by_cases c3 : equalFold k "owner" = true
          · rw [if_pos c3] at h
            exact absurd (equalFold_names _ _ _ c3 hk) (by decide)
          · rw [if_neg c3] at h
            by_cases c4 : equalFold k "resource" = true
            · rw [if_pos c4] at h
              exact absurd (equalFold_names _ _ _ c4 hk) (by decide)
            · rw [if_neg c4] at h
              exact absurd hk c0

theorem field_APIKeySpec_DisplayName (j : Json) (v r : APIKeySpec) (x : Json)
    (h : decodeStruct APIKeySpec.member j v = some r) (hf : j.field "display_name" = some x) :
    decodeString x v.DisplayName = some r.DisplayName := by
  refine decodeStruct_field APIKeySpec.member (fun v => v.DisplayName) "display_name" decodeString ?_ ?_ j v r x h hf
  · intro k x v v1 h hk
    unfold APIKeySpec.member at h
    by_cases c0 : equalFold k "secret" = true
    · rw [if_pos c0] at h
      obtain ⟨a, _, rfl⟩ := Option.map_eq_some'.mp h
      rfl
    · rw [if_neg c0] at h
      by_cases c1 : equalFold k "display_name" = true
      · rw [if_pos c1] at h
        exact absurd (c1.symm.trans hk) (by decide)
      · rw [if_neg c1] at h
        by_cases c2 : equalFold k "description" = true
        · rw [if_pos c2] at h
          obtain ⟨a, _, rfl⟩ := Option.map_eq_some'.mp h
          rfl
        · rw [if_neg c2] at h
          by_cases c3 : equalFold k "owner" = true
          · rw [if_pos c3] at h
            obtain ⟨a, _, rfl⟩ := Option.map_eq_some'.mp h
            rfl
          · rw [if_neg c3] at h
            by_cases c4 : equalFold k "resource" = true
            · rw [if_pos c4] at h
              obtain ⟨a, _, rfl⟩ := Option.map_eq_some'.mp h
              rfl
            · rw [if_neg c4] at h
              cases h
              rfl
  · intro k x v v1 h hk
    unfold APIKeySpec.member at h
    by_cases c0 : equalFold k "secret" = true
    · rw [if_pos c0] at h
      exact absurd (equalFold_names _ _ _ c0 hk) (by decide)
    · rw [if_neg c0] at h
      by_cases c1 : equalFold k "display_name" = true
      · rw [if_pos c1] at h
        obtain ⟨a, ha, rfl⟩ := Option.map_eq_some'.mp h
        exact ha
      · rw [if_neg c1] at h
        by_cases c2 : equalFold k "description" = true
        · rw [if_pos c2] at h
          exact absurd (equalFold_names _ _ _ c2 hk) (by decide)
        · rw [if_neg c2] at h
          by_cases c3 : equalFold k "owner" = true
          · rw [if_pos c3] at h
            exact absurd (equalFold_names _ _ _ c3 hk) (by decide)
          · rw [if_neg c3] at h
            by_cases c4 : equalFold k "resource" = true
            · rw [if_pos c4] at h
              exact absurd (equalFold_names _ _ _ c4 hk) (by decide)
            · rw [if_neg c4] at h
              exact absurd hk c1

theorem field_APIKeySpec_Description (j : Json) (v r : APIKeySpec) (x : Json)
    (h : decodeStruct APIKeySpec.member j v = some r) (hf : j.field "description" = some x) :
    decodeString x v.Description = some r.Description := by
  refine decodeStruct_field APIKeySpec.member (fun v => v.Description) "description" decodeString ?_ ?_ j v r x h hf
  · intro k x v v1 h hk
    unfold APIKeySpec.member at h
    by_cases c0 : equalFold k "secret" = true
    · rw [if_pos c0] at h
      obtain ⟨a, _, rfl⟩ := Option.map_eq_some'.mp h
      rfl
    · rw [if_neg c0] at h
      by_cases c1 : equalFold k "display_name" = true
      · rw [if_pos c1] at h
        obtain ⟨a, _, rfl⟩ := Option.map_eq_some'.mp h
        rfl
      · rw [if_neg c1] at h
        by_cases c2 : equalFold k "description" = true
        · rw [if_pos c2] at h
          exact absurd (c2.symm.trans hk) (by decide)
        · rw [if_neg c2] at h
          by_cases c3 : equalFold k "owner" = true
          · rw [if_pos c3] at h
            obtain ⟨a, _, rfl⟩ := Option.map_eq_some'.mp h
            rfl
          · rw [if_neg c3] at h
            by_cases c4 : equalFold k "resource" = true
            · rw [if_pos c4] at h
              obtain ⟨a, _, rfl⟩ := Option.map_eq_some'.mp h
              rfl
            · rw [if_neg c4] at h
              cases h
              rfl
  · intro k x v v1 h hk
    unfold APIKeySpec.member at h
    by_cases c0 : equalFold k "secret" = true
    · rw [if_pos c0] at h
      exact absurd (equalFold_names _ _ _ c0 hk) (by decide)
    · rw [if_neg c0] at h
      by_cases c1 : equalFold k "display_name" = true
      · rw [if_pos c1] at h
        exact absurd (equalFold_names _ _ _ c1 hk) (by decide)
      · rw [if_neg c1] at h
        by_cases c2 : equalFold k "description" = true
        · rw [if_pos c2] at h
          obtain ⟨a, ha, rfl⟩ := Option.map_eq_some'.mp h
          exact ha
        · rw [if_neg c2] at h
          by_cases c3 : equalFold k "owner" = true
          · rw [if_pos c3] at h
            exact absurd (equalFold_names _ _ _ c3 hk) (by decide)
          · rw [if_neg c3] at h
            by_cases c4 : equalFold k "resource" = true
            · rw [if_pos c4] at h
              exact absurd (equalFold_names _ _ _ c4 hk) (by decide)
            · rw [if_neg c4] at h
              exact absurd hk c2

theorem field_APIKeySpec_Owner (j : Json) (v r : APIKeySpec) (x : Json)
    (h : decodeStruct APIKeySpec.member j v = some r) (hf : j.field "owner" = some x) :
    (decodeStruct APIKeyRef.member) x v.Owner = some r.Owner := by
  refine decodeStruct_field APIKeySpec.member (fun v => v.Owner) "owner" (decodeStruct APIKeyRef.member) ?_ ?_ j v r x h hf
  · intro k x v v1 h hk
    unfold APIKeySpec.member at h
    by_cases c0 : equalFold k "secret" = true
    · rw [if_pos c0] at h
      obtain ⟨a, _, rfl⟩ := Option.map_eq_some'.mp h
      rfl
    · rw [if_neg c0] at h
      by_cases c1 : equalFold k "display_name" = true
      · rw [if_pos c1] at h
        obtain ⟨a, _, rfl⟩ := Option.map_eq_some'.mp h
        rfl
      · rw [if_neg c1] at h
        by_cases c2 : equalFold k "description" = true
        · rw [if_pos c2] at h
          obtain ⟨a, _, rfl⟩ := Option.map_eq_some'.mp h
          rfl
        · rw [if_neg c2] at h
          by_cases c3 : equalFold k "owner" = true
          · rw [if_pos c3] at h
            exact absurd (c3.symm.trans hk) (by decide)
          · rw [if_neg c3] at h
            by_cases c4 : equalFold k "resource" = true
            · rw [if_pos c4] at h
              obtain ⟨a, _, rfl⟩ := Option.map_eq_some'.mp h
              rfl
            · rw [if_neg c4] at h
              cases h
              rfl
  · intro k x v v1 h hk
    unfold APIKeySpec.member at h
    by_cases c0 : equalFold k "secret" = true
    · rw [if_pos c0] at h
      exact absurd (equalFold_names _ _ _ c0 hk) (by decide)
    · rw [if_neg c0] at h
      by_cases c1 : equalFold k "display_name" = true
      · rw [if_pos c1] at h
        exact absurd (equalFold_names _ _ _ c1 hk) (by decide)
      · rw [if_neg c1] at h
        by_cases c2 : equalFold k "description" = true
        · rw [if_pos c2] at h
          exact absurd (equalFold_names _ _ _ c2 hk) (by decide)
        · rw [if_neg c2] at h
          by_cases c3 : equalFold k "owner" = true
          · rw [if_pos c3] at h
            obtain ⟨a, ha, rfl⟩ := Option.map_eq_some'.mp h
            exact ha
          · rw [if_neg c3] at h
            by_cases c4 : equalFold k "resource" = true
            · rw [if_pos c4] at h
              exact absurd (equalFold_names _ _ _ c4 hk) (by decide)
            · rw [if_neg c4] at h
              exact absurd hk c3

theorem field_APIKeySpec_Resource (j : Json) (v r : APIKeySpec) (x : Json)
    (h : decodeStruct APIKeySpec.member j v = some r) (hf : j.field "resource" = some x) :
    (decodeStruct APIKeyRef.member) x v.Resource = some r.Resource := by
  refine decodeStruct_field APIKeySpec.member (fun v => v.Resource) "resource" (decodeStruct APIKeyRef.member) ?_ ?_ j v r x h hf
  · intro k x v v1 h hk
    unfold APIKeySpec.member at h
    by_cases c0 : equalFold k "secret" = true
    · rw [if_pos c0] at h
      obtain ⟨a, _, rfl⟩ := Option.map_eq_some'.mp h
      rfl
    · rw [if_neg c0] at h
      by_cases c1 : equalFold k "display_name" = true
      · rw [if_pos c1] at h
        obtain ⟨a, _, rfl⟩ := Option.map_eq_some'.mp h
        rfl
      · rw [if_neg c1] at h
        by_cases c2 : equalFold k "description" = true
        · rw [if_pos c2] at h
          obtain ⟨a, _, rfl⟩ := Option.map_eq_some'.mp h
          rfl
        · rw [if_neg c2] at h
          by_cases c3 : equalFold k "owner" = true
          · rw [if_pos c3] at h
            obtain ⟨a, _, rfl⟩ := Option.map_eq_some'.mp h
            rfl
          · rw [if_neg c3] at h
            by_cases c4 : equalFold k "resource" = true
            · rw [if_pos c4] at h
              exact absurd (c4.symm.trans hk) (by decide)
            · rw [if_neg c4] at h
              cases h
              rfl
  · intro k x v v1 h hk
    unfold APIKeySpec.member at h
    by_cases c0 : equalFold k "secret" = true
    · rw [if_pos c0] at h
      exact absurd (equalFold_names _ _ _ c0 hk) (by decide)
    · rw [if_neg c0] at h
      by_cases c1 : equalFold k "display_name" = true
      · rw [if_pos c1] at h
        exact absurd (equalFold_names _ _ _ c1 hk) (by decide)
      · rw [if_neg c1] at h
        by_cases c2 : equalFold k "description" = true
        · rw [if_pos c2] at h
          exact absurd (equalFold_names _ _ _ c2 hk) (by decide)
        · rw [if_neg c2] at h
          by_cases c3 : equalFold k "owner" = true
          · rw [if_pos c3] at h
            exact absurd (equalFold_names _ _ _ c3 hk) (by decide)
          · rw [if_neg c3] at h
            by_cases c4 : equalFold k "resource" = true
            · rw [if_pos c4] at h
              obtain ⟨a, ha, rfl⟩ := Option.map_eq_some'.mp h
              exact ha
            · rw [if_neg c4] at h
              exact absurd hk c4

theorem field_APIKey_Spec (ext : ExternalTypes) (j : Json) (v r : APIKey) (x : Json)
    (h : decodeStruct (APIKey.member ext) j v = some r) (hf : j.field "spec" = some x) :
    (decodeStruct APIKeySpec.member) x v.Spec = some r.Spec := by
  refine decodeStruct_field (APIKey.member ext) (fun v => v.Spec) "spec" (decodeStruct APIKeySpec.member) ?_ ?_ j v r x h hf
  · intro k x v v1 h hk
    unfold APIKey.member at h
    by_cases c0 : equalFold k "spec" = true
    · rw [if_pos c0] at h
      exact absurd (c0.symm.trans hk) (by decide)
    · rw [if_neg c0] at h
      obtain ⟨a, _, rfl⟩ := Option.map_eq_some'.mp h
      rfl
  · intro k x v v1 h hk
    unfold APIKey.member at h
    by_cases c0 : equalFold k "spec" = true
    · rw [if_pos c0] at h
      obtain ⟨a, ha, rfl⟩ := Option.map_eq_some'.mp h
      exact ha
    · rw [if_neg c0] at h
      exact absurd hk c0

theorem KafkaCluster_hasFieldsOf (ext : ExternalTypes) (j : Json) (k : KafkaCluster)
    (h : decodeKafkaCluster ext j zeroKafkaCluster = some k) : k.HasFieldsOf j := by
  have spec : ∀ x, j.field "spec" = some x →
      decodeStruct (KafkaClusterSpec.member ext) x zeroKafkaCluster.Spec = some k.Spec :=
    fun x hf => field_KafkaCluster_Spec ext j _ _ x h hf
  have config : ∀ x y, j.field "spec" = some x → x.field "config" = some y →
      decodeStruct KafkaClusterSpecConfig.member y zeroKafkaCluster.Spec.Config
        = some k.Spec.Config :=
    fun x y hx hy => field_KafkaClusterSpec_Config ext x _ _ y (spec x hx) hy
  have status : ∀ x, j.field "status" = some x →
      decodeStruct KafkaClusterStatus.member x zeroKafkaCluster.Status = some k.Status :=
    fun x hf => field_KafkaCluster_Status ext j _ _ x h hf
  refine ⟨?_, ?_, ?_, ?_, ?_, ?_, ?_, ?_, ?_, ?_, ?_⟩
  · intro s hp
    obtain ⟨x1, hf1, hp1⟩ := Json.path_cons_eq_some hp
    obtain ⟨x2, hf2, hp2⟩ := Json.path_cons_eq_some hp1
    cases Json.path_nil_eq_some hp2
    simpa [decodeString] using (field_KafkaClusterSpec_DisplayName ext x1 _ _ _ (spec x1 hf1) hf2).symm
  · intro s hp
    obtain ⟨x1, hf1, hp1⟩ := Json.path_cons_eq_some hp
    obtain ⟨x2, hf2, hp2⟩ := Json.path_cons_eq_some hp1
    cases Json.path_nil_eq_some hp2
    simpa [decodeString] using (field_KafkaClusterSpec_Availability ext x1 _ _ _ (spec x1 hf1) hf2).symm
  · intro s hp
    obtain ⟨x1, hf1, hp1⟩ := Json.path_cons_eq_some hp
    obtain ⟨x2, hf2, hp2⟩ := Json.path_cons_eq_some hp1
    cases Json.path_nil_eq_some hp2
    simpa [decodeString] using (field_KafkaClusterSpec_Cloud ext x1 _ _ _ (spec x1 hf1) hf2).symm
  · intro s hp
    obtain ⟨x1, hf1, hp1⟩ := Json.path_cons_eq_some hp
    obtain ⟨x2, hf2, hp2⟩ := Json.path_cons_eq_some hp1
    cases Json.path_nil_eq_some hp2
    simpa [decodeString] using (field_KafkaClusterSpec_Region ext x1 _ _ _ (spec x1 hf1) hf2).symm
  · intro s hp
    obtain ⟨x1, hf1, hp1⟩ := Json.path_cons_eq_some hp
    obtain ⟨x2, hf2, hp2⟩ := Json.path_cons_eq_some hp1
    cases Json.path_nil_eq_some hp2
    simpa [decodeString] using
      (field_KafkaClusterSpec_KafkaBootstrapEndpoint ext x1 _ _ _ (spec x1 hf1) hf2).symm
  · intro s hp
    obtain ⟨x1, hf1, hp1⟩ := Json.path_cons_eq_some hp
    obtain ⟨x2, hf2, hp2⟩ := Json.path_cons_eq_some hp1
    cases Json.path_nil_eq_some hp2
    simpa [decodeString] using (field_KafkaClusterSpec_HttpEndpoint ext x1 _ _ _ (spec x1 hf1) hf2).symm
  · intro s hp
    obtain ⟨x1, hf1, hp1⟩ := Json.path_cons_eq_some hp
    obtain ⟨x2, hf2, hp2⟩ := Json.path_cons_eq_some hp1
    obtain ⟨x3, hf3, hp3⟩ := Json.path_cons_eq_some hp2
    cases Json.path_nil_eq_some hp3
    simpa [decodeString] using
      (field_KafkaClusterSpecConfig_Kind x2 _ _ _ (config x1 x2 hf1 hf2) hf3).symm
  · intro n hp
    obtain ⟨x1, hf1, hp1⟩ := Json.path_cons_eq_some hp
    obtain ⟨x2, hf2, hp2⟩ := Json.path_cons_eq_some hp1
    obtain ⟨x3, hf3, hp3⟩ := Json.path_cons_eq_some hp2
    cases Json.path_nil_eq_some hp3
    have h2 := field_KafkaClusterSpecConfig_Cku x2 _ _ _ (config x1 x2 hf1 hf2) hf3
    simp only [decodeInt] at h2
    split_ifs at h2
    simpa using h2.symm
  · intro zs hp
    obtain ⟨x1, hf1, hp1⟩ := Json.path_cons_eq_some hp
    obtain ⟨x2, hf2, hp2⟩ := Json.path_cons_eq_some hp1
    obtain ⟨x3, hf3, hp3⟩ := Json.path_cons_eq_some hp2
    cases Json.path_nil_eq_some hp3
    have h2 : decodeElements decodeString "" (zs.map Json.str) = some k.Spec.Config.Zones :=
      field_KafkaClusterSpecConfig_Zones x2 _ _ _ (config x1 x2 hf1 hf2) hf3
    rw [decodeElements_strings] at h2
    simpa using h2.symm
  · intro s hp
    obtain ⟨x1, hf1, hp1⟩ := Json.path_cons_eq_some hp
    obtain ⟨x2, hf2, hp2⟩ := Json.path_cons_eq_some hp1
    cases Json.path_nil_eq_some hp2
    simpa [decodeString] using (field_KafkaClusterStatus_Phase x1 _ _ _ (status x1 hf1) hf2).symm
  · intro n hp
    obtain ⟨x1, hf1, hp1⟩ := Json.path_cons_eq_some hp
    obtain ⟨x2, hf2, hp2⟩ := Json.path_cons_eq_some hp1
    cases Json.path_nil_eq_some hp2
    have h2 := field_KafkaClusterStatus_CKU x1 _ _ _ (status x1 hf1) hf2
    simp only [decodeInt] at h2
    split_ifs at h2
    simpa using h2.symm

theorem KafkaClusterList_hasFieldsOf (ext : ExternalTypes) (j : Json)
    (l : KafkaClusterList)
    (h : decodeKafkaClusterList ext j zeroKafkaClusterList = some l) : l.HasFieldsOf ext j := by
  intro xs hp
  obtain ⟨x1, hf1, hp1⟩ := Json.path_cons_eq_some hp
  cases Json.path_nil_eq_some hp1
  have h2 : decodeElements (decodeKafkaCluster ext) zeroKafkaCluster xs = some l.Data :=
    field_KafkaClusterList_Data ext j _ _ _ h hf1
  exact List.Forall₂.imp (fun x k hx => ⟨hx, KafkaCluster_hasFieldsOf ext x k hx⟩)
    (decodeElements_forall₂ _ _ xs l.Data h2)

theorem APIKeyRef_hasFieldsOf (j : Json) (p : List String) (r : APIKeyRef)
    (hdec : ∀ y, j.path p = some y → ∃ v, decodeStruct APIKeyRef.member y v = some r) :
    r.HasFieldsOf p j := by
  refine ⟨?_, ?_, ?_, ?_, ?_, ?_⟩
  · intro s hp
    obtain ⟨y, hy, hq⟩ := Json.path_append_eq_some hp
    obtain ⟨v, h⟩ := hdec y hy
    obtain ⟨x1, hf1, hp1⟩ := Json.path_cons_eq_some hq
    cases Json.path_nil_eq_some hp1
    simpa [decodeString] using (field_APIKeyRef_ID y v r _ h hf1).symm
  · intro s hp
    obtain ⟨y, hy, hq⟩ := Json.path_append_eq_some hp
    obtain ⟨v, h⟩ := hdec y hy
    obtain ⟨x1, hf1, hp1⟩ := Json.path_cons_eq_some hq
    cases Json.path_nil_eq_some hp1
    simpa [decodeString] using (field_APIKeyRef_Environment y v r _ h hf1).symm
  · intro s hp
    obtain ⟨y, hy, hq⟩ := Json.path_append_eq_some hp
    obtain ⟨v, h⟩ := hdec y hy
    obtain ⟨x1, hf1, hp1⟩ := Json.path_cons_eq_some hq
    cases Json.path_nil_eq_some hp1
    simpa [decodeString] using (field_APIKeyRef_Related y v r _ h hf1).symm
  · intro s hp
    obtain ⟨y, hy, hq⟩ := Json.path_append_eq_some hp
    obtain ⟨v, h⟩ := hdec y hy
    obtain ⟨x1, hf1, hp1⟩ := Json.path_cons_eq_some hq
    cases Json.path_nil_eq_some hp1
    simpa [decodeString] using (field_APIKeyRef_ResourceName y v r _ h hf1).symm
  · intro s hp
    obtain ⟨y, hy, hq⟩ := Json.path_append_eq_some hp
    obtain ⟨v, h⟩ := hdec y hy
    obtain ⟨x1, hf1, hp1⟩ := Json.path_cons_eq_some hq
    cases Json.path_nil_eq_some hp1
    simpa [decodeString] using (field_APIKeyRef_APIVersion y v r _ h hf1).symm
  · intro s hp
    obtain ⟨y, hy, hq⟩ := Json.path_append_eq_some hp
    obtain ⟨v, h⟩ := hdec y hy
    obtain ⟨x1, hf1, hp1⟩ := Json.path_cons_eq_some hq
    cases Json.path_nil_eq_some hp1
    simpa [decodeString] using (field_APIKeyRef_Kind y v r _ h hf1).symm

theorem APIKey_hasFieldsOf (ext : ExternalTypes) (j : Json) (a : APIKey)
    (h : decodeAPIKey ext j zeroAPIKey = some a) : a.HasFieldsOf j := by
  have spec : ∀ x, j.field "spec" = some x →
      decodeStruct APIKeySpec.member x zeroAPIKey.Spec = some a.Spec :=
    fun x hf => field_APIKey_Spec ext j _ _ x h hf
  refine ⟨?_, ?_, ?_, ?_, ?_⟩
  · intro s hp
    obtain ⟨x1, hf1, hp1⟩ := Json.path_cons_eq_some hp
    obtain ⟨x2, hf2, hp2⟩ := Json.path_cons_eq_some hp1
    cases Json.path_nil_eq_some hp2
    simpa [decodeString] using (field_APIKeySpec_Secret x1 _ _ _ (spec x1 hf1) hf2).symm
  · intro s hp
    obtain ⟨x1, hf1, hp1⟩ := Json.path_cons_eq_some hp
    obtain ⟨x2, hf2, hp2⟩ := Json.path_cons_eq_some hp1
    cases Json.path_nil_eq_some hp2
    simpa [decodeString] using (field_APIKeySpec_DisplayName x1 _ _ _ (spec x1 hf1) hf2).symm
  · intro s hp
    obtain ⟨x1, hf1, hp1⟩ := Json.path_cons_eq_some hp
    obtain ⟨x2, hf2, hp2⟩ := Json.path_cons_eq_some hp1
    cases Json.path_nil_eq_some hp2
    simpa [decodeString] using (field_APIKeySpec_Description x1 _ _ _ (spec x1 hf1) hf2).symm
  · apply APIKeyRef_hasFieldsOf
    intro y hy
    obtain ⟨x1, hf1, hp1⟩ := Json.path_cons_eq_some hy
    obtain ⟨x2, hf2, hp2⟩ := Json.path_cons_eq_some hp1
    cases Json.path_nil_eq_some hp2
    exact ⟨_, field_APIKeySpec_Owner x1 _ _ _ (spec x1 hf1) hf2⟩
  · apply APIKeyRef_hasFieldsOf
    intro y hy
    obtain ⟨x1, hf1, hp1⟩ := Json.path_cons_eq_some hy
    obtain ⟨x2, hf2, hp2⟩ := Json.path_cons_eq_some hp1
    cases Json.path_nil_eq_some hp2
    exact ⟨_, field_APIKeySpec_Resource x1 _ _ _ (spec x1 hf1) hf2⟩

theorem modelJSON_agrees (ext : ExternalTypes) (e : GoError) : (modelJSON ext e).Agrees ext := by
  refine ⟨?_, ?_, ?_⟩ <;> intro body v h <;> simp [modelJSON, h]

theorem decodeBody_eq_some {T : Type} (dec : Json → T → Option T) (zero : T) (body : String)
    (j : Json) (v : T) (hp : parseJSON body = some j) (hd : dec j zero = some v) :
    decodeBody dec zero body = some v := by
  simp [decodeBody, hp, hd]

/-! ## The body written for a display name -/

theorem hexValue_hexDigit (n : Nat) (h : n < 16) : hexValue (hexDigit n) = some n := by
  interval_cases n <;> decide

theorem scanString_cons (acc : List Char) (c : Char) (rest : List Char) :
    scanString acc (c :: rest) =
      if c = '"' then some (String.mk acc.reverse, rest)
      else if c = '\\' then
        match rest with
        | [] => none
        | e :: rest1 =>
          if e = 'u' then
            match rest1 with
            | a :: b :: c :: d :: rest2 =>
              match hex4 a b c d with
              | some n =>
                if 0xD800 ≤ n ∧ n ≤ 0xDFFF then none else scanString (Char.ofNat n :: acc) rest2
              | none => none
            | _ => none
          else
            match unescape e with
            | some x => scanString (x :: acc) rest1
            | none => none
      else if c.toNat < 32 then none
      else scanString (c :: acc) rest := by
  rw [scanString.eq_def]

theorem scanString_escapeChars (cs : List Char) :
    ∀ (acc rest : List Char),
      scanString acc (escapeChars cs ++ '"' :: rest) = some (String.mk (acc.reverse ++ cs), rest) := by
  induction cs with
  | nil =>
    intro acc rest
    simp [escapeChars, scanString_cons]
  | cons c cs ih =>
    intro acc rest
    unfold escapeChars
    split_ifs with h1 h2 h3
    · subst h1
      simp [scanString_cons, unescape, ih]
    · subst h2
      simp [scanString_cons, unescape, ih]
    · have hq : c.toNat / 16 < 16 := by omega
      have hr : c.toNat % 16 < 16 := by omega
      have hx : hex4 '0' '0' (hexDigit (c.toNat / 16)) (hexDigit (c.toNat % 16)) = some c.toNat := by
        have h0 : hexValue '0' = some 0 := by decide
        simp only [hex4, h0, hexValue_hexDigit _ hq, hexValue_hexDigit _ hr]
        congr 1
        omega
      have hs : ¬ (0xD800 ≤ c.toNat ∧ c.toNat ≤ 0xDFFF) := by omega
      simp [scanString_cons, hx, hs, ih, Char.ofNat_toNat]
    · simp [scanString_cons, h1, h2, h3, ih]


theorem displayNameBody_data (s : String) :
    (displayNameBody s).data =
      '{' :: '"' :: 's' :: 'p' :: 'e' :: 'c' :: '"' :: ':' :: '{' :: '"' :: 'd' :: 'i' :: 's' ::
        'p' :: 'l' :: 'a' :: 'y' :: '_' :: 'n' :: 'a' :: 'm' :: 'e' :: '"' :: ':' :: '"' ::
        (escapeChars s.data ++ '"' :: ['}', '}']) := by
  simp [displayNameBody]

theorem parseValue_displayNameBody (n : Nat) (s : String) :
    parseValue (n + 5) 0 (displayNameBody s).data =
      some (.obj [("spec", .obj [("display_name", .str s)])], []) := by
  rw [displayNameBody_data]
  simp [parseValue, parseMembers, skipSpace, isSpace, scanString_cons, scanString_escapeChars,
    maxNestingDepth]


theorem parseJSON_displayNameBody (s : String) :
    parseJSON (displayNameBody s) = some (.obj [("spec", .obj [("display_name", .str s)])]) := by
  have hl : (displayNameBody s).length + 1 = ((displayNameBody s).length - 4) + 5 := by
    have : 4 ≤ (displayNameBody s).length := by
      simp [String.length, displayNameBody_data]
    omega
  have hv := parseValue_displayNameBody ((displayNameBody s).length - 4) s
  rw [← hl] at hv
  unfold parseJSON
  rw [displayNameBody_data] at hv ⊢
  simp only [skipSpace, isSpace]
  simp [hv, skipSpace]

theorem decodeKafkaCluster_displayName (ext : ExternalTypes) (s : String) :
    decodeKafkaCluster ext (.obj [("spec", .obj [("display_name", .str s)])]) zeroKafkaCluster =
      some { zeroKafkaCluster with
        Spec := { zeroKafkaCluster.Spec with DisplayName := s } } := by
  have h1 : equalFold "spec" "Spec" = true := by decide
  have h2 : equalFold "display_name" "display_name" = true := by decide
  simp [decodeKafkaCluster, decodeStruct, decodeMembers, KafkaCluster.member,
    KafkaClusterSpec.member, decodeString, h1, h2]

/-! ## Successful decoding -/

/-- C2: for each operation with a typed result, when the transport returns the
success status of the operation and the body is valid JSON for the result type
(its text parses to the object `j`, which decodes into a value of the type), the
operation returns a nil error and a result whose fields are the members of `j`;
in particular, for every string `s`, `CreateKafkaCluster` given a 202 response
whose body has `spec.display_name` equal to `s` returns a cluster whose
`Spec.DisplayName` is `s`, and for every `s` the text `displayNameBody s` is such
a body.  The decoder is any decoder that behaves as the model of `encoding/json`
on the bodies that are valid JSON for the result type. -/
theorem success_returns_decoded (c : ConfluentClient) (json : JSONDecoder) (ext : ExternalTypes)
    (hj : json.Agrees ext) (resp : Response) :
    (∀ opt j l, Received c (ListKafkaClusters c json opt) resp → resp.StatusCode = 200 →
      parseJSON resp.Body.data = some j →
      decodeKafkaClusterList ext j zeroKafkaClusterList = some l →
      (ListKafkaClusters c json opt).ret = (some l, none) ∧ l.HasFieldsOf ext j) ∧
    (∀ id opt j k, Received c (GetKafkaCluster c json id opt) resp → resp.StatusCode = 200 →
      parseJSON resp.Body.data = some j → decodeKafkaCluster ext j zeroKafkaCluster = some k →
      (GetKafkaCluster c json id opt).ret = (some k, none) ∧ k.HasFieldsOf j) ∧
    (∀ create j k, Received c (CreateKafkaCluster c json create) resp → resp.StatusCode = 202 →
      parseJSON resp.Body.data = some j → decodeKafkaCluster ext j zeroKafkaCluster = some k →
      (CreateKafkaCluster c json create).ret = (some k, none) ∧ k.HasFieldsOf j) ∧
    (∀ id update j k, Received c (UpdateKafkaCluster c json id update) resp →
      resp.StatusCode = 202 →
      parseJSON resp.Body.data = some j → decodeKafkaCluster ext j zeroKafkaCluster = some k →
      (UpdateKafkaCluster c json id update).ret = (some k, none) ∧ k.HasFieldsOf j) ∧
    (∀ create j a, Received c (CreateAPIKey c json create) resp → resp.StatusCode = 202 →
      parseJSON resp.Body.data = some j → decodeAPIKey ext j zeroAPIKey = some a →
      (CreateAPIKey c json create).ret = (some a, none) ∧ a.HasFieldsOf j) ∧
    (∀ create s j k, Received c (CreateKafkaCluster c json create) resp →
      resp.StatusCode = 202 →
      parseJSON resp.Body.data = some j → decodeKafkaCluster ext j zeroKafkaCluster = some k →
      j.path ["spec", "display_name"] = some (.str s) →
      (CreateKafkaCluster c json create).ret = (some k, none) ∧ k.Spec.DisplayName = s) ∧
    (∀ create s, Received c (CreateKafkaCluster c json create) resp → resp.StatusCode = 202 →
      resp.Body.data = displayNameBody s →
      ∃ k, (CreateKafkaCluster c json create).ret = (some k, none) ∧ k.Spec.DisplayName = s) := by
  refine ⟨?_, ?_, ?_, ?_, ?_, ?_, ?_⟩
  · intro opt j l hr hc hp hd
    have h := hr.roundTrip_ok (ListKafkaClusters_sent c json opt)
    have hv := hj.1 _ _ (decodeBody_eq_some _ _ _ j l hp hd)
    refine ⟨?_, KafkaClusterList_hasFieldsOf ext j l hd⟩
    simp [ListKafkaClusters, ConfluentClient.doRequest, h, StatusOK, hc, hv]
  · intro id opt j k hr hc hp hd
    have h := hr.roundTrip_ok (GetKafkaCluster_sent c json id opt)
    have hv := hj.2.1 _ _ (decodeBody_eq_some _ _ _ j k hp hd)
    refine ⟨?_, KafkaCluster_hasFieldsOf ext j k hd⟩
    simp [GetKafkaCluster, ConfluentClient.doRequest, h, StatusOK, hc, hv]
  · intro create j k hr hc hp hd
    have h := hr.roundTrip_ok (CreateKafkaCluster_sent c json create)
    have hv := hj.2.1 _ _ (decodeBody_eq_some _ _ _ j k hp hd)
    refine ⟨?_, KafkaCluster_hasFieldsOf ext j k hd⟩
    simp [CreateKafkaCluster, ConfluentClient.doRequest, h, StatusAccepted, hc, hv]
  · intro id update j k hr hc hp hd
    have h := hr.roundTrip_ok (UpdateKafkaCluster_sent c json id update)
    have hv := hj.2.1 _ _ (decodeBody_eq_some _ _ _ j k hp hd)
    refine ⟨?_, KafkaCluster_hasFieldsOf ext j k hd⟩
    simp [UpdateKafkaCluster, ConfluentClient.doRequest, h, StatusAccepted, hc, hv]
  · intro create j a hr hc hp hd
    have h := hr.roundTrip_ok (CreateAPIKey_sent c json create)
    have hv := hj.2.2 _ _ (decodeBody_eq_some _ _ _ j a hp hd)
    refine ⟨?_, APIKey_hasFieldsOf ext j a hd⟩
    simp [CreateAPIKey, ConfluentClient.doRequest, h, StatusAccepted, hc, hv]
  · intro create s j k hr hc hp hd hs
    have h := hr.roundTrip_ok (CreateKafkaCluster_sent c json create)
    have hv := hj.2.1 _ _ (decodeBody_eq_some _ _ _ j k hp hd)
    refine ⟨?_, (KafkaCluster_hasFieldsOf ext j k hd).1 s hs⟩
    simp [CreateKafkaCluster, ConfluentClient.doRequest, h, StatusAccepted, hc, hv]
  · intro create s hr hc hb
    have h := hr.roundTrip_ok (CreateKafkaCluster_sent c json create)
    have hp : parseJSON resp.Body.data = some (.obj [("spec", .obj [("display_name", .str s)])]) := by
      rw [hb]
      exact parseJSON_displayNameBody s
    have hv := hj.2.1 _ _ (decodeBody_eq_some _ _ _ _ _ hp (decodeKafkaCluster_displayName ext s))
    refine ⟨{ zeroKafkaCluster with Spec := { zeroKafkaCluster.Spec with DisplayName := s } },
      ?_, rfl⟩
    simp [CreateKafkaCluster, ConfluentClient.doRequest, h, StatusAccepted, hc, hv]

/-- Witness of C2: the sample bodies are parsed and decoded by the model; each
operation returns the decoded value, and `CreateKafkaCluster` on the `prod`
request and a 202 response returns a cluster named `prod`. -/
theorem success_returns_decoded_witness :
    ((ListKafkaClusters (respondWith (mkResponse 200 "200 OK" listBody)) sampleJSON none).ret
        = (some { BaseModel := emptyBase, Data := [sampleCluster "prod"] }, none) ∧
      KafkaClusterList.HasFieldsOf sampleExt
        { BaseModel := emptyBase, Data := [sampleCluster "prod"] } listJson) ∧
    ((GetKafkaCluster (respondWith (mkResponse 200 "200 OK" prodBody)) sampleJSON "lkc-1"
        none).ret = (some (sampleCluster "prod"), none) ∧
      (sampleCluster "prod").HasFieldsOf prodJson) ∧
    ((CreateKafkaCluster (respondWith (mkResponse 202 "202 Accepted" prodBody)) sampleJSON
        (some prodCreateReq)).ret = (some (sampleCluster "prod"), none) ∧
      (sampleCluster "prod").HasFieldsOf prodJson) ∧
    ((UpdateKafkaCluster (respondWith (mkResponse 202 "202 Accepted" prodBody)) sampleJSON "lkc-1"
        none).ret = (some (sampleCluster "prod"), none) ∧
      (sampleCluster "prod").HasFieldsOf prodJson) ∧
    ((CreateAPIKey (respondWith (mkResponse 202 "202 Accepted" keyBody)) sampleJSON none).ret
        = (some sampleKey, none) ∧
      sampleKey.HasFieldsOf keyJson) ∧
    ((CreateKafkaCluster (respondWith (mkResponse 202 "202 Accepted" prodBody)) sampleJSON
        (some prodCreateReq)).ret = (some (sampleCluster "prod"), none) ∧
      (sampleCluster "prod").Spec.DisplayName = "prod") ∧
    (displayNameBody "prod" = "\x7b\"spec\":\x7b\"display_name\":\"prod\"\x7d\x7d" ∧
      ∃ k, (CreateKafkaCluster (respondWith (mkResponse 202 "202 Accepted"
          (displayNameBody "prod"))) sampleJSON (some prodCreateReq)).ret = (some k, none) ∧
        k.Spec.DisplayName = "prod") :=
  ⟨(success_returns_decoded _ sampleJSON sampleExt (modelJSON_agrees _ _)
      (mkResponse 200 "200 OK" listBody)).1 none listJson
      { BaseModel := emptyBase, Data := [sampleCluster "prod"] }
      (received_respondWith _ _ (by simp [ListKafkaClusters_sent])) (by decide) rfl rfl,
   (success_returns_decoded _ sampleJSON sampleExt (modelJSON_agrees _ _)
      (mkResponse 200 "200 OK" prodBody)).2.1 "lkc-1" none prodJson (sampleCluster "prod")
      (received_respondWith _ _ (by simp [GetKafkaCluster_sent])) (by decide) rfl rfl,
   (success_returns_decoded _ sampleJSON sampleExt (modelJSON_agrees _ _)
      (mkResponse 202 "202 Accepted" prodBody)).2.2.1 (some prodCreateReq) prodJson
      (sampleCluster "prod")
      (received_respondWith _ _ (by simp [CreateKafkaCluster_sent])) (by decide) rfl rfl,
   (success_returns_decoded _ sampleJSON sampleExt (modelJSON_agrees _ _)
      (mkResponse 202 "202 Accepted" prodBody)).2.2.2.1 "lkc-1" none prodJson
      (sampleCluster "prod")
      (received_respondWith _ _ (by simp [UpdateKafkaCluster_sent])) (by decide) rfl rfl,
   (success_returns_decoded _ sampleJSON sampleExt (modelJSON_agrees _ _)
      (mkResponse 202 "202 Accepted" keyBody)).2.2.2.2.1 none keyJson sampleKey
      (received_respondWith _ _ (by simp [CreateAPIKey_sent])) (by decide) rfl rfl,
   (success_returns_decoded _ sampleJSON sampleExt (modelJSON_agrees _ _)
      (mkResponse 202 "202 Accepted" prodBody)).2.2.2.2.2.1 (some prodCreateReq) "prod" prodJson
      (sampleCluster "prod")
      (received_respondWith _ _ (by simp [CreateKafkaCluster_sent])) (by decide) rfl rfl rfl,
   by decide,
   (success_returns_decoded _ sampleJSON sampleExt (modelJSON_agrees _ _)
      (mkResponse 202 "202 Accepted" (displayNameBody "prod"))).2.2.2.2.2.2 (some prodCreateReq)
      "prod" (received_respondWith _ _ (by simp [CreateKafkaCluster_sent])) (by decide) rfl⟩

/-! ## Deleting a cluster -/

/-- C3: for every cluster id, options value and transport response,
`DeleteKafkaCluster` returns a nil error if and only if the status code is 200
or 204; for every other status code it returns an error whose message contains
the status text of the response. -/
theorem delete_nil_iff_200_or_204 (c : ConfluentClient) (id : String)
    (opt : KafkaClusterListOptions) (resp : Response)
    (hr : Received c (DeleteKafkaCluster c id opt) resp) :
    ((DeleteKafkaCluster c id opt).ret = none ↔
      (resp.StatusCode = 200 ∨ resp.StatusCode = 204)) ∧
    (¬ (resp.StatusCode = 200 ∨ resp.StatusCode = 204) →
      ∃ e, (DeleteKafkaCluster c id opt).ret = some e ∧ resp.Status.data <:+: e.Error.data) := by
  have h := hr.roundTrip_ok (DeleteKafkaCluster_sent c id opt)
  by_cases h200 : resp.StatusCode = 200
  · simp [DeleteKafkaCluster, ConfluentClient.doRequest, h, StatusOK, StatusNoContent, h200]
  · by_cases h204 : resp.StatusCode = 204
    · simp [DeleteKafkaCluster, ConfluentClient.doRequest, h, StatusOK, StatusNoContent, h204]
    · have hc2 : ¬ (200 : Int) = resp.StatusCode := fun h2 => h200 h2.symm
      have hc3 : ¬ (204 : Int) = resp.StatusCode := fun h2 => h204 h2.symm
      refine ⟨?_, ?_⟩
      · simp [DeleteKafkaCluster, ConfluentClient.doRequest, h, StatusOK, StatusNoContent,
          h200, h204, hc2, hc3]
      · intro _
        refine ⟨.errorf ("failed to delete kafka cluster: " ++ resp.Status), ?_, ?_⟩
        · simp [DeleteKafkaCluster, ConfluentClient.doRequest, h, StatusOK, StatusNoContent,
            hc2, hc3]
        · exact (status_suffix_of_message _ _).isInfix

/-- Witness of C3: on `404 Not Found` the error is not nil and its message
contains the status text; on `204 No Content` the error is nil. -/
theorem delete_nil_iff_200_or_204_witness :
    (∃ e, (DeleteKafkaCluster (respondWith (mkResponse 404 "404 Not Found" "")) "lkc-1"
        noOptions).ret = some e ∧ "404 Not Found".data <:+: e.Error.data) ∧
    (DeleteKafkaCluster (respondWith (mkResponse 204 "204 No Content" "")) "lkc-1"
        noOptions).ret = none :=
  ⟨(delete_nil_iff_200_or_204 _ "lkc-1" noOptions (mkResponse 404 "404 Not Found" "")
      (received_respondWith _ _ (by simp [DeleteKafkaCluster_sent]))).2 (by decide),
   (delete_nil_iff_200_or_204 _ "lkc-1" noOptions (mkResponse 204 "204 No Content" "")
      (received_respondWith _ _ (by simp [DeleteKafkaCluster_sent]))).1.2 (by decide)⟩

/-! ## Updating one broker configuration -/

/-- C4: for every host, cluster id, config name and value,
`UpdateKafkaClusterConfig` hands the transport exactly one request: a PUT to the
host given by the caller, with the path
`/kafka/v3/clusters/{id}/broker-configs/{config}`, a body that serialises to the
JSON object with the single key `value` mapped to the given value, and no query
options; when the status of the response is 204 it returns a nil error. -/
theorem config_put_request (c : ConfluentClient) (host id config value : String) :
    (UpdateKafkaClusterConfig c host id config value).sent =
      [{ host := some host,
         path := "/kafka/v3/clusters/" ++ id ++ "/broker-configs/" ++ config,
         method := .MethodPut,
         body := .value (.stringMap [("value", value)]),
         query := .nil }] ∧
    (∀ enc, ReqBody.marshal enc (.value (.stringMap [("value", value)])) =
      some (.obj [("value", .str value)])) ∧
    (∀ resp, Received c (UpdateKafkaClusterConfig c host id config value) resp →
      resp.StatusCode = 204 → (UpdateKafkaClusterConfig c host id config value).ret = none) := by
  refine ⟨UpdateKafkaClusterConfig_sent c host id config value, fun _ => rfl, ?_⟩
  intro resp hr hc
  have h := hr.roundTrip_ok (UpdateKafkaClusterConfig_sent c host id config value)
  simp [UpdateKafkaClusterConfig, ConfluentClient.doRequestByHost, h, StatusNoContent, hc]

/-- Witness of C4: config `retention.ms` with value `604800000` on cluster
`lkc-1` and a `204 No Content` response. -/
theorem config_put_request_witness :
    (UpdateKafkaClusterConfig (respondWith (mkResponse 204 "204 No Content" ""))
        "https://pkc-1.example" "lkc-1" "retention.ms" "604800000").sent =
      [{ host := some "https://pkc-1.example",
         path := "/kafka/v3/clusters/lkc-1/broker-configs/retention.ms",
         method := .MethodPut,
         body := .value (.stringMap [("value", "604800000")]),
         query := .nil }] ∧
    ReqBody.marshal (fun _ => Json.null) (.value (.stringMap [("value", "604800000")])) =
      some (.obj [("value", .str "604800000")]) ∧
    (UpdateKafkaClusterConfig (respondWith (mkResponse 204 "204 No Content" ""))
        "https://pkc-1.example" "lkc-1" "retention.ms" "604800000").ret = none :=
  ⟨(config_put_request (respondWith (mkResponse 204 "204 No Content" ""))
      "https://pkc-1.example" "lkc-1" "retention.ms" "604800000").1,
   (config_put_request (respondWith (mkResponse 204 "204 No Content" ""))
      "https://pkc-1.example" "lkc-1" "retention.ms" "604800000").2.1 (fun _ => Json.null),
   (config_put_request (respondWith (mkResponse 204 "204 No Content" ""))
      "https://pkc-1.example" "lkc-1" "retention.ms" "604800000").2.2
      (mkResponse 204 "204 No Content" "")
      (received_respondWith _ _ (by simp [UpdateKafkaClusterConfig_sent])) (by decide)⟩

/-! ## The documented requests -/

/-- C5: each operation hands the transport exactly the documented request.
List is GET `/cmk/v2/clusters` and get is GET `/cmk/v2/clusters/{id}`, with the
options of the caller and no body; create is POST `/cmk/v2/clusters` and update
is PATCH `/cmk/v2/clusters/{id}`, with the request wrapped under `spec` and no
query options; delete is DELETE `/cmk/v2/clusters/{id}` with the options of the
caller and no body; API-key create is POST `/iam/v2/api-keys` with the request
wrapped under `spec`; these six go to the default host.  The batch config update
is POST `/kafka/v3/clusters/{id}/broker-configs:alter` on the host of the caller
with the update request as body, not wrapped under `spec`. -/
theorem documented_requests (c : ConfluentClient) (json : JSONDecoder) (enc : Payload → Json) :
    (∀ opt, (ListKafkaClusters c json opt).sent =
      [{ host := none, path := "/cmk/v2/clusters", method := .MethodGet, body := .nil,
         query := .ptr opt }]) ∧
    (∀ id opt, (GetKafkaCluster c json id opt).sent =
      [{ host := none, path := "/cmk/v2/clusters/" ++ id, method := .MethodGet, body := .nil,
         query := .ptr opt }]) ∧
    (∀ create, (CreateKafkaCluster c json create).sent =
      [{ host := none, path := "/cmk/v2/clusters", method := .MethodPost,
         body := .specWrap (.KafkaClusterCreateReq create), query := .nil }]) ∧
    (∀ id update, (UpdateKafkaCluster c json id update).sent =
      [{ host := none, path := "/cmk/v2/clusters/" ++ id, method := .MethodPatch,
         body := .specWrap (.KafkaClusterUpdateReq update), query := .nil }]) ∧
    (∀ id opt, (DeleteKafkaCluster c id opt).sent =
      [{ host := none, path := "/cmk/v2/clusters/" ++ id, method := .MethodDelete, body := .nil,
         query := .val opt }]) ∧
    (∀ create, (CreateAPIKey c json create).sent =
      [{ host := none, path := "/iam/v2/api-keys", method := .MethodPost,
         body := .specWrap (.CreateAPIKeyReq create), query := .nil }]) ∧
    (∀ host id update, (UpdateKafkaClusterConfigs c host id update).sent =
      [{ host := some host, path := "/kafka/v3/clusters/" ++ id ++ "/broker-configs:alter",
         method := .MethodPost, body := .value (.KafkaClusterConfigUpdateReq update),
         query := .nil }]) ∧
    ReqBody.marshal enc .nil = none ∧
    (∀ create, ReqBody.marshal enc (.specWrap (.KafkaClusterCreateReq create)) =
      some (.obj [("spec", enc (.KafkaClusterCreateReq create))])) ∧
    (∀ update, ReqBody.marshal enc (.specWrap (.KafkaClusterUpdateReq update)) =
      some (.obj [("spec", enc (.KafkaClusterUpdateReq update))])) ∧
    (∀ create, ReqBody.marshal enc (.specWrap (.CreateAPIKeyReq create)) =
      some (.obj [("spec", enc (.CreateAPIKeyReq create))])) ∧
    (∀ update, ReqBody.marshal enc (.value (.KafkaClusterConfigUpdateReq update)) =
      some (enc (.KafkaClusterConfigUpdateReq update))) :=
  ⟨ListKafkaClusters_sent c json, GetKafkaCluster_sent c json, CreateKafkaCluster_sent c json,
   UpdateKafkaCluster_sent c json, DeleteKafkaCluster_sent c, CreateAPIKey_sent c json,
   UpdateKafkaClusterConfigs_sent c, rfl, fun _ => rfl, fun _ => rfl, fun _ => rfl,
   fun _ => rfl⟩

/-! ## Transport failures -/

/-- C6, as stated, fails for `UpdateKafkaClusterConfig`: it does not return the
transport error itself but a new error made by `fmt.Errorf`. -/
theorem config_put_wraps_transport_error :
    ¬ (∀ (c : ConfluentClient) (host id config value : String) (e : GoError),
        TransportFailed c (UpdateKafkaClusterConfig c host id config value) e →
        (UpdateKafkaClusterConfig c host id config value).ret = some e) := by
  intro hall
  have h := hall (failWith (.foreign "dial tcp: i/o timeout")) "https://pkc-1.example" "lkc-1"
    "retention.ms" "604800000" (.foreign "dial tcp: i/o timeout")
    (transportFailed_failWith _ _ (by simp [UpdateKafkaClusterConfig_sent]))
  simp [UpdateKafkaClusterConfig, ConfluentClient.doRequestByHost, failWith] at h

/-- C6, amended: when the transport helper fails with error `e`, every operation
other than `UpdateKafkaClusterConfig` returns exactly `e` and, where it has a
result, a nil result; `UpdateKafkaClusterConfig` returns a new error whose
message is `failed to update kafka cluster: ` followed by the message of `e`. -/
theorem transport_error_surfaced (c : ConfluentClient) (json : JSONDecoder) (e : GoError) :
    (∀ opt, TransportFailed c (ListKafkaClusters c json opt) e →
      (ListKafkaClusters c json opt).ret = (none, some e)) ∧
    (∀ id opt, TransportFailed c (GetKafkaCluster c json id opt) e →
      (GetKafkaCluster c json id opt).ret = (none, some e)) ∧
    (∀ create, TransportFailed c (CreateKafkaCluster c json create) e →
      (CreateKafkaCluster c json create).ret = (none, some e)) ∧
    (∀ id update, TransportFailed c (UpdateKafkaCluster c json id update) e →
      (UpdateKafkaCluster c json id update).ret = (none, some e)) ∧
    (∀ id opt, TransportFailed c (DeleteKafkaCluster c id opt) e →
      (DeleteKafkaCluster c id opt).ret = some e) ∧
    (∀ host id update, TransportFailed c (UpdateKafkaClusterConfigs c host id update) e →
      (UpdateKafkaClusterConfigs c host id update).ret = some e) ∧
    (∀ create, TransportFailed c (CreateAPIKey c json create) e →
      (CreateAPIKey c json create).ret = (none, some e)) ∧
    (∀ host id config value,
      TransportFailed c (UpdateKafkaClusterConfig c host id config value) e →
      (UpdateKafkaClusterConfig c host id config value).ret =
        some (.errorf ("failed to update kafka cluster: " ++ e.Error))) := by
  refine ⟨?_, ?_, ?_, ?_, ?_, ?_, ?_, ?_⟩
  · intro opt hf
    have h := hf.roundTrip_error (ListKafkaClusters_sent c json opt)
    simp [ListKafkaClusters, ConfluentClient.doRequest, h]
  · intro id opt hf
    have h := hf.roundTrip_error (GetKafkaCluster_sent c json id opt)
    simp [GetKafkaCluster, ConfluentClient.doRequest, h]
  · intro create hf
    have h := hf.roundTrip_error (CreateKafkaCluster_sent c json create)
    simp [CreateKafkaCluster, ConfluentClient.doRequest, h]
  · intro id update hf
    have h := hf.roundTrip_error (UpdateKafkaCluster_sent c json id update)
    simp [UpdateKafkaCluster, ConfluentClient.doRequest, h]
  · intro id opt hf
    have h := hf.roundTrip_error (DeleteKafkaCluster_sent c id opt)
    simp [DeleteKafkaCluster, ConfluentClient.doRequest, h]
  · intro host id update hf
    have h := hf.roundTrip_error (UpdateKafkaClusterConfigs_sent c host id update)
    simp [UpdateKafkaClusterConfigs, ConfluentClient.doRequestByHost, h]
  · intro create hf
    have h := hf.roundTrip_error (CreateAPIKey_sent c json create)
    simp [CreateAPIKey, ConfluentClient.doRequest, h]
  · intro host id config value hf
    have h := hf.roundTrip_error (UpdateKafkaClusterConfig_sent c host id config value)
    simp [UpdateKafkaClusterConfig, ConfluentClient.doRequestByHost, h]

/-- Witness of C6, amended: a transport that fails with a dial timeout. -/
theorem transport_error_surfaced_witness :
    (ListKafkaClusters (failWith (.foreign "dial tcp: i/o timeout")) sampleJSON none).ret
      = (none, some (.foreign "dial tcp: i/o timeout")) ∧
    (GetKafkaCluster (failWith (.foreign "dial tcp: i/o timeout")) sampleJSON "lkc-1" none).ret
      = (none, some (.foreign "dial tcp: i/o timeout")) ∧
    (CreateKafkaCluster (failWith (.foreign "dial tcp: i/o timeout")) sampleJSON
      (some prodCreateReq)).ret = (none, some (.foreign "dial tcp: i/o timeout")) ∧
    (UpdateKafkaCluster (failWith (.foreign "dial tcp: i/o timeout")) sampleJSON "lkc-1"
      none).ret = (none, some (.foreign "dial tcp: i/o timeout")) ∧
    (DeleteKafkaCluster (failWith (.foreign "dial tcp: i/o timeout")) "lkc-1" noOptions).ret
      = some (.foreign "dial tcp: i/o timeout") ∧
    (UpdateKafkaClusterConfigs (failWith (.foreign "dial tcp: i/o timeout"))
      "https://pkc-1.example" "lkc-1" none).ret = some (.foreign "dial tcp: i/o timeout") ∧
    (CreateAPIKey (failWith (.foreign "dial tcp: i/o timeout")) sampleJSON none).ret
      = (none, some (.foreign "dial tcp: i/o timeout")) ∧
    (UpdateKafkaClusterConfig (failWith (.foreign "dial tcp: i/o timeout"))
      "https://pkc-1.example" "lkc-1" "retention.ms" "604800000").ret
      = some (.errorf "failed to update kafka cluster: dial tcp: i/o timeout") :=
  ⟨(transport_error_surfaced _ sampleJSON (.foreign "dial tcp: i/o timeout")).1 none
      (transportFailed_failWith _ _ (by simp [ListKafkaClusters_sent])),
   (transport_error_surfaced _ sampleJSON (.foreign "dial tcp: i/o timeout")).2.1 "lkc-1" none
      (transportFailed_failWith _ _ (by simp [GetKafkaCluster_sent])),
   (transport_error_surfaced _ sampleJSON (.foreign "dial tcp: i/o timeout")).2.2.1
      (some prodCreateReq)
      (transportFailed_failWith _ _ (by simp [CreateKafkaCluster_sent])),
   (transport_error_surfaced _ sampleJSON (.foreign "dial tcp: i/o timeout")).2.2.2.1
      "lkc-1" none
      (transportFailed_failWith _ _ (by simp [UpdateKafkaCluster_sent])),
   (transport_error_surfaced _ sampleJSON (.foreign "dial tcp: i/o timeout")).2.2.2.2.1
      "lkc-1" noOptions
      (transportFailed_failWith _ _ (by simp [DeleteKafkaCluster_sent])),
   (transport_error_surfaced _ sampleJSON (.foreign "dial tcp: i/o timeout")).2.2.2.2.2.1
      "https://pkc-1.example" "lkc-1" none
      (transportFailed_failWith _ _ (by simp [UpdateKafkaClusterConfigs_sent])),
   (transport_error_surfaced _ sampleJSON (.foreign "dial tcp: i/o timeout")).2.2.2.2.2.2.1
      none
      (transportFailed_failWith _ _ (by simp [CreateAPIKey_sent])),
   (transport_error_surfaced _ sampleJSON (.foreign "dial tcp: i/o timeout")).2.2.2.2.2.2.2
      "https://pkc-1.example" "lkc-1" "retention.ms" "604800000"
      (transportFailed_failWith _ _ (by simp [UpdateKafkaClusterConfig_sent]))⟩

/-! ## The status codes of success -/

/-- C7, as stated, fails for `DeleteKafkaCluster`: it returns a nil error on
200 and on 204, so the status code of success is not unique. -/
theorem delete_success_code_not_unique :
    ¬ ∃! code : Int,
      (DeleteKafkaCluster (respondWith (mkResponse code "" "")) "lkc-1" noOptions).ret = none := by
  rintro ⟨code, -, huniq⟩
  have h200 : (200 : Int) = code := huniq 200 (by decide)
  have h204 : (204 : Int) = code := huniq 204 (by decide)
  omega

/-- C7, amended: every operation other than `DeleteKafkaCluster` returns a nil
error (given a decodable body, where it decodes) on exactly one status code: 200
for list and get, 202 for cluster create, cluster update and API-key create, 204
for both config updates; `DeleteKafkaCluster` returns a nil error on exactly the
two codes 200 and 204. -/
theorem success_status_codes (c : ConfluentClient) (json : JSONDecoder) (resp : Response) :
    (∀ opt v, Received c (ListKafkaClusters c json opt) resp →
      json.KafkaClusterList resp.Body.data = .ok v →
      ((ListKafkaClusters c json opt).ret.2 = none ↔ resp.StatusCode = 200)) ∧
    (∀ id opt v, Received c (GetKafkaCluster c json id opt) resp →
      json.KafkaCluster resp.Body.data = .ok v →
      ((GetKafkaCluster c json id opt).ret.2 = none ↔ resp.StatusCode = 200)) ∧
    (∀ create v, Received c (CreateKafkaCluster c json create) resp →
      json.KafkaCluster resp.Body.data = .ok v →
      ((CreateKafkaCluster c json create).ret.2 = none ↔ resp.StatusCode = 202)) ∧
    (∀ id update v, Received c (UpdateKafkaCluster c json id update) resp →
      json.KafkaCluster resp.Body.data = .ok v →
      ((UpdateKafkaCluster c json id update).ret.2 = none ↔ resp.StatusCode = 202)) ∧
    (∀ create v, Received c (CreateAPIKey c json create) resp →
      json.APIKey resp.Body.data = .ok v →
      ((CreateAPIKey c json create).ret.2 = none ↔ resp.StatusCode = 202)) ∧
    (∀ host id update, Received c (UpdateKafkaClusterConfigs c host id update) resp →
      ((UpdateKafkaClusterConfigs c host id update).ret = none ↔ resp.StatusCode = 204)) ∧
    (∀ host id config value, Received c (UpdateKafkaClusterConfig c host id config value) resp →
      ((UpdateKafkaClusterConfig c host id config value).ret = none ↔ resp.StatusCode = 204)) ∧
    (∀ id opt, Received c (DeleteKafkaCluster c id opt) resp →
      ((DeleteKafkaCluster c id opt).ret = none ↔
        (resp.StatusCode = 200 ∨ resp.StatusCode = 204))) := by
  refine ⟨?_, ?_, ?_, ?_, ?_, ?_, ?_, ?_⟩
  · intro opt v hr hd
    have h := hr.roundTrip_ok (ListKafkaClusters_sent c json opt)
    by_cases hc : resp.StatusCode = 200
    · simp [ListKafkaClusters, ConfluentClient.doRequest, h, StatusOK, hc, hd]
    · have hc2 : ¬ (200 : Int) = resp.StatusCode := fun h2 => hc h2.symm
      simp [ListKafkaClusters, ConfluentClient.doRequest, h, StatusOK, hc, hc2]
  · intro id opt v hr hd
    have h := hr.roundTrip_ok (GetKafkaCluster_sent c json id opt)
    by_cases hc : resp.StatusCode = 200
    · simp [GetKafkaCluster, ConfluentClient.doRequest, h, StatusOK, hc, hd]
    · have hc2 : ¬ (200 : Int) = resp.StatusCode := fun h2 => hc h2.symm
      simp [GetKafkaCluster, ConfluentClient.doRequest, h, StatusOK, hc, hc2]
  · intro create v hr hd
    have h := hr.roundTrip_ok (CreateKafkaCluster_sent c json create)
    by_cases hc : resp.StatusCode = 202
    · simp [CreateKafkaCluster, ConfluentClient.doRequest, h, StatusAccepted, hc, hd]
    · have hc2 : ¬ (202 : Int) = resp.StatusCode := fun h2 => hc h2.symm
      simp [CreateKafkaCluster, ConfluentClient.doRequest, h, StatusAccepted, hc, hc2]
  · intro id update v hr hd
    have h := hr.roundTrip_ok (UpdateKafkaCluster_sent c json id update)
    by_cases hc : resp.StatusCode = 202
    · simp [UpdateKafkaCluster, ConfluentClient.doRequest, h, StatusAccepted, hc, hd]
    · have hc2 : ¬ (202 : Int) = resp.StatusCode := fun h2 => hc h2.symm
      simp [UpdateKafkaCluster, ConfluentClient.doRequest, h, StatusAccepted, hc, hc2]
  · intro create v hr hd
    have h := hr.roundTrip_ok (CreateAPIKey_sent c json create)
    by_cases hc : resp.StatusCode = 202
    · simp [CreateAPIKey, ConfluentClient.doRequest, h, StatusAccepted, hc, hd]
    · have hc2 : ¬ (202 : Int) = resp.StatusCode := fun h2 => hc h2.symm
      simp [CreateAPIKey, ConfluentClient.doRequest, h, StatusAccepted, hc, hc2]
  · intro host id update hr
    have h := hr.roundTrip_ok (UpdateKafkaClusterConfigs_sent c host id update)
    by_cases hc : resp.StatusCode = 204
    · simp [UpdateKafkaClusterConfigs, ConfluentClient.doRequestByHost, h, StatusNoContent, hc]
    · have hc2 : ¬ (204 : Int) = resp.StatusCode := fun h2 => hc h2.symm
      simp [UpdateKafkaClusterConfigs, ConfluentClient.doRequestByHost, h, StatusNoContent,
        hc, hc2]
  · intro host id config value hr
    have h := hr.roundTrip_ok (UpdateKafkaClusterConfig_sent c host id config value)
    by_cases hc : resp.StatusCode = 204
    · simp [UpdateKafkaClusterConfig, ConfluentClient.doRequestByHost, h, StatusNoContent, hc]
    · have hc2 : ¬ (204 : Int) = resp.StatusCode := fun h2 => hc h2.symm
      simp [UpdateKafkaClusterConfig, ConfluentClient.doRequestByHost, h, StatusNoContent,
        hc, hc2]
  · intro id opt hr
    have h := hr.roundTrip_ok (DeleteKafkaCluster_sent c id opt)
    by_cases h200 : resp.StatusCode = 200
    · simp [DeleteKafkaCluster, ConfluentClient.doRequest, h, StatusOK, StatusNoContent, h200]
    · by_cases h204 : resp.StatusCode = 204
      · simp [DeleteKafkaCluster, ConfluentClient.doRequest, h, StatusOK, StatusNoContent, h204]
      · have hc2 : ¬ (200 : Int) = resp.StatusCode := fun h2 => h200 h2.symm
        have hc3 : ¬ (204 : Int) = resp.StatusCode := fun h2 => h204 h2.symm
        simp [DeleteKafkaCluster, ConfluentClient.doRequest, h, StatusOK, StatusNoContent,
          h200, h204, hc2, hc3]

/-- Witness of C7, amended: each operation succeeds on its code, and
`DeleteKafkaCluster` on both of its codes. -/
theorem success_status_codes_witness :
    (ListKafkaClusters (respondWith (mkResponse 200 "200 OK" listBody)) sampleJSON none).ret.2
      = none ∧
    (GetKafkaCluster (respondWith (mkResponse 200 "200 OK" prodBody)) sampleJSON "lkc-1"
      none).ret.2 = none ∧
    (CreateKafkaCluster (respondWith (mkResponse 202 "202 Accepted" prodBody)) sampleJSON
      (some prodCreateReq)).ret.2 = none ∧
    (UpdateKafkaCluster (respondWith (mkResponse 202 "202 Accepted" prodBody)) sampleJSON "lkc-1"
      none).ret.2 = none ∧
    (CreateAPIKey (respondWith (mkResponse 202 "202 Accepted" keyBody)) sampleJSON none).ret.2
      = none ∧
    (UpdateKafkaClusterConfigs (respondWith (mkResponse 204 "204 No Content" ""))
      "https://pkc-1.example" "lkc-1" none).ret = none ∧
    (UpdateKafkaClusterConfig (respondWith (mkResponse 204 "204 No Content" ""))
      "https://pkc-1.example" "lkc-1" "retention.ms" "604800000").ret = none ∧
    (DeleteKafkaCluster (respondWith (mkResponse 200 "200 OK" "")) "lkc-1" noOptions).ret = none ∧
    (DeleteKafkaCluster (respondWith (mkResponse 204 "204 No Content" "")) "lkc-1"
      noOptions).ret = none :=
  ⟨((success_status_codes _ sampleJSON (mkResponse 200 "200 OK" listBody)).1 none
      { BaseModel := emptyBase, Data := [sampleCluster "prod"] }
      (received_respondWith _ _ (by simp [ListKafkaClusters_sent]))
      rfl).2 (by decide),
   ((success_status_codes _ sampleJSON (mkResponse 200 "200 OK" prodBody)).2.1 "lkc-1" none (sampleCluster "prod")
      (received_respondWith _ _ (by simp [GetKafkaCluster_sent]))
      rfl).2 (by decide),
   ((success_status_codes _ sampleJSON (mkResponse 202 "202 Accepted" prodBody)).2.2.1
      (some prodCreateReq) (sampleCluster "prod")
      (received_respondWith _ _ (by simp [CreateKafkaCluster_sent]))
      rfl).2 (by decide),
   ((success_status_codes _ sampleJSON (mkResponse 202 "202 Accepted" prodBody)).2.2.2.1
      "lkc-1" none (sampleCluster "prod")
      (received_respondWith _ _ (by simp [UpdateKafkaCluster_sent]))
      rfl).2 (by decide),
   ((success_status_codes _ sampleJSON (mkResponse 202 "202 Accepted" keyBody)).2.2.2.2.1
      none sampleKey
      (received_respondWith _ _ (by simp [CreateAPIKey_sent]))
      rfl).2 (by decide),
   ((success_status_codes _ sampleJSON (mkResponse 204 "204 No Content" "")).2.2.2.2.2.1
      "https://pkc-1.example" "lkc-1" none
      (received_respondWith _ _ (by simp [UpdateKafkaClusterConfigs_sent]))).2 (by decide),
   ((success_status_codes _ sampleJSON (mkResponse 204 "204 No Content" "")).2.2.2.2.2.2.1
      "https://pkc-1.example" "lkc-1" "retention.ms" "604800000"
      (received_respondWith _ _ (by simp [UpdateKafkaClusterConfig_sent]))).2 (by decide),
   ((success_status_codes _ sampleJSON (mkResponse 200 "200 OK" "")).2.2.2.2.2.2.2
      "lkc-1" noOptions
      (received_respondWith _ _ (by simp [DeleteKafkaCluster_sent]))).2 (by decide),
   ((success_status_codes _ sampleJSON (mkResponse 204 "204 No Content" "")).2.2.2.2.2.2.2
      "lkc-1" noOptions
      (received_respondWith _ _ (by simp [DeleteKafkaCluster_sent]))).2 (by decide)⟩

/-! ## The message of a status error -/

/-- C8: for every operation and every response with a non-success status code,
the message of the returned error is a fixed prefix of the operation followed by
the status line of the response, unchanged; the status line is a suffix of the
message, and the message does not depend on the body of the response. -/
theorem status_error_message (c : ConfluentClient) (json : JSONDecoder) (resp : Response) :
    (∀ opt, Received c (ListKafkaClusters c json opt) resp → resp.StatusCode ≠ 200 →
      ∃ e, (ListKafkaClusters c json opt).ret.2 = some e ∧
        e.Error = "failed to list kafka clusters: " ++ resp.Status ∧
        resp.Status.data <:+ e.Error.data) ∧
    (∀ id opt, Received c (GetKafkaCluster c json id opt) resp → resp.StatusCode ≠ 200 →
      ∃ e, (GetKafkaCluster c json id opt).ret.2 = some e ∧
        e.Error = "failed to get kafka cluster: " ++ resp.Status ∧
        resp.Status.data <:+ e.Error.data) ∧
    (∀ create, Received c (CreateKafkaCluster c json create) resp → resp.StatusCode ≠ 202 →
      ∃ e, (CreateKafkaCluster c json create).ret.2 = some e ∧
        e.Error = "failed to create cluster: " ++ resp.Status ∧
        resp.Status.data <:+ e.Error.data) ∧
    (∀ id update, Received c (UpdateKafkaCluster c json id update) resp →
      resp.StatusCode ≠ 202 →
      ∃ e, (UpdateKafkaCluster c json id update).ret.2 = some e ∧
        e.Error = "failed to update kafka cluster: " ++ resp.Status ∧
        resp.Status.data <:+ e.Error.data) ∧
    (∀ id opt, Received c (DeleteKafkaCluster c id opt) resp →
      resp.StatusCode ≠ 200 → resp.StatusCode ≠ 204 →
      ∃ e, (DeleteKafkaCluster c id opt).ret = some e ∧
        e.Error = "failed to delete kafka cluster: " ++ resp.Status ∧
        resp.Status.data <:+ e.Error.data) ∧
    (∀ host id update, Received c (UpdateKafkaClusterConfigs c host id update) resp →
      resp.StatusCode ≠ 204 →
      ∃ e, (UpdateKafkaClusterConfigs c host id update).ret = some e ∧
        e.Error = "failed to update kafka cluster: " ++ resp.Status ∧
        resp.Status.data <:+ e.Error.data) ∧
    (∀ host id config value, Received c (UpdateKafkaClusterConfig c host id config value) resp →
      resp.StatusCode ≠ 204 →
      ∃ e, (UpdateKafkaClusterConfig c host id config value).ret = some e ∧
        e.Error = "failed to update kafka cluster: " ++ resp.Status ∧
        resp.Status.data <:+ e.Error.data) ∧
    (∀ create, Received c (CreateAPIKey c json create) resp → resp.StatusCode ≠ 202 →
      ∃ e, (CreateAPIKey c json create).ret.2 = some e ∧
        e.Error = "failed to create api key: " ++ resp.Status ∧
        resp.Status.data <:+ e.Error.data) := by
  refine ⟨?_, ?_, ?_, ?_, ?_, ?_, ?_, ?_⟩
  · intro opt hr hc
    have h := hr.roundTrip_ok (ListKafkaClusters_sent c json opt)
    have hc2 : ¬ (200 : Int) = resp.StatusCode := fun h2 => hc h2.symm
    refine ⟨.errorf ("failed to list kafka clusters: " ++ resp.Status), ?_, rfl,
      status_suffix_of_message _ _⟩
    simp [ListKafkaClusters, ConfluentClient.doRequest, h, StatusOK, hc2]
  · intro id opt hr hc
    have h := hr.roundTrip_ok (GetKafkaCluster_sent c json id opt)
    have hc2 : ¬ (200 : Int) = resp.StatusCode := fun h2 => hc h2.symm
    refine ⟨.errorf ("failed to get kafka cluster: " ++ resp.Status), ?_, rfl,
      status_suffix_of_message _ _⟩
    simp [GetKafkaCluster, ConfluentClient.doRequest, h, StatusOK, hc2]
  · intro create hr hc
    have h := hr.roundTrip_ok (CreateKafkaCluster_sent c json create)
    have hc2 : ¬ (202 : Int) = resp.StatusCode := fun h2 => hc h2.symm
    refine ⟨.errorf ("failed to create cluster: " ++ resp.Status), ?_, rfl,
      status_suffix_of_message _ _⟩
    simp [CreateKafkaCluster, ConfluentClient.doRequest, h, StatusAccepted, hc2]
  · intro id update hr hc
    have h := hr.roundTrip_ok (UpdateKafkaCluster_sent c json id update)
    have hc2 : ¬ (202 : Int) = resp.StatusCode := fun h2 => hc h2.symm
    refine ⟨.errorf ("failed to update kafka cluster: " ++ resp.Status), ?_, rfl,
      status_suffix_of_message _ _⟩
    simp [UpdateKafkaCluster, ConfluentClient.doRequest, h, StatusAccepted, hc2]
  · intro id opt hr hc hc'
    have h := hr.roundTrip_ok (DeleteKafkaCluster_sent c id opt)
    have hc2 : ¬ (200 : Int) = resp.StatusCode := fun h2 => hc h2.symm
    have hc3 : ¬ (204 : Int) = resp.StatusCode := fun h2 => hc' h2.symm
    refine ⟨.errorf ("failed to delete kafka cluster: " ++ resp.Status), ?_, rfl,
      status_suffix_of_message _ _⟩
    simp [DeleteKafkaCluster, ConfluentClient.doRequest, h, StatusOK, StatusNoContent, hc2, hc3]
  · intro host id update hr hc
    have h := hr.roundTrip_ok (UpdateKafkaClusterConfigs_sent c host id update)
    have hc2 : ¬ (204 : Int) = resp.StatusCode := fun h2 => hc h2.symm
    refine ⟨.errorf ("failed to update kafka cluster: " ++ resp.Status), ?_, rfl,
      status_suffix_of_message _ _⟩
    simp [UpdateKafkaClusterConfigs, ConfluentClient.doRequestByHost, h, StatusNoContent, hc2]
  · intro host id config value hr hc
    have h := hr.roundTrip_ok (UpdateKafkaClusterConfig_sent c host id config value)
    have hc2 : ¬ (204 : Int) = resp.StatusCode := fun h2 => hc h2.symm
    refine ⟨.errorf ("failed to update kafka cluster: " ++ resp.Status), ?_, rfl,
      status_suffix_of_message _ _⟩
    simp [UpdateKafkaClusterConfig, ConfluentClient.doRequestByHost, h, StatusNoContent, hc2]
  · intro create hr hc
    have h := hr.roundTrip_ok (CreateAPIKey_sent c json create)
    have hc2 : ¬ (202 : Int) = resp.StatusCode := fun h2 => hc h2.symm
    refine ⟨.errorf ("failed to create api key: " ++ resp.Status), ?_, rfl,
      status_suffix_of_message _ _⟩
    simp [CreateAPIKey, ConfluentClient.doRequest, h, StatusAccepted, hc2]

/-- Witness of C8: each operation on a response with a non-success status
returns an error whose message is its fixed text followed by the status line. -/
theorem status_error_message_witness :
    (∃ e, (ListKafkaClusters (respondWith (mkResponse 500 "500 Internal Server Error" "body")) sampleJSON none).ret.2 = some e ∧
      e.Error = "failed to list kafka clusters: 500 Internal Server Error" ∧
      "500 Internal Server Error".data <:+ e.Error.data) ∧
    (∃ e, (GetKafkaCluster (respondWith (mkResponse 404 "404 Not Found" "body")) sampleJSON "lkc-1" none).ret.2 = some e ∧
      e.Error = "failed to get kafka cluster: 404 Not Found" ∧
      "404 Not Found".data <:+ e.Error.data) ∧
    (∃ e, (CreateKafkaCluster (respondWith (mkResponse 201 "201 Created" "body")) sampleJSON (some prodCreateReq)).ret.2 = some e ∧
      e.Error = "failed to create cluster: 201 Created" ∧
      "201 Created".data <:+ e.Error.data) ∧
    (∃ e, (UpdateKafkaCluster (respondWith (mkResponse 200 "200 OK" "body")) sampleJSON "lkc-1" none).ret.2 = some e ∧
      e.Error = "failed to update kafka cluster: 200 OK" ∧
      "200 OK".data <:+ e.Error.data) ∧
    (∃ e, (DeleteKafkaCluster (respondWith (mkResponse 404 "404 Not Found" "body")) "lkc-1" noOptions).ret = some e ∧
      e.Error = "failed to delete kafka cluster: 404 Not Found" ∧
      "404 Not Found".data <:+ e.Error.data) ∧
    (∃ e, (UpdateKafkaClusterConfigs (respondWith (mkResponse 400 "400 Bad Request" "body")) "https://pkc-1.example" "lkc-1" none).ret = some e ∧
      e.Error = "failed to update kafka cluster: 400 Bad Request" ∧
      "400 Bad Request".data <:+ e.Error.data) ∧
    (∃ e, (UpdateKafkaClusterConfig (respondWith (mkResponse 400 "400 Bad Request" "body")) "https://pkc-1.example" "lkc-1" "retention.ms" "604800000").ret = some e ∧
      e.Error = "failed to update kafka cluster: 400 Bad Request" ∧
      "400 Bad Request".data <:+ e.Error.data) ∧
    (∃ e, (CreateAPIKey (respondWith (mkResponse 403 "403 Forbidden" "body")) sampleJSON none).ret.2 = some e ∧
      e.Error = "failed to create api key: 403 Forbidden" ∧
      "403 Forbidden".data <:+ e.Error.data) :=
  ⟨(status_error_message _ sampleJSON (mkResponse 500 "500 Internal Server Error" "body")).1 none
      (received_respondWith _ _ (by simp [ListKafkaClusters_sent])) (by decide),
   (status_error_message _ sampleJSON (mkResponse 404 "404 Not Found" "body")).2.1 "lkc-1" none
      (received_respondWith _ _ (by simp [GetKafkaCluster_sent])) (by decide),
   (status_error_message _ sampleJSON (mkResponse 201 "201 Created" "body")).2.2.1 (some prodCreateReq)
      (received_respondWith _ _ (by simp [CreateKafkaCluster_sent])) (by decide),
   (status_error_message _ sampleJSON (mkResponse 200 "200 OK" "body")).2.2.2.1 "lkc-1" none
      (received_respondWith _ _ (by simp [UpdateKafkaCluster_sent])) (by decide),
   (status_error_message _ sampleJSON (mkResponse 404 "404 Not Found" "body")).2.2.2.2.1 "lkc-1" noOptions
      (received_respondWith _ _ (by simp [DeleteKafkaCluster_sent])) (by decide) (by decide),
   (status_error_message _ sampleJSON (mkResponse 400 "400 Bad Request" "body")).2.2.2.2.2.1 "https://pkc-1.example" "lkc-1" none
      (received_respondWith _ _ (by simp [UpdateKafkaClusterConfigs_sent])) (by decide),
   (status_error_message _ sampleJSON (mkResponse 400 "400 Bad Request" "body")).2.2.2.2.2.2.1 "https://pkc-1.example" "lkc-1" "retention.ms" "604800000"
      (received_respondWith _ _ (by simp [UpdateKafkaClusterConfig_sent])) (by decide),
   (status_error_message _ sampleJSON (mkResponse 403 "403 Forbidden" "body")).2.2.2.2.2.2.2 none
      (received_respondWith _ _ (by simp [CreateAPIKey_sent])) (by decide)⟩

/-! ## Decode failures -/

/-- C9: for each operation that decodes a result, when the response has the
success status of the operation and the decoder fails on the body with error
`e`, the operation returns a nil result and exactly `e`. -/
theorem decode_error_surfaced (c : ConfluentClient) (json : JSONDecoder) (resp : Response)
    (e : GoError) :
    (∀ opt, Received c (ListKafkaClusters c json opt) resp → resp.StatusCode = 200 →
      json.KafkaClusterList resp.Body.data = .error e →
      (ListKafkaClusters c json opt).ret = (none, some e)) ∧
    (∀ id opt, Received c (GetKafkaCluster c json id opt) resp → resp.StatusCode = 200 →
      json.KafkaCluster resp.Body.data = .error e →
      (GetKafkaCluster c json id opt).ret = (none, some e)) ∧
    (∀ create, Received c (CreateKafkaCluster c json create) resp → resp.StatusCode = 202 →
      json.KafkaCluster resp.Body.data = .error e →
      (CreateKafkaCluster c json create).ret = (none, some e)) ∧
    (∀ id update, Received c (UpdateKafkaCluster c json id update) resp →
      resp.StatusCode = 202 → json.KafkaCluster resp.Body.data = .error e →
      (UpdateKafkaCluster c json id update).ret = (none, some e)) ∧
    (∀ create, Received c (CreateAPIKey c json create) resp → resp.StatusCode = 202 →
      json.APIKey resp.Body.data = .error e →
      (CreateAPIKey c json create).ret = (none, some e)) := by
  refine ⟨?_, ?_, ?_, ?_, ?_⟩
  · intro opt hr hc hd
    have h := hr.roundTrip_ok (ListKafkaClusters_sent c json opt)
    simp [ListKafkaClusters, ConfluentClient.doRequest, h, StatusOK, hc, hd]
  · intro id opt hr hc hd
    have h := hr.roundTrip_ok (GetKafkaCluster_sent c json id opt)
    simp [GetKafkaCluster, ConfluentClient.doRequest, h, StatusOK, hc, hd]
  · intro create hr hc hd
    have h := hr.roundTrip_ok (CreateKafkaCluster_sent c json create)
    simp [CreateKafkaCluster, ConfluentClient.doRequest, h, StatusAccepted, hc, hd]
  · intro id update hr hc hd
    have h := hr.roundTrip_ok (UpdateKafkaCluster_sent c json id update)
    simp [UpdateKafkaCluster, ConfluentClient.doRequest, h, StatusAccepted, hc, hd]
  · intro create hr hc hd
    have h := hr.roundTrip_ok (CreateAPIKey_sent c json create)
    simp [CreateAPIKey, ConfluentClient.doRequest, h, StatusAccepted, hc, hd]

/-- Witness of C9: a success response whose body is not JSON; the sample decoder
fails with `syntaxError` and each operation returns that error. -/
theorem decode_error_surfaced_witness :
    (ListKafkaClusters (respondWith (mkResponse 200 "200 OK" "<html>")) sampleJSON none).ret
      = (none, some syntaxError) ∧
    (GetKafkaCluster (respondWith (mkResponse 200 "200 OK" "<html>")) sampleJSON "lkc-1"
      none).ret = (none, some syntaxError) ∧
    (CreateKafkaCluster (respondWith (mkResponse 202 "202 Accepted" "<html>")) sampleJSON
      (some prodCreateReq)).ret = (none, some syntaxError) ∧
    (UpdateKafkaCluster (respondWith (mkResponse 202 "202 Accepted" "<html>")) sampleJSON "lkc-1"
      none).ret = (none, some syntaxError) ∧
    (CreateAPIKey (respondWith (mkResponse 202 "202 Accepted" "<html>")) sampleJSON none).ret
      = (none, some syntaxError) :=
  ⟨(decode_error_surfaced _ sampleJSON (mkResponse 200 "200 OK" "<html>") syntaxError).1 none
      (received_respondWith _ _ (by simp [ListKafkaClusters_sent])) (by decide) rfl,
   (decode_error_surfaced _ sampleJSON (mkResponse 200 "200 OK" "<html>") syntaxError).2.1
      "lkc-1" none
      (received_respondWith _ _ (by simp [GetKafkaCluster_sent])) (by decide) rfl,
   (decode_error_surfaced _ sampleJSON (mkResponse 202 "202 Accepted" "<html>") syntaxError).2.2.1
      (some prodCreateReq)
      (received_respondWith _ _ (by simp [CreateKafkaCluster_sent])) (by decide) rfl,
   (decode_error_surfaced _ sampleJSON
      (mkResponse 202 "202 Accepted" "<html>") syntaxError).2.2.2.1 "lkc-1" none
      (received_respondWith _ _ (by simp [UpdateKafkaCluster_sent])) (by decide) rfl,
   (decode_error_surfaced _ sampleJSON
      (mkResponse 202 "202 Accepted" "<html>") syntaxError).2.2.2.2 none
      (received_respondWith _ _ (by simp [CreateAPIKey_sent])) (by decide) rfl⟩

/-! ## Closing the response body -/

/-- C10 fails on the code: after `DeleteKafkaCluster` on a 200 response, after
`ListKafkaClusters` and `UpdateKafkaClusterConfigs` on a 500 response, and after
`CreateAPIKey` on a 202 response with a decodable body, the body of the response
is still open. -/
theorem response_body_left_open :
    (DeleteKafkaCluster (respondWith (mkResponse 200 "200 OK" "")) "lkc-1" noOptions).body
      = some { data := "", closed := false } ∧
    (ListKafkaClusters (respondWith (mkResponse 500 "500 Internal Server Error" "oops"))
      sampleJSON none).body = some { data := "oops", closed := false } ∧
    (UpdateKafkaClusterConfigs (respondWith (mkResponse 500 "500 Internal Server Error" "oops"))
      "https://pkc-1.example" "lkc-1" none).body = some { data := "oops", closed := false } ∧
    (CreateAPIKey (respondWith (mkResponse 202 "202 Accepted" keyBody)) sampleJSON none).body
      = some { data := keyBody, closed := false } := by
  exact ⟨by decide, by decide, by decide, rfl⟩

/-- The paths on which the body is closed: list, get, cluster create and cluster
update close it whenever the status is the success code, whether or not the
decoder fails, and both config updates close it on 204. -/
theorem body_closed_on_success_status (c : ConfluentClient) (json : JSONDecoder)
    (resp : Response) :
    (∀ opt, Received c (ListKafkaClusters c json opt) resp → resp.StatusCode = 200 →
      (ListKafkaClusters c json opt).body = some resp.Body.Close) ∧
    (∀ id opt, Received c (GetKafkaCluster c json id opt) resp → resp.StatusCode = 200 →
      (GetKafkaCluster c json id opt).body = some resp.Body.Close) ∧
    (∀ create, Received c (CreateKafkaCluster c json create) resp → resp.StatusCode = 202 →
      (CreateKafkaCluster c json create).body = some resp.Body.Close) ∧
    (∀ id update, Received c (UpdateKafkaCluster c json id update) resp →
      resp.StatusCode = 202 →
      (UpdateKafkaCluster c json id update).body = some resp.Body.Close) ∧
    (∀ host id update, Received c (UpdateKafkaClusterConfigs c host id update) resp →
      resp.StatusCode = 204 →
      (UpdateKafkaClusterConfigs c host id update).body = some resp.Body.Close) ∧
    (∀ host id config value, Received c (UpdateKafkaClusterConfig c host id config value) resp →
      resp.StatusCode = 204 →
      (UpdateKafkaClusterConfig c host id config value).body = some resp.Body.Close) := by
  refine ⟨?_, ?_, ?_, ?_, ?_, ?_⟩
  · intro opt hr hc
    have h := hr.roundTrip_ok (ListKafkaClusters_sent c json opt)
    cases hd : json.KafkaClusterList resp.Body.data <;>
      simp [ListKafkaClusters, ConfluentClient.doRequest, h, StatusOK, hc, hd]
  · intro id opt hr hc
    have h := hr.roundTrip_ok (GetKafkaCluster_sent c json id opt)
    cases hd : json.KafkaCluster resp.Body.data <;>
      simp [GetKafkaCluster, ConfluentClient.doRequest, h, StatusOK, hc, hd]
  · intro create hr hc
    have h := hr.roundTrip_ok (CreateKafkaCluster_sent c json create)
    cases hd : json.KafkaCluster resp.Body.data <;>
      simp [CreateKafkaCluster, ConfluentClient.doRequest, h, StatusAccepted, hc, hd]
  · intro id update hr hc
    have h := hr.roundTrip_ok (UpdateKafkaCluster_sent c json id update)
    cases hd : json.KafkaCluster resp.Body.data <;>
      simp [UpdateKafkaCluster, ConfluentClient.doRequest, h, StatusAccepted, hc, hd]
  · intro host id update hr hc
    have h := hr.roundTrip_ok (UpdateKafkaClusterConfigs_sent c host id update)
    simp [UpdateKafkaClusterConfigs, ConfluentClient.doRequestByHost, h, StatusNoContent, hc]
  · intro host id config value hr hc
    have h := hr.roundTrip_ok (UpdateKafkaClusterConfig_sent c host id config value)
    simp [UpdateKafkaClusterConfig, ConfluentClient.doRequestByHost, h, StatusNoContent, hc]

end ccloud
